import Mathlib

/-!
# ArduCastControl: a shallow embedding of `ArduCastControl.cpp` / `ArduCastControl.h`

The development embeds the Chromecast control library in Lean and checks the statements of
its specification against the embedded code.

Conventions of the embedding

* Bytes, `uint8_t`, `uint16_t`, `uint32_t`, `unsigned long` are natural numbers; every place
  where the C code can wrap reduces explicitly (`wrap8`, `wrap16`, `wrap32`).  `unsigned long`
  is 32 bits wide, as on the ESP8266/ESP32 targets of the library.
* `float` members (`volume`, `duration`, `currentTime`) are exact rationals.
* Memory objects (`connBuffer`, the `char[50]` members, string constants) are lists of bytes.
  A read outside the object whose value decides the result, a `NULL` string handed to
  `strcmp`/`strncpy` and a loop that does not come to an end are reported as a `Fault`; the
  functions that can fault return `Except Fault _`.  `memcmp` compares byte by byte and
  stops at the first difference, so a length beyond the end of an object is a fault only
  when the bytes agree up to that end.
* The `int8_t` counter of `pbDecodeVarint` wraps from 127 to -128 (two's complement, as on
  the targets of the library); the loop then reads the bytes before its start pointer.
* `client.connected()` is a field of the transport record: it can change between calls,
  not in the middle of one.
* The collaborators that are not part of the repository (the TLS client, nanopb's `pb_encode`,
  ArduinoJson's `deserializeJson`, the `%f` conversion of `snprintf`, the generated tag
  numbers of `cast_channel.pb.h`) are a transport record and the fields of `Env`.
* `millis()` is the field `millis` of the state; it only moves inside a call when
  `getRawMessage` waits for its timeout.
-/

namespace ArduCast

/-! ## Machine integers -/

/-- Reduction to `uint8_t`. -/
def wrap8 (n : Nat) : Nat := n % 256

/-- Reduction to `uint16_t`. -/
def wrap16 (n : Nat) : Nat := n % 65536

/-- Reduction to `uint32_t` / `unsigned long`. -/
def wrap32 (n : Nat) : Nat := n % 4294967296

/-- Unsigned 32-bit subtraction `a - b` of two `unsigned long` values. -/
def sub32 (a b : Nat) : Nat := wrap32 (wrap32 a + (4294967296 - wrap32 b))

/-- Ways in which an execution leaves the defined behaviour of the C program (or the
embedding runs out of loop budget). -/
inductive Fault where
  | outOfRange
  | nullString
  | fuel
  deriving DecidableEq, Repr

instance instDecidableEqExcept {ε α : Type} [DecidableEq ε] [DecidableEq α] :
    DecidableEq (Except ε α)
  | .ok a, .ok b =>
    if h : a = b then isTrue (by rw [h]) else isFalse (fun h1 => h (Except.ok.inj h1))
  | .error a, .error b =>
    if h : a = b then isTrue (by rw [h]) else isFalse (fun h1 => h (Except.error.inj h1))
  | .ok _, .error _ => isFalse (fun h => Except.noConfusion h)
  | .error _, .ok _ => isFalse (fun h => Except.noConfusion h)

/-- ASCII bytes of a string literal (without the terminating NUL). -/
def bytes (s : String) : List Nat := s.toList.map Char.toNat

/-! ## Constants of `ArduCastControl.cpp` and `ArduCastControl.h` -/

def CC_SOURCEID : List Nat := bytes "sender-0"
def CC_MAIN_DESTIID : List Nat := bytes "receiver-0"
def CC_NS_CONNECTION : List Nat := bytes "urn:x-cast:com.google.cast.tp.connection"
def CC_NS_RECEIVER : List Nat := bytes "urn:x-cast:com.google.cast.receiver"
def CC_NS_HEARTBEAT : List Nat := bytes "urn:x-cast:com.google.cast.tp.heartbeat"
def CC_NS_MEDIA : List Nat := bytes "urn:x-cast:com.google.cast.media"
def CC_MSG_CONNECT : List Nat := bytes "\x7b\"type\": \"CONNECT\"\x7d"
def CC_MSG_PING : List Nat := bytes "\x7b\"type\": \"PING\"\x7d"
def CC_MSG_GET_STATUS : List Nat := bytes "\x7b\"type\": \"GET_STATUS\", \"requestId\": 1\x7d"
def CC_MSG_PLAY : List Nat :=
  bytes "\x7b\"type\": \"PLAY\", \"requestId\": 2, \"mediaSessionId\": "
def CC_MSG_PAUSE : List Nat :=
  bytes "\x7b\"type\": \"PAUSE\", \"requestId\": 2, \"mediaSessionId\": "
def CC_MSG_NEXT : List Nat :=
  bytes "\x7b\"type\": \"QUEUE_NEXT\", \"requestId\": 2, \"mediaSessionId\": "
def CC_MSG_PREV : List Nat :=
  bytes "\x7b\"type\": \"QUEUE_PREV\", \"requestId\": 2, \"mediaSessionId\": "
def CC_MSG_SET_VOL : List Nat :=
  bytes "\x7b\"type\": \"SET_VOLUME\", \"requestId\": 2, \"volume\": \x7b\"level\": "
def CC_MSG_VOL_MUTE : List Nat :=
  bytes "\x7b\"type\": \"SET_VOLUME\", \"requestId\": 2, \"volume\": \x7b\"muted\": "

/-- Size of `connBuffer` (`CONNBUFFER_SIZE`). -/
def CONNBUFFER_SIZE : Nat := 4096

/-- Keepalive interval handed to both channels (`PING_TIMEOUT`). -/
def PING_TIMEOUT : Nat := 5000


/-! ## C strings -/

/-- `strlen` of a character object: the index of its first NUL; a fault when the object holds
no NUL (the read would run behind the object). -/
def strlen (a : List Nat) : Except Fault Nat :=
  let s := a.takeWhile (fun c => c != 0)
  if s.length < a.length then .ok s.length else .error .outOfRange

/-- The C string stored in a character object (the bytes before its first NUL). -/
def cstr (a : List Nat) : Except Fault (List Nat) :=
  match strlen a with
  | .ok n => .ok (a.take n)
  | .error e => .error e

/-- `strncpy(dest, src, n)`: the new content of the first `n` bytes of `dest`.
Bytes of `src` are copied up to its first NUL or up to `n` bytes, the rest is filled
with NUL.  A fault when `src` holds no NUL within its object and is shorter than `n`. -/
def strncpy (src : List Nat) (n : Nat) : Except Fault (List Nat) :=
  let s := src.takeWhile (fun c => c != 0)
  if n ≤ s.length then .ok (s.take n)
  else if s.length < src.length then .ok (s ++ List.replicate (n - s.length) 0)
  else .error .outOfRange

/-- The comparison of `memcmp(a, b, n) == 0`, byte by byte: the bytes are compared in
order and the first difference decides, so `n` may exceed the size of an object when the
two differ before its end (the scan compares a field of any declared length with a
40-byte, 41-byte or 50-byte object).  When the bytes agree as far as one of the two
objects reaches and `n` runs behind it, the bytes compared next lie outside the object
and the program does not determine the outcome (behind `destId` lie padding and the
members `lastMsgAt` and `connected`, behind a string constant whatever the linker has
placed there): a fault. -/
def memcmpWalk : List Nat → List Nat → Nat → Except Fault Bool
  | _, _, 0 => .ok true
  | a :: as, b :: bs, n + 1 => if a = b then memcmpWalk as bs n else .ok false
  | _, _, _ + 1 => .error .outOfRange

/-- `memcmp(buf + off, other, n) == 0`. -/
def memcmpEq (buf : List Nat) (off : Nat) (other : List Nat) (n : Nat) : Except Fault Bool :=
  memcmpWalk (buf.drop off) other n

/-- Digits of the `%d` conversion, most significant first.  Ten rounds cover every
`int32_t` magnitude. -/
def fmtNatLoop : Nat → Nat → List Nat → List Nat
  | 0, _, acc => acc
  | rounds + 1, n, acc =>
    let acc1 := (48 + n % 10) :: acc
    if n / 10 = 0 then acc1 else fmtNatLoop rounds (n / 10) acc1

/-- The `%d` conversion of `snprintf` for an `int32_t`. -/
def fmtInt (i : Int) : List Nat :=
  if i < 0 then 45 :: fmtNatLoop 10 i.natAbs [] else fmtNatLoop 10 i.natAbs []

/-- The string `snprintf(cc_msg_ctrl, sizeof(cc_msg_ctrl), ...)` leaves in the 128-byte
buffer `cc_msg_ctrl`: at most 127 characters of the formatted text. -/
def snprintf128 (formatted : List Nat) : List Nat := formatted.take 127

/-! ## Collaborators -/

/-- Fields of the `CastMessage` envelope that `writeMsg` hands to `pb_encode`
(`payload_type` is always `STRING`). -/
structure CastMessage where
  source_id : List Nat
  destination_id : List Nat
  namespace_fix : List Nat
  payload_utf8 : List Nat
  deriving DecidableEq, Repr

/-- Value tree of a parsed JSON document (ArduinoJson `JsonVariant`). -/
inductive Json where
  | null
  | bool (b : Bool)
  | num (q : ℚ)
  | str (s : List Nat)
  | arr (xs : List Json)
  | obj (kvs : List (List Nat × Json))

/-- Collaborators outside the repository.
* `pbEncode cap msg`: nanopb `pb_encode` into a stream of capacity `cap`; the result is the
  status and the bytes the encoder left in the stream.
* `deserializeJson input`: ArduinoJson `deserializeJson` on the given input bytes, `none`
  on a `DeserializationError` (this includes a failed allocation of the document).
* `asFloat`, `asBool`, `asInt`: ArduinoJson's conversions of a variant to `float`, `bool`
  and `int32_t`.
* `fmtFloat`: the `%f` conversion of `snprintf`.
* the three tag numbers generated into `cast_channel.pb.h`. -/
structure Env where
  pbEncode : Nat → CastMessage → Bool × List Nat
  deserializeJson : List Nat → Option Json
  asFloat : Json → ℚ
  asBool : Json → Bool
  asInt : Json → Int
  fmtFloat : ℚ → List Nat
  source_id_tag : Nat
  namespace_fix_tag : Nat
  payload_utf8_tag : Nat

/-- Model of the `WiFiClientSecure` transport.
* `connected`: what `connected()` reports.  The link state is a field of the transport:
  between calls it can change, inside one call of the model every query gives the same
  answer, so a link that is lost in the middle of a call is not represented.  A lost link
  does not come back without `connect`: a call that returns with `connected = true` stands
  for a call during which every query found the link up.
* `rx`: the bytes buffered for reading (`available()` is its length).
* `writes`: the bytes accepted by each `write` call so far, oldest first.
* `writeLimit`: how many bytes a `write` call accepts. -/
structure WiFiClientSecure where
  connected : Bool
  rx : List Nat
  writes : List (List Nat)
  writeLimit : Nat
  deriving DecidableEq, Repr

/-- `client.write(buf, n)`: the number of accepted bytes and the transport afterwards. -/
def WiFiClientSecure.write (c : WiFiClientSecure) (data : List Nat) : Nat × WiFiClientSecure :=
  let accepted := min data.length c.writeLimit
  (accepted, { c with writes := c.writes ++ [data.take accepted] })

/-- `client.stopAll()`. -/
def WiFiClientSecure.stopAll (c : WiFiClientSecure) : WiFiClientSecure :=
  { c with connected := false, rx := [] }

/-! ## `ArduCastConnection` -/

inductive channelConnection_t where
  | CH_DISCONNECTED
  | CH_NEEDS_PING
  | CH_CONNECTED
  deriving DecidableEq, Repr

open channelConnection_t

/-- Members of `ArduCastConnection`.  The references `client` and `writeBuffer` point into
the owning `ArduCastControl`; the operations below take and return those objects.  The
member `connectionStatus` of the class is never read or written and is left out. -/
structure ArduCastConnection where
  keepAlive : Nat
  writeBufferSize : Nat
  destId : List Nat
  lastMsgAt : Nat
  connected : Bool
  deriving DecidableEq, Repr

/-- `ArduCastConnection::pinged()`. -/
def ArduCastConnection.pinged (self : ArduCastConnection) (millis : Nat) : ArduCastConnection :=
  { self with lastMsgAt := millis }

/-- `ArduCastConnection::setDisconnect()`. -/
def ArduCastConnection.setDisconnect (self : ArduCastConnection) : ArduCastConnection :=
  { self with connected := false }

/-- `ArduCastConnection::getConnectionStatus()`: the returned status and the channel
afterwards. -/
def ArduCastConnection.getConnectionStatus (self : ArduCastConnection)
    (client : WiFiClientSecure) (millis : Nat) : channelConnection_t × ArduCastConnection :=
  if !client.connected || !self.connected then (CH_DISCONNECTED, self)
  else if wrap32 (self.lastMsgAt + 3 * self.keepAlive) < millis then
    (CH_DISCONNECTED, { self with connected := false })
  else if wrap32 (self.lastMsgAt + self.keepAlive) < millis then (CH_NEEDS_PING, self)
  else (CH_CONNECTED, self)

/-- `ArduCastConnection::getDestinationId()`. -/
def ArduCastConnection.getDestinationId (self : ArduCastConnection) : List Nat := self.destId

/-- The stream of `writeMsg`: `pb_encode` into `writeBuffer + 4` with capacity
`writeBufferSize - 4`.  Result: status and the bytes written to the stream. -/
def pbEncodeInto (env : Env) (cap : Nat) (msg : CastMessage) : Bool × List Nat :=
  let r := env.pbEncode cap msg
  (r.1 && decide (r.2.length ≤ cap), r.2.take cap)

/-- Big-endian length prefix written by `writeMsg` into `writeBuffer[0..3]`. -/
def lengthPrefix (n : Nat) : List Nat :=
  [(n >>> 24) &&& 0xFF, (n >>> 16) &&& 0xFF, (n >>> 8) &&& 0xFF, (n >>> 0) &&& 0xFF]

/-- Overwrite `buf` from index `at0` on with `data`. -/
def overwrite (buf : List Nat) (at0 : Nat) (data : List Nat) : List Nat :=
  buf.take at0 ++ data ++ buf.drop (at0 + data.length)

/-- `ArduCastConnection::writeMsg(nameSpace, payload)`.  Result: the return code, the
transport and the shared write buffer afterwards. -/
def ArduCastConnection.writeMsg (env : Env) (self : ArduCastConnection)
    (client : WiFiClientSecure) (writeBuffer : List Nat) (nameSpace payload : List Nat) :
    Except Fault (Int × WiFiClientSecure × List Nat) :=
  if !client.connected then .ok (-1, client, writeBuffer)
  else
    match cstr self.destId with
    | .error e => .error e
    | .ok dest =>
      let newMsg : CastMessage :=
        { source_id := CC_SOURCEID, destination_id := dest,
          namespace_fix := nameSpace, payload_utf8 := payload }
      let r := pbEncodeInto env (self.writeBufferSize - 4) newMsg
      let buf1 := overwrite writeBuffer 4 r.2
      if !r.1 then .ok (-2, client, buf1)
      else
        let buf2 := overwrite buf1 0 (lengthPrefix r.2.length)
        let w := client.write (buf2.take (r.2.length + 4))
        if w.1 < r.2.length + 4 then .ok (-3, w.2, buf2)
        else .ok (0, w.2, buf2)

/-- `ArduCastConnection::connect(destinationId)`; `destinationId` is the character object
the pointer refers to.  Result: return code, channel, transport and write buffer. -/
def ArduCastConnection.connect (env : Env) (self : ArduCastConnection)
    (client : WiFiClientSecure) (writeBuffer : List Nat) (millis : Nat)
    (destinationId : List Nat) :
    Except Fault (Int × ArduCastConnection × WiFiClientSecure × List Nat) :=
  match strncpy destinationId 50 with
  | .error e => .error e
  | .ok d =>
    let self1 := { self with destId := d }
    match self1.writeMsg env client writeBuffer CC_NS_CONNECTION CC_MSG_CONNECT with
    | .error e => .error e
    | .ok (err, client1, buf1) =>
      .ok (err, { self1.pinged millis with connected := true }, client1, buf1)

/-- `JsonVariant::operator[](const char*)`: the member, or a null variant. -/
def Json.getMember : Json → List Nat → Json
  | .obj kvs, key =>
    match kvs.find? (fun kv => kv.1 == key) with
    | some kv => kv.2
    | none => .null
  | _, _ => .null

/-- `JsonVariant::containsKey(const char*)`. -/
def Json.containsKey : Json → List Nat → Bool
  | .obj kvs, key => kvs.any (fun kv => kv.1 == key)
  | _, _ => false

/-- `JsonVariant::operator[](int)`: the element, or a null variant. -/
def Json.getElement : Json → Nat → Json
  | .arr xs, i => xs.getD i .null
  | _, _ => .null

/-- `JsonVariant::as<char*>()`: the string, or `NULL` (`none`) for any other variant. -/
def Json.asCStr : Json → Option (List Nat)
  | .str s => some s
  | _ => none

/-- `strcmp(literal, p) == 0` for a string literal and a pointer obtained from
`as<char*>()`; a `NULL` pointer is a fault. -/
def strcmpEq (literal : List Nat) (p : Option (List Nat)) : Except Fault Bool :=
  match p with
  | none => .error .nullString
  | some s => .ok (decide (s.takeWhile (fun c => c != 0) = literal))

/-- The statement pair `strncpy(field, p, sizeof(field)); field[sizeof(field)-1] = '\n';`
for a `char[50]` member and a pointer obtained from `as<char*>()`. -/
def copyField (p : Option (List Nat)) : Except Fault (List Nat) :=
  match p with
  | none => .error .nullString
  | some s =>
    match strncpy (s ++ [0]) 50 with
    | .error e => .error e
    | .ok d => .ok (d.set 49 10)

/-! ## `ArduCastControl` -/

inductive connection_t where
  | DISCONNECTED
  | TCPALIVE
  | CONNECTED
  | APPLICATION_RUNNING
  | WAIT_FOR_RESPONSE
  | CONNECT_TO_APPLICATION
  deriving DecidableEq, Repr

inductive playerState_t where
  | IDLE
  | PLAYING
  | PAUSED
  | BUFFERING
  deriving DecidableEq, Repr

open connection_t playerState_t

/-- Members of `ArduCastControl`, together with the clock `millis` the object reads through
`millis()`. -/
structure ArduCastControl where
  connBuffer : List Nat
  connectionStatus : connection_t
  sessionId : List Nat
  mediaSessionId : Int
  client : WiFiClientSecure
  errorCount : Nat
  deviceConnection : ArduCastConnection
  applicationConnection : ArduCastConnection
  msgSentAt : Nat
  msgSent : Bool
  displayName : List Nat
  statusText : List Nat
  volume : ℚ
  isMuted : Bool
  playerState : playerState_t
  duration : ℚ
  currentTime : ℚ
  title : List Nat
  artist : List Nat
  millis : Nat
  deriving DecidableEq, Repr

/-- `ArduCastControl::getIncomingMessageLength(client)`: the four peeked bytes as a
big-endian `uint32_t`. -/
def getIncomingMessageLength (client : WiFiClientSecure) : Nat :=
  wrap32 ((client.rx.getD 0 0 <<< 24) + (client.rx.getD 1 0 <<< 16)
    + (client.rx.getD 2 0 <<< 8) + client.rx.getD 3 0)

/-- `ArduCastControl::getRawMessage(buffer, bufSize, client, timeout)` started at clock value
`millis`.  Result: the return value, the buffer, the transport and the clock afterwards.
No byte arrives while the call runs: a frame that is not yet complete makes the call wait
until `millis() - start > timeout` first holds and then empty the transport. -/
def getRawMessage (buffer : List Nat) (bufSize : Nat) (client : WiFiClientSecure)
    (millis : Nat) (timeout : Nat) : Nat × List Nat × WiFiClientSecure × Nat :=
  if bufSize ≤ 4 ∨ client.rx.length < 4 then (0, buffer, client, millis)
  else
    let len := wrap16 (getIncomingMessageLength client)
    if client.rx.length < len + 4 then
      (0, buffer, { client with rx := [] }, wrap32 (millis + timeout + 1))
    else
      let dump := if bufSize < len + 4 then len - (bufSize - 4) else 0
      let len1 := if bufSize < len + 4 then bufSize - 4 else len
      (len1 + 4, overwrite buffer 0 (client.rx.take (len1 + 4)),
        { client with rx := client.rx.drop (len1 + 4 + dump) }, millis)

/-! ## Minimal protobuf decoder -/

/-- The index into `buf` of `bufferStart[decoded]` for `bufferStart = buf + start`, where
`decoded` is the `int8_t` counter held in two's complement: 0 .. 127 stand for
themselves, 128 .. 255 for -128 .. -1, so that the byte read lies before `bufferStart`.
No index when that byte lies before the start of `buf`. -/
def int8Index (start decoded : Nat) : Option Nat :=
  if decoded < 128 then some (start + decoded)
  else if 256 ≤ start + decoded then some (start + decoded - 256)
  else none

/-- The `do ... while` loop of `pbDecodeVarint`, reading `bufferStart[decoded]`.
The counter `decoded` is an `int8_t`, held here in two's complement (see `int8Index`):
`decoded++` takes 127 to -128, after which the loop reads the 128 bytes before
`bufferStart`; `acc` is `*decodedInt`.  The argument `budget` counts the passes left:
the counter has 256 values, and when 256 passes in a row have met a byte with the top
bit set the loop reads the same bytes again without end (fault `fuel`).
Result: (`*decodedInt`, the `uint8_t` returned, which is `decoded + 1` modulo 256). -/
def pbDecodeVarintLoop (buf : List Nat) (start : Nat) :
    Nat → Nat → Nat → Except Fault (Nat × Nat)
  | 0, _, _ => .error .fuel
  | budget + 1, decoded, acc =>
    match (int8Index start decoded).bind buf.get? with
    | none => .error .outOfRange
    | some b =>
      let acc1 := wrap32 (acc <<< 7) ||| (b &&& 0x7f)
      if b &&& 0x80 ≠ 0 then pbDecodeVarintLoop buf start budget (wrap8 (decoded + 1)) acc1
      else .ok (acc1, wrap8 (decoded + 1))

/-- `ArduCastControl::pbDecodeVarint(bufferStart, decodedInt)` with `bufferStart = buf + start`.
Result: (`*decodedInt`, returned byte count). -/
def pbDecodeVarint (buf : List Nat) (start : Nat) : Except Fault (Nat × Nat) :=
  pbDecodeVarintLoop buf start 256 0 0

/-- Decoded header: the out-parameters of `pbDecodeHeader` and its return value. -/
structure Header where
  tag : Nat
  wire : Nat
  lengthOrValue : Nat
  processedBytes : Nat
  deriving DecidableEq, Repr

/-- `ArduCastControl::pbDecodeHeader(bufferStart, tag, wire, lengthOrValue)` with
`bufferStart = buf + start`. -/
def pbDecodeHeader (buf : List Nat) (start : Nat) : Except Fault Header :=
  match buf.get? start with
  | none => .error .outOfRange
  | some b0 =>
    match pbDecodeVarint buf (start + 1) with
    | .error e => .error e
    | .ok (v, n) =>
      .ok { tag := b0 >>> 3, wire := b0 &&& 0x07, lengthOrValue := v,
            processedBytes := wrap8 (1 + n) }

/-! ## Channel operations inside the orchestrator

The two channels work on the transport and on `connBuffer` of the orchestrator that owns
them. -/

/-- `deviceConnection.writeMsg(nameSpace, payload)` inside the orchestrator. -/
def devWriteMsg (env : Env) (s : ArduCastControl) (nameSpace payload : List Nat) :
    Except Fault (Int × ArduCastControl) :=
  match s.deviceConnection.writeMsg env s.client s.connBuffer nameSpace payload with
  | .error e => .error e
  | .ok (err, c, b) => .ok (err, { s with client := c, connBuffer := b })

/-- `applicationConnection.writeMsg(nameSpace, payload)` inside the orchestrator. -/
def appWriteMsg (env : Env) (s : ArduCastControl) (nameSpace payload : List Nat) :
    Except Fault (Int × ArduCastControl) :=
  match s.applicationConnection.writeMsg env s.client s.connBuffer nameSpace payload with
  | .error e => .error e
  | .ok (err, c, b) => .ok (err, { s with client := c, connBuffer := b })

/-- `deviceConnection.connect(destinationId)` inside the orchestrator. -/
def devConnect (env : Env) (s : ArduCastControl) (destinationId : List Nat) :
    Except Fault (Int × ArduCastControl) :=
  match s.deviceConnection.connect env s.client s.connBuffer s.millis destinationId with
  | .error e => .error e
  | .ok (err, ch, c, b) =>
    .ok (err, { s with deviceConnection := ch, client := c, connBuffer := b })

/-- `applicationConnection.connect(destinationId)` inside the orchestrator. -/
def appConnect (env : Env) (s : ArduCastControl) (destinationId : List Nat) :
    Except Fault (Int × ArduCastControl) :=
  match s.applicationConnection.connect env s.client s.connBuffer s.millis destinationId with
  | .error e => .error e
  | .ok (err, ch, c, b) =>
    .ok (err, { s with applicationConnection := ch, client := c, connBuffer := b })

/-- `deviceConnection.getConnectionStatus()` inside the orchestrator. -/
def devStatus (s : ArduCastControl) : channelConnection_t × ArduCastControl :=
  let r := s.deviceConnection.getConnectionStatus s.client s.millis
  (r.1, { s with deviceConnection := r.2 })

/-- `applicationConnection.getConnectionStatus()` inside the orchestrator. -/
def appStatus (s : ArduCastControl) : channelConnection_t × ArduCastControl :=
  let r := s.applicationConnection.getConnectionStatus s.client s.millis
  (r.1, { s with applicationConnection := r.2 })

/-! ## Payload interpreter (`loop`, lines 285-388) -/

/-- Lines 291-305: `volume` and `isMuted` from `doc["status"]`. -/
def volumeBlock (env : Env) (s : ArduCastControl) (status : Json) : ArduCastControl :=
  let vol := status.getMember (bytes "volume")
  if status.containsKey (bytes "volume") then
    { s with
      volume := if vol.containsKey (bytes "level") then
          env.asFloat (vol.getMember (bytes "level")) else -1
      isMuted := if vol.containsKey (bytes "muted") then
          env.asBool (vol.getMember (bytes "muted")) else false }
  else { s with volume := -1, isMuted := false }

/-- Lines 307-312: `sessionId` and `connectionStatus` from `applications[0]`. -/
def sessionIdBlock (s : ArduCastControl) (app0 : Json) : Except Fault ArduCastControl :=
  if app0.containsKey (bytes "sessionId") then
    match copyField (app0.getMember (bytes "sessionId")).asCStr with
    | .error e => .error e
    | .ok d => .ok { s with sessionId := d, connectionStatus := CONNECT_TO_APPLICATION }
  else .ok { s with sessionId := s.sessionId.set 0 10 }

/-- Lines 313-317: `statusText` from `applications[0]`. -/
def statusTextBlock (s : ArduCastControl) (app0 : Json) : Except Fault ArduCastControl :=
  if app0.containsKey (bytes "statusText") then
    match copyField (app0.getMember (bytes "statusText")).asCStr with
    | .error e => .error e
    | .ok d => .ok { s with statusText := d }
  else .ok { s with statusText := s.statusText.set 0 10 }

/-- Lines 318-322: `displayName` from `applications[0]`. -/
def displayNameBlock (s : ArduCastControl) (app0 : Json) : Except Fault ArduCastControl :=
  if app0.containsKey (bytes "displayName") then
    match copyField (app0.getMember (bytes "displayName")).asCStr with
    | .error e => .error e
    | .ok d => .ok { s with displayName := d }
  else .ok { s with displayName := s.displayName.set 0 10 }

/-- The `RECEIVER_STATUS` branch of `loop` (lines 290-327) on the parsed document `doc`. -/
def receiverStatus (env : Env) (s : ArduCastControl) (doc : Json) :
    Except Fault ArduCastControl :=
  let status := doc.getMember (bytes "status")
  let s1 := volumeBlock env s status
  if status.containsKey (bytes "applications") then
    let app0 := (status.getMember (bytes "applications")).getElement 0
    match sessionIdBlock s1 app0 with
    | .error e => .error e
    | .ok s2 =>
      match statusTextBlock s2 app0 with
      | .error e => .error e
      | .ok s3 => displayNameBlock s3 app0
  else
    .ok { s1 with sessionId := s1.sessionId.set 0 0, statusText := s1.statusText.set 0 0,
                  displayName := s1.displayName.set 0 0 }

/-- One link of the `playerState` chain: `if (strcmp(literal, p) == 0) playerState = value;
else ...`. -/
def strcmpChain (literal : List Nat) (p : Option (List Nat)) (value : playerState_t)
    (otherwise : Except Fault playerState_t) : Except Fault playerState_t :=
  match strcmpEq literal p with
  | .error e => .error e
  | .ok true => .ok value
  | .ok false => otherwise

/-- The `playerState` chain of `strcmp` calls on `doc["status"][0]["playerState"]`. -/
def parsePlayerState (p : Option (List Nat)) : Except Fault playerState_t :=
  strcmpChain (bytes "IDLE") p IDLE
    (strcmpChain (bytes "BUFFERING") p BUFFERING
      (strcmpChain (bytes "PLAYING") p PLAYING
        (strcmpChain (bytes "PAUSED") p PAUSED (.ok IDLE))))

/-- Lines 330-338: `mediaSessionId` and `currentTime` from `status[0]`. -/
def sessionTimeBlock (env : Env) (s : ArduCastControl) (st0 : Json) : ArduCastControl :=
  { s with
    mediaSessionId := if st0.containsKey (bytes "mediaSessionId") then
        env.asInt (st0.getMember (bytes "mediaSessionId")) else -1
    currentTime := if st0.containsKey (bytes "currentTime") then
        env.asFloat (st0.getMember (bytes "currentTime")) else 0 }

/-- Lines 340-353: `playerState` from `status[0]`. -/
def playerStateBlock (s : ArduCastControl) (st0 : Json) : Except Fault ArduCastControl :=
  if st0.containsKey (bytes "playerState") then
    match parsePlayerState (st0.getMember (bytes "playerState")).asCStr with
    | .error e => .error e
    | .ok ps => .ok { s with playerState := ps }
  else .ok { s with playerState := IDLE }

/-- Lines 362-367: `title` from the metadata object. -/
def titleBlock (s : ArduCastControl) (metadata : Json) : Except Fault ArduCastControl :=
  if metadata.containsKey (bytes "title") then
    match copyField (metadata.getMember (bytes "title")).asCStr with
    | .error e => .error e
    | .ok d => .ok { s with title := d }
  else .ok { s with title := s.title.set 0 0 }

/-- Lines 368-373: `artist` from the metadata object. -/
def artistBlock (s : ArduCastControl) (metadata : Json) : Except Fault ArduCastControl :=
  if metadata.containsKey (bytes "artist") then
    match copyField (metadata.getMember (bytes "artist")).asCStr with
    | .error e => .error e
    | .ok d => .ok { s with artist := d }
  else .ok { s with artist := s.artist.set 0 0 }

/-- Lines 355-383: `duration`, `title` and `artist` from `status[0]["media"]`; nothing
changes when the media object is missing. -/
def mediaBlock (env : Env) (s : ArduCastControl) (st0 : Json) : Except Fault ArduCastControl :=
  if st0.containsKey (bytes "media") then
    let media := st0.getMember (bytes "media")
    let s1 : ArduCastControl :=
      { s with duration := if media.containsKey (bytes "duration") then
          env.asFloat (media.getMember (bytes "duration")) else 0 }
    if media.containsKey (bytes "metadata") then
      match titleBlock s1 (media.getMember (bytes "metadata")) with
      | .error e => .error e
      | .ok s2 => artistBlock s2 (media.getMember (bytes "metadata"))
    else .ok { s1 with title := s1.title.set 0 10, artist := s1.artist.set 0 10 }
  else .ok s

/-- The `MEDIA_STATUS` branch of `loop` (lines 330-384) on the parsed document `doc`. -/
def mediaStatus (env : Env) (s : ArduCastControl) (doc : Json) :
    Except Fault ArduCastControl :=
  let st0 := (doc.getMember (bytes "status")).getElement 0
  match playerStateBlock (sessionTimeBlock env s st0) st0 with
  | .error e => .error e
  | .ok s1 => mediaBlock env s1 st0

/-- Line 289: `if (processPayload == 1 && strcmp("RECEIVER_STATUS", type) == 0) ...`. -/
def receiverBranch (env : Env) (s : ArduCastControl) (doc : Json) (processPayload : Nat) :
    Except Fault ArduCastControl :=
  if processPayload = 1 then
    match strcmpEq (bytes "RECEIVER_STATUS") (doc.getMember (bytes "type")).asCStr with
    | .error e => .error e
    | .ok true => receiverStatus env s doc
    | .ok false => .ok s
  else .ok s

/-- Line 329: `if (processPayload == 2 && strcmp("MEDIA_STATUS", type) == 0) ...`. -/
def mediaBranch (env : Env) (s : ArduCastControl) (doc : Json) (processPayload : Nat) :
    Except Fault ArduCastControl :=
  if processPayload = 2 then
    match strcmpEq (bytes "MEDIA_STATUS") (doc.getMember (bytes "type")).asCStr with
    | .error e => .error e
    | .ok true => mediaStatus env s doc
    | .ok false => .ok s
  else .ok s

/-- The payload block of `loop` (`processPayload > 0` and the tag is `payload_utf8`):
`deserializeJson(doc, connBuffer + offset, lengthOrValue)` and the two status branches.
The parser is handed at most `lengthOrValue` bytes and stops at the end of the document;
what lies behind `connBuffer` is not modelled, the input ends with the buffer. -/
def payloadField (env : Env) (s : ArduCastControl) (offset lengthOrValue processPayload : Nat) :
    Except Fault ArduCastControl :=
  match env.deserializeJson ((s.connBuffer.drop offset).take lengthOrValue) with
  | none => .ok s
  | some doc =>
    if doc.containsKey (bytes "type") && doc.containsKey (bytes "status") then
      match receiverBranch env s doc processPayload with
      | .error e => .error e
      | .ok s1 => mediaBranch env s1 doc processPayload
    else .ok s

/-! ## Field scan and poll cycle -/

/-- Lines 251-257: the comparison of the `source_id` bytes with the device channel's
destination id.  Result: state and `processPayload`. -/
def deviceSource (s : ArduCastControl) (offset lengthOrValue processPayload : Nat) :
    Except Fault (ArduCastControl × Nat) :=
  match memcmpEq s.connBuffer offset s.deviceConnection.getDestinationId lengthOrValue with
  | .error e => .error e
  | .ok true => .ok ({ s with deviceConnection := s.deviceConnection.pinged s.millis }, 1)
  | .ok false => .ok (s, processPayload)

/-- Lines 258-265: `applicationConnection.getConnectionStatus() != CH_DISCONNECTED &&
0 == memcmp(...)` (the comparison only runs when the status is not Disconnected).
Result: state and `processPayload`. -/
def applicationSource (s : ArduCastControl) (offset lengthOrValue processPayload : Nat) :
    Except Fault (ArduCastControl × Nat) :=
  if (appStatus s).1 = CH_DISCONNECTED then .ok ((appStatus s).2, processPayload)
  else
    match memcmpEq (appStatus s).2.connBuffer offset
        (appStatus s).2.applicationConnection.getDestinationId lengthOrValue with
    | .error e => .error e
    | .ok true =>
      .ok ({ (appStatus s).2 with
             applicationConnection :=
               (appStatus s).2.applicationConnection.pinged (appStatus s).2.millis }, 2)
    | .ok false => .ok ((appStatus s).2, processPayload)

/-- The `source_id` block of the scan (lines 250-266).  Result: state and
`processPayload`. -/
def sourceIdField (s : ArduCastControl) (offset lengthOrValue processPayload : Nat) :
    Except Fault (ArduCastControl × Nat) :=
  match deviceSource s offset lengthOrValue processPayload with
  | .error e => .error e
  | .ok r => applicationSource r.1 offset lengthOrValue r.2

/-- Lines 269-271: the comparison with the heartbeat namespace.  Result:
`processPayload`. -/
def heartbeatNamespace (s : ArduCastControl) (offset lengthOrValue processPayload : Nat) :
    Except Fault Nat :=
  match memcmpEq s.connBuffer offset (CC_NS_HEARTBEAT ++ [0]) lengthOrValue with
  | .error e => .error e
  | .ok true => .ok 0
  | .ok false => .ok processPayload

/-- Lines 272-282: the comparison with the connection namespace.  Result: state and
`processPayload`. -/
def connectionNamespace (s : ArduCastControl) (offset lengthOrValue processPayload : Nat) :
    Except Fault (ArduCastControl × Nat) :=
  match memcmpEq s.connBuffer offset (CC_NS_CONNECTION ++ [0]) lengthOrValue with
  | .error e => .error e
  | .ok true =>
    if processPayload = 1 then
      .ok ({ s with applicationConnection := s.applicationConnection.setDisconnect
                    deviceConnection := s.deviceConnection.setDisconnect
                    connectionStatus := TCPALIVE }, 0)
    else if processPayload = 2 then
      .ok ({ s with applicationConnection := s.applicationConnection.setDisconnect }, 0)
    else .ok (s, processPayload)
  | .ok false => .ok (s, processPayload)

/-- The namespace block of the scan (lines 268-283).  Result: state and
`processPayload`. -/
def namespaceField (s : ArduCastControl) (offset lengthOrValue processPayload : Nat) :
    Except Fault (ArduCastControl × Nat) :=
  match heartbeatNamespace s offset lengthOrValue processPayload with
  | .error e => .error e
  | .ok pp1 => connectionNamespace s offset lengthOrValue pp1

/-- One pass through the body of the inner `do ... while (offset < read)` loop.
Result: state, `offset` and `processPayload` at the end of the body. -/
def scanStep (env : Env) (s : ArduCastControl) (offset processPayload : Nat) :
    Except Fault (ArduCastControl × Nat × Nat) :=
  match pbDecodeHeader s.connBuffer offset with
  | .error e => .error e
  | .ok h =>
    let off1 := wrap32 (offset + h.processedBytes)
    match (if h.tag = env.source_id_tag then
        sourceIdField s off1 h.lengthOrValue processPayload
      else .ok (s, processPayload)) with
    | .error e => .error e
    | .ok r1 =>
      match (if h.tag = env.namespace_fix_tag then
          namespaceField r1.1 off1 h.lengthOrValue r1.2
        else .ok r1) with
      | .error e => .error e
      | .ok r2 =>
        match (if 0 < r2.2 ∧ h.tag = env.payload_utf8_tag then
            payloadField env r2.1 off1 h.lengthOrValue r2.2
          else .ok r2.1) with
        | .error e => .error e
        | .ok s3 =>
          .ok (s3, if h.wire = 2 then wrap32 (off1 + h.lengthOrValue) else off1, r2.2)

/-- The inner `do ... while (offset < read)` loop; `fuel` bounds the number of passes. -/
def scanLoop (env : Env) (read : Nat) :
    Nat → ArduCastControl → Nat → Nat → Except Fault ArduCastControl
  | 0, _, _, _ => .error .fuel
  | fuel + 1, s, offset, processPayload =>
    match scanStep env s offset processPayload with
    | .error e => .error e
    | .ok (s1, off1, pp1) =>
      if off1 < read then scanLoop env read fuel s1 off1 pp1 else .ok s1

/-- The call `getRawMessage(connBuffer, CONNBUFFER_SIZE, client, 100)` of `loop`. -/
def readFrame (s : ArduCastControl) : Nat × ArduCastControl :=
  let r := getRawMessage s.connBuffer CONNBUFFER_SIZE s.client s.millis 100
  (r.1, { s with connBuffer := r.2.1, client := r.2.2.1, millis := r.2.2.2 })

/-- The RX part of `loop`: the outer `do ... while (read > 0)`.  `scanFuel` bounds each
field scan, the first numeric argument bounds the number of frames.  Result:
`rxProcessed` and the state. -/
def rxLoop (env : Env) (scanFuel : Nat) :
    Nat → ArduCastControl → Bool → Except Fault (Bool × ArduCastControl)
  | 0, _, _ => .error .fuel
  | fuel + 1, s, rxProcessed =>
    let r := readFrame s
    if 0 < r.1 then
      match scanLoop env r.1 scanFuel { r.2 with msgSent := false, errorCount := 5 } 4 0 with
      | .error e => .error e
      | .ok s1 => rxLoop env scanFuel fuel s1 true
    else .ok (rxProcessed, r.2)

/-- `ArduCastControl::getConnection()`: the returned status and the state afterwards. -/
def getConnection (s : ArduCastControl) : connection_t × ArduCastControl :=
  if s.msgSent then (WAIT_FOR_RESPONSE, s)
  else if (appStatus s).1 = CH_DISCONNECTED then
    ((appStatus s).2.connectionStatus, (appStatus s).2)
  else (APPLICATION_RUNNING, (appStatus s).2)

/-- The statement pair `msgSentAt = millis(); msgSent = true;` guarded by `err == 0`. -/
def markSent (r : Int × ArduCastControl) : ArduCastControl :=
  if r.1 = 0 then { r.2 with msgSentAt := r.2.millis, msgSent := true } else r.2

/-- A send of the priority chain: the `writeMsg` result followed by
`if (err == 0) { msgSentAt = millis(); msgSent = true; }`. -/
def sendAndMark (r : Except Fault (Int × ArduCastControl)) : Except Fault ArduCastControl :=
  match r with
  | .error e => .error e
  | .ok x => .ok (markSent x)

/-- The priority chain of the TX part of `loop` (lines 427-461). -/
def sendNext (env : Env) (s : ArduCastControl) : Except Fault ArduCastControl :=
  if s.connectionStatus = CONNECT_TO_APPLICATION then
    match appConnect env s s.sessionId with
    | .error e => .error e
    | .ok r => .ok (if r.1 = 0 then { r.2 with connectionStatus := CONNECTED } else r.2)
  else if (appStatus s).1 = CH_DISCONNECTED then
    sendAndMark (devWriteMsg env (appStatus s).2 CC_NS_RECEIVER CC_MSG_GET_STATUS)
  else if (devStatus (appStatus s).2).1 = CH_NEEDS_PING then
    sendAndMark (devWriteMsg env (devStatus (appStatus s).2).2 CC_NS_HEARTBEAT CC_MSG_PING)
  else if (appStatus (devStatus (appStatus s).2).2).1 = CH_CONNECTED then
    sendAndMark (appWriteMsg env (appStatus (devStatus (appStatus s).2).2).2 CC_NS_MEDIA
      CC_MSG_GET_STATUS)
  else if (appStatus (appStatus (devStatus (appStatus s).2).2).2).1 = CH_NEEDS_PING then
    sendAndMark (appWriteMsg env (appStatus (appStatus (devStatus (appStatus s).2).2).2).2
      CC_NS_HEARTBEAT CC_MSG_PING)
  else .ok (appStatus (appStatus (devStatus (appStatus s).2).2).2).2

/-- The TX part of `loop` (lines 413-467) entered with the given `rxProcessed`. -/
def txPhase (env : Env) (s : ArduCastControl) (rxProcessed : Bool) :
    Except Fault (connection_t × ArduCastControl) :=
  if !rxProcessed && (!s.msgSent || decide (500 < sub32 s.millis s.msgSentAt)) then
    let ec := if s.msgSent then wrap8 (s.errorCount + 255) else s.errorCount
    if s.msgSent && ec == 0 then
      .ok (DISCONNECTED, { s with errorCount := ec, client := s.client.stopAll,
                                  connectionStatus := DISCONNECTED, msgSent := false })
    else
      match sendNext env { s with errorCount := ec, msgSent := false } with
      | .error e => .error e
      | .ok s1 => .ok (getConnection s1)
  else .ok (getConnection s)

/-- `ArduCastControl::loop()`.  `fuel` bounds the number of frames drained and the number of
passes of each field scan. -/
def loop (env : Env) (fuel : Nat) (s : ArduCastControl) :
    Except Fault (connection_t × ArduCastControl) :=
  if !s.client.connected then
    .ok (DISCONNECTED, { s with client := s.client.stopAll, connectionStatus := DISCONNECTED })
  else
    match rxLoop env fuel fuel s false with
    | .error e => .error e
    | .ok (rxProcessed, s1) => txPhase env s1 rxProcessed

/-! ## Commands -/

/-- Text formatted by `play`, `pause`, `prev`, `next`: `"%s%d}"`. -/
def mediaCmd (msg : List Nat) (mediaSessionId : Int) : List Nat :=
  snprintf128 (msg ++ fmtInt mediaSessionId ++ bytes "\x7d")

/-- Text formatted by `seek`. -/
def seekCmd (env : Env) (mediaSessionId : Int) (seekTo : ℚ) : List Nat :=
  snprintf128 (bytes "\x7b\"type\": \"SEEK\", \"requestId\": 2, \"mediaSessionId\": "
    ++ fmtInt mediaSessionId ++ bytes ", \"currentTime\": " ++ env.fmtFloat seekTo
    ++ bytes "\x7d")

/-- Text formatted by `setVolume`: `"%s%f}}"`. -/
def volumeCmd (env : Env) (volumeTo : ℚ) : List Nat :=
  snprintf128 (CC_MSG_SET_VOL ++ env.fmtFloat volumeTo ++ bytes "\x7d\x7d")

/-- Text formatted by `setMute`: `"%s%s}}"`. -/
def muteCmd (newMute : Bool) : List Nat :=
  snprintf128 (CC_MSG_VOL_MUTE ++ (if newMute then bytes "true" else bytes "false")
    ++ bytes "\x7d\x7d")

/-- `ArduCastControl::play()`. -/
def play (env : Env) (s : ArduCastControl) : Except Fault (Int × ArduCastControl) :=
  if s.msgSent then .ok (-10, s)
  else if s.mediaSessionId < 0 then .ok (-9, s)
  else appWriteMsg env s CC_NS_MEDIA (mediaCmd CC_MSG_PLAY s.mediaSessionId)

/-- `ArduCastControl::pause(toggle)`. -/
def pause (env : Env) (s : ArduCastControl) (toggle : Bool) :
    Except Fault (Int × ArduCastControl) :=
  if s.msgSent then .ok (-10, s)
  else if s.mediaSessionId < 0 then .ok (-9, s)
  else if toggle && decide (s.playerState = PAUSED) then play env s
  else appWriteMsg env s CC_NS_MEDIA (mediaCmd CC_MSG_PAUSE s.mediaSessionId)

/-- `ArduCastControl::prev()`. -/
def prev (env : Env) (s : ArduCastControl) : Except Fault (Int × ArduCastControl) :=
  if s.msgSent then .ok (-10, s)
  else if s.mediaSessionId < 0 then .ok (-9, s)
  else appWriteMsg env s CC_NS_MEDIA (mediaCmd CC_MSG_PREV s.mediaSessionId)

/-- `ArduCastControl::next()`. -/
def next (env : Env) (s : ArduCastControl) : Except Fault (Int × ArduCastControl) :=
  if s.msgSent then .ok (-10, s)
  else if s.mediaSessionId < 0 then .ok (-9, s)
  else appWriteMsg env s CC_NS_MEDIA (mediaCmd CC_MSG_NEXT s.mediaSessionId)

/-- The value `seekTo` holds when `seek` formats it. -/
def seekTarget (s : ArduCastControl) (relative : Bool) (seekTo : ℚ) : ℚ :=
  let t1 := if relative then seekTo + s.currentTime else seekTo
  let t2 := if t1 < 0 then 0 else t1
  if t2 > s.duration then s.duration else t2

/-- `ArduCastControl::seek(relative, seekTo)`. -/
def seek (env : Env) (s : ArduCastControl) (relative : Bool) (seekTo : ℚ) :
    Except Fault (Int × ArduCastControl) :=
  if s.msgSent then .ok (-10, s)
  else if s.mediaSessionId < 0 then .ok (-9, s)
  else appWriteMsg env s CC_NS_MEDIA (seekCmd env s.mediaSessionId (seekTarget s relative seekTo))

/-- The value `volumeTo` holds when `setVolume` formats it. -/
def volumeTarget (s : ArduCastControl) (relative : Bool) (volumeTo : ℚ) : ℚ :=
  let t1 := if relative then volumeTo + s.volume else volumeTo
  let t2 := if t1 < 0 then 0 else t1
  if t2 > 1 then 1 else t2

/-- `ArduCastControl::setVolume(relative, volumeTo)`. -/
def setVolume (env : Env) (s : ArduCastControl) (relative : Bool) (volumeTo : ℚ) :
    Except Fault (Int × ArduCastControl) :=
  if s.msgSent then .ok (-10, s)
  else devWriteMsg env s CC_NS_RECEIVER (volumeCmd env (volumeTarget s relative volumeTo))

/-- `ArduCastControl::setMute(newMute, toggle)`. -/
def setMute (env : Env) (s : ArduCastControl) (newMute toggle : Bool) :
    Except Fault (Int × ArduCastControl) :=
  if s.msgSent then .ok (-10, s)
  else devWriteMsg env s CC_NS_RECEIVER (muteCmd (if toggle then !s.isMuted else newMute))

/-! ## Example collaborators and states used to evaluate the code -/

/-- A toy serializer: the four strings, each behind a one-byte length; it fails when the
stream is too small. -/
def demoEncode (cap : Nat) (m : CastMessage) : Bool × List Nat :=
  let out := m.source_id.length :: m.source_id ++ m.destination_id.length :: m.destination_id
    ++ m.namespace_fix.length :: m.namespace_fix ++ m.payload_utf8.length :: m.payload_utf8
  (decide (out.length ≤ cap), out.take cap)

/-- Example collaborators: the toy serializer, a parser that rejects every input, and the
tag numbers 2, 4 and 6 of `cast_channel.proto`. -/
def demoEnv : Env :=
  { pbEncode := demoEncode
    deserializeJson := fun _ => none
    asFloat := fun _ => 0
    asBool := fun _ => false
    asInt := fun _ => 0
    fmtFloat := fun _ => []
    source_id_tag := 2
    namespace_fix_tag := 4
    payload_utf8_tag := 6 }

/-- A `char[50]` object holding the given C string. -/
def char50 (str : List Nat) : List Nat := str.take 49 ++ List.replicate (50 - min str.length 49) 0

/-- A channel constructed by `ArduCastConnection(client, PING_TIMEOUT, connBuffer,
CONNBUFFER_SIZE)` and then given a destination, a timestamp and a latch value. -/
def demoChannel (dest : List Nat) (lastMsgAt : Nat) (connected : Bool) : ArduCastConnection :=
  { keepAlive := PING_TIMEOUT, writeBufferSize := CONNBUFFER_SIZE, destId := char50 dest,
    lastMsgAt := lastMsgAt, connected := connected }

/-- An orchestrator with a live transport, an empty receive queue, a connected device
channel and no application channel. -/
def demoState : ArduCastControl :=
  { connBuffer := List.replicate CONNBUFFER_SIZE 0
    connectionStatus := CONNECTED
    sessionId := char50 []
    mediaSessionId := -1
    client := { connected := true, rx := [], writes := [], writeLimit := CONNBUFFER_SIZE }
    errorCount := 5
    deviceConnection := demoChannel CC_MAIN_DESTIID 0 true
    applicationConnection := demoChannel [] 0 false
    msgSentAt := 0
    msgSent := false
    displayName := char50 []
    statusText := char50 []
    volume := -1
    isMuted := false
    playerState := IDLE
    duration := 0
    currentTime := 0
    title := char50 []
    artist := char50 []
    millis := 0 }

/-! ## Reference notions taken from the wording of the specification -/

/-- The standard little-endian base-128 value of a varint byte sequence, as the
specification words it: the sum of `(b_i & 0x7f) * 2^(7*i)`, first byte least significant. -/
def standardVarint : List Nat → Nat
  | [] => 0
  | b :: rest => (b &&& 0x7f) + 128 * standardVarint rest

/-- The value `pbDecodeVarint` accumulates over a byte sequence: each new byte's low seven
bits are placed below the bits gathered so far (first byte most significant), in 32-bit
arithmetic. -/
def groupsFirstByteHigh (bs : List Nat) (acc : Nat) : Nat :=
  bs.foldl (fun a b => wrap32 (a <<< 7) ||| (b &&& 0x7f)) acc

/-- Channel status as the specification words it: Disconnected if the transport is down or
the latch is false or `now - lastActivityAt > 3 * pingInterval`; NeedsPing if
`now - lastActivityAt > pingInterval`; else Connected.  The difference is the unsigned
32-bit difference of the two clock values. -/
def statusBySpec (transportUp latch : Bool) (lastActivityAt pingInterval now : Nat) :
    channelConnection_t :=
  if !transportUp || !latch || decide (3 * pingInterval < sub32 now lastActivityAt) then
    CH_DISCONNECTED
  else if pingInterval < sub32 now lastActivityAt then CH_NEEDS_PING
  else CH_CONNECTED

/-- One call of `loop()` made when the clock shows `t`. -/
def pollAt (env : Env) (fuel : Nat) (t : Nat) (s : ArduCastControl) :
    Except Fault (connection_t × ArduCastControl) :=
  loop env fuel { s with millis := t }

/-- Successive calls of `loop()` at the given clock values.  Result: the values returned
by the calls, in order, and the final state. -/
def pollSeq (env : Env) (fuel : Nat) :
    List Nat → ArduCastControl → Except Fault (List connection_t × ArduCastControl)
  | [], s => .ok ([], s)
  | t :: ts, s =>
    match pollAt env fuel t s with
    | .error e => .error e
    | .ok (r, s1) =>
      match pollSeq env fuel ts s1 with
      | .error e => .error e
      | .ok (rs, s2) => .ok (r :: rs, s2)

/-- A state with an outstanding request. -/
def busyState : ArduCastControl := { demoState with msgSent := true, mediaSessionId := 3 }

/-- A state with a media session whose cached duration is negative. -/
def negativeDurationState : ArduCastControl :=
  { demoState with mediaSessionId := 1, duration := -1 }

/-- A state with a media session, `currentTime = 30` and `duration = 100`. -/
def playingState : ArduCastControl :=
  { demoState with mediaSessionId := 7, currentTime := 30, duration := 100,
                   playerState := PAUSED, volume := 1 / 2 }

/-- The members the field scan never touches: transport, outstanding-request latch, error
counter and clock. -/
def Keeps (s s1 : ArduCastControl) : Prop :=
  s1.client = s.client ∧ s1.msgSent = s.msgSent ∧ s1.errorCount = s.errorCount
    ∧ s1.millis = s.millis

/-- A state with an outstanding request, `errorCount = 3`, and one complete frame waiting in
the transport: length prefix 2 and the field `08 00` (tag 1, varint 0). -/
def frameState : ArduCastControl :=
  { demoState with
    msgSent := true, errorCount := 3,
    client := { connected := true, rx := [0, 0, 0, 2, 8, 0], writes := [],
                writeLimit := CONNBUFFER_SIZE } }

/-- Outbound actions of the send phase, named after the five priorities of the
specification. -/
inductive Outbound where
  | appConnect
  | devGetStatus
  | devPing
  | appGetStatus
  | appPing
  | nothing
  deriving DecidableEq, Repr

/-- The action the specification's strict priority list selects: the application connect
handshake if `connectionStatus` is CONNECT_TO_APPLICATION; else the device GET_STATUS if the
application channel is Disconnected; else the device PING if the device channel is NeedsPing;
else the application GET_STATUS if the application channel is Connected; else the
application PING if the application channel is NeedsPing; otherwise nothing. -/
def chosenAction (s : ArduCastControl) : Outbound :=
  if s.connectionStatus = CONNECT_TO_APPLICATION then .appConnect
  else if (s.applicationConnection.getConnectionStatus s.client s.millis).1 = CH_DISCONNECTED
    then .devGetStatus
  else if (s.deviceConnection.getConnectionStatus s.client s.millis).1 = CH_NEEDS_PING
    then .devPing
  else if (s.applicationConnection.getConnectionStatus s.client s.millis).1 = CH_CONNECTED
    then .appGetStatus
  else if (s.applicationConnection.getConnectionStatus s.client s.millis).1 = CH_NEEDS_PING
    then .appPing
  else .nothing

/-- The transport component of a `writeMsg` result. -/
def transportOf (r : Int × WiFiClientSecure × List Nat) : WiFiClientSecure := r.2.1

/-- The transport after the one `writeMsg` call that carries out an action in state `s`:
channel, namespace and payload as the specification names them (the application connect
handshake first stores `sessionId` as the destination of the application channel). -/
def performAction (env : Env) (s : ArduCastControl) : Outbound → Except Fault WiFiClientSecure
  | .appConnect =>
    match strncpy s.sessionId 50 with
    | .error e => .error e
    | .ok d =>
      (({ s.applicationConnection with destId := d }).writeMsg env s.client s.connBuffer
        CC_NS_CONNECTION CC_MSG_CONNECT).map transportOf
  | .devGetStatus =>
    (s.deviceConnection.writeMsg env s.client s.connBuffer CC_NS_RECEIVER
      CC_MSG_GET_STATUS).map transportOf
  | .devPing =>
    (s.deviceConnection.writeMsg env s.client s.connBuffer CC_NS_HEARTBEAT
      CC_MSG_PING).map transportOf
  | .appGetStatus =>
    (s.applicationConnection.writeMsg env s.client s.connBuffer CC_NS_MEDIA
      CC_MSG_GET_STATUS).map transportOf
  | .appPing =>
    (s.applicationConnection.writeMsg env s.client s.connBuffer CC_NS_HEARTBEAT
      CC_MSG_PING).map transportOf
  | .nothing => .ok s.client

/-- The send of `payload` on `nameSpace` over channel `ch` succeeds at the encoder: the
stored destination id is NUL-terminated and `pb_encode` accepts the message. -/
def sendOk (env : Env) (ch : ArduCastConnection) (nameSpace payload : List Nat) : Prop :=
  ∃ d, cstr ch.destId = .ok d
    ∧ (pbEncodeInto env (ch.writeBufferSize - 4)
        { source_id := CC_SOURCEID, destination_id := d, namespace_fix := nameSpace,
          payload_utf8 := payload }).1 = true

/-- Every send of the priority chain succeeds in state `s`: the transport is live and
accepts whole frames, the buffers have the size the class declares, and the encoder accepts
the four messages of priorities 2 to 5. -/
def Sendable (env : Env) (s : ArduCastControl) : Prop :=
  s.client.connected = true
  ∧ CONNBUFFER_SIZE ≤ s.client.writeLimit
  ∧ s.connBuffer.length = CONNBUFFER_SIZE
  ∧ s.deviceConnection.writeBufferSize = CONNBUFFER_SIZE
  ∧ s.applicationConnection.writeBufferSize = CONNBUFFER_SIZE
  ∧ sendOk env s.deviceConnection CC_NS_RECEIVER CC_MSG_GET_STATUS
  ∧ sendOk env s.deviceConnection CC_NS_HEARTBEAT CC_MSG_PING
  ∧ sendOk env s.applicationConnection CC_NS_MEDIA CC_MSG_GET_STATUS
  ∧ sendOk env s.applicationConnection CC_NS_HEARTBEAT CC_MSG_PING

/-- The dead-link scenario: no inbound frame (fewer than four bytes buffered), a request
outstanding, a stored status other than CONNECT_TO_APPLICATION, and every send
succeeding. -/
def Stalled (env : Env) (s : ArduCastControl) : Prop :=
  s.client.rx.length < 4 ∧ s.msgSent = true
  ∧ s.connectionStatus ≠ CONNECT_TO_APPLICATION ∧ Sendable env s

/-- What a send of the priority chain and the status queries leave alone. -/
def Carry (s s1 : ArduCastControl) : Prop :=
  s1.client.connected = s.client.connected ∧ s1.client.rx = s.client.rx
  ∧ s1.client.writeLimit = s.client.writeLimit
  ∧ s1.connBuffer.length = s.connBuffer.length
  ∧ s1.deviceConnection.destId = s.deviceConnection.destId
  ∧ s1.deviceConnection.writeBufferSize = s.deviceConnection.writeBufferSize
  ∧ s1.applicationConnection.destId = s.applicationConnection.destId
  ∧ s1.applicationConnection.writeBufferSize = s.applicationConnection.writeBufferSize
  ∧ s1.connectionStatus = s.connectionStatus ∧ s1.errorCount = s.errorCount
  ∧ s1.millis = s.millis

/-- The dead-link scenario at its start: live transport, empty receive queue,
`errorCount = 5`, a request outstanding since clock value 0. -/
def stalledState : ArduCastControl := { demoState with msgSent := true }

/-! ## Example documents and collaborators for the payload interpreter -/

/-- Conversion of a number variant to `float`; every other variant gives 0. -/
def stdAsFloat : Json → ℚ
  | .num q => q
  | _ => 0

/-- Conversion of a boolean variant to `bool`; every other variant gives `false`. -/
def stdAsBool : Json → Bool
  | .bool b => b
  | _ => false

/-- Conversion of a number variant to `int32_t` (integral part); every other variant
gives 0. -/
def stdAsInt : Json → Int
  | .num q => q.num / (q.den : Int)
  | _ => 0

/-- Example collaborators whose parser returns the document `doc` for every input. -/
def docEnv (doc : Json) : Env :=
  { demoEnv with
    deserializeJson := fun _ => some doc
    asFloat := stdAsFloat
    asBool := stdAsBool
    asInt := stdAsInt }

/-- A string variant from a literal. -/
def jstr (s : String) : Json := .str (bytes s)

/-- An object variant from literal keys. -/
def jobj (kvs : List (String × Json)) : Json := .obj (kvs.map (fun kv => (bytes kv.1, kv.2)))

/-- A receiver status with volume 0.5, muted, and one application with session id `abc`. -/
def receiverDoc : Json :=
  jobj [("type", jstr "RECEIVER_STATUS"),
        ("status", jobj [("volume", jobj [("level", .num (1 / 2)), ("muted", .bool true)]),
                         ("applications", .arr [jobj [("sessionId", jstr "abc"),
                                                      ("statusText", jstr "Casting"),
                                                      ("displayName", jstr "Spotify")]])])]

/-- A receiver status whose first application carries none of the three text keys. -/
def receiverDocBare : Json :=
  jobj [("type", jstr "RECEIVER_STATUS"), ("status", jobj [("applications", .arr [jobj []])])]

/-- A receiver status without applications list and without volume object. -/
def receiverDocIdle : Json :=
  jobj [("type", jstr "RECEIVER_STATUS"), ("status", jobj [])]

/-- A media status with session 7, paused at 30 of 100 seconds, with title and artist. -/
def mediaDoc : Json :=
  jobj [("type", jstr "MEDIA_STATUS"),
        ("status", .arr [jobj [("mediaSessionId", .num 7), ("currentTime", .num 30),
                               ("playerState", jstr "PAUSED"),
                               ("media", jobj [("duration", .num 100),
                                               ("metadata", jobj [("title", jstr "Song"),
                                                                  ("artist", jstr "Band")])])]])]

/-- A media status without media object. -/
def mediaDocNoMedia : Json :=
  jobj [("type", jstr "MEDIA_STATUS"),
        ("status", .arr [jobj [("mediaSessionId", .num 8), ("currentTime", .num 12),
                               ("playerState", jstr "PLAYING")]])]

/-- A media status whose media object has no metadata object. -/
def mediaDocNoMetadata : Json :=
  jobj [("type", jstr "MEDIA_STATUS"),
        ("status", .arr [jobj [("mediaSessionId", .num 7),
                               ("media", jobj [("duration", .num 100)])]])]

/-- A state whose text members hold `abc`, `Casting`, `Spotify`, `Song` and `Band`. -/
def namedState : ArduCastControl :=
  { demoState with
    sessionId := char50 (bytes "abc"), statusText := char50 (bytes "Casting"),
    displayName := char50 (bytes "Spotify"), title := char50 (bytes "Song"),
    artist := char50 (bytes "Band"), duration := 100, volume := 1 / 4, isMuted := true }

/-- A text key of `j` is either missing or holds a string (so that `as<char*>()` is not
`NULL`). -/
def TextOk (j : Json) (key : List Nat) : Prop :=
  j.containsKey key = true → ∃ str, (j.getMember key).asCStr = some str

/-- The player state the specification assigns to a reported string: IDLE, BUFFERING,
PLAYING, PAUSED for exactly these strings, IDLE for every other string. -/
def playerStateOf (p : List Nat) : playerState_t :=
  if p = bytes "IDLE" then IDLE
  else if p = bytes "BUFFERING" then BUFFERING
  else if p = bytes "PLAYING" then PLAYING
  else if p = bytes "PAUSED" then PAUSED
  else IDLE

/-- The cached device members: `volume`, `isMuted`, `sessionId`, `statusText`,
`displayName`. -/
def deviceFields (s : ArduCastControl) : ℚ × Bool × List Nat × List Nat × List Nat :=
  (s.volume, s.isMuted, s.sessionId, s.statusText, s.displayName)

/-- The cached media members: `mediaSessionId`, `currentTime`, `playerState`, `duration`,
`title`, `artist`. -/
def mediaFields (s : ArduCastControl) : Int × ℚ × playerState_t × ℚ × List Nat × List Nat :=
  (s.mediaSessionId, s.currentTime, s.playerState, s.duration, s.title, s.artist)

/-! ## The scan of a frame, field by field -/

/-- The body of one pass of the inner loop of `loop` behind the call of `pbDecodeHeader`:
the `source_id` block, the namespace block and the payload block for the field with header
`h` whose data start at `off1`.  Result: state and `processPayload`. -/
def fieldStep (env : Env) (s : ArduCastControl) (off1 : Nat) (h : Header)
    (processPayload : Nat) : Except Fault (ArduCastControl × Nat) :=
  match (if h.tag = env.source_id_tag then
      sourceIdField s off1 h.lengthOrValue processPayload
    else .ok (s, processPayload)) with
  | .error e => .error e
  | .ok r1 =>
    match (if h.tag = env.namespace_fix_tag then
        namespaceField r1.1 off1 h.lengthOrValue r1.2
      else .ok r1) with
    | .error e => .error e
    | .ok r2 =>
      match (if 0 < r2.2 ∧ h.tag = env.payload_utf8_tag then
          payloadField env r2.1 off1 h.lengthOrValue r2.2
        else .ok r2.1) with
      | .error e => .error e
      | .ok s3 => .ok (s3, r2.2)

/-- The fields the inner loop of `loop` visits in the bytes `buf` when it starts at
`offset` and runs while `offset < read`: for each pass the offset of the field data (behind
the header) and the decoded header.  The offsets depend on the bytes only. -/
def scanFields (buf : List Nat) (read : Nat) : Nat → Nat → Except Fault (List (Nat × Header))
  | 0, _ => .error .fuel
  | fuel + 1, offset =>
    match pbDecodeHeader buf offset with
    | .error e => .error e
    | .ok h =>
      if (if h.wire = 2 then wrap32 (wrap32 (offset + h.processedBytes) + h.lengthOrValue)
          else wrap32 (offset + h.processedBytes)) < read then
        match scanFields buf read fuel
            (if h.wire = 2 then wrap32 (wrap32 (offset + h.processedBytes) + h.lengthOrValue)
             else wrap32 (offset + h.processedBytes)) with
        | .error e => .error e
        | .ok fs => .ok ((wrap32 (offset + h.processedBytes), h) :: fs)
      else .ok [(wrap32 (offset + h.processedBytes), h)]

/-- The blocks of `fieldStep` run over a list of fields in order. -/
def runFields (env : Env) :
    List (Nat × Header) → ArduCastControl → Nat → Except Fault (ArduCastControl × Nat)
  | [], s, processPayload => .ok (s, processPayload)
  | f :: fs, s, processPayload =>
    match fieldStep env s f.1 f.2 processPayload with
    | .error e => .error e
    | .ok r => runFields env fs r.1 r.2

/-- The state `s` with the timestamps and latches of the two channels and the stored
connection status of `t`. -/
def channelMerge (s t : ArduCastControl) : ArduCastControl :=
  { s with
    connectionStatus := t.connectionStatus
    deviceConnection :=
      { s.deviceConnection with lastMsgAt := t.deviceConnection.lastMsgAt,
                                connected := t.deviceConnection.connected }
    applicationConnection :=
      { s.applicationConnection with lastMsgAt := t.applicationConnection.lastMsgAt,
                                     connected := t.applicationConnection.connected } }

/-- The state `s` with the device members and the stored connection status of `t`. -/
def deviceMerge (s t : ArduCastControl) : ArduCastControl :=
  { s with
    connectionStatus := t.connectionStatus, sessionId := t.sessionId,
    displayName := t.displayName, statusText := t.statusText, volume := t.volume,
    isMuted := t.isMuted }

/-- The state `s` with the media members of `t`. -/
def mediaMerge (s t : ArduCastControl) : ArduCastControl :=
  { s with
    mediaSessionId := t.mediaSessionId, playerState := t.playerState,
    duration := t.duration, currentTime := t.currentTime, title := t.title,
    artist := t.artist }

/-! ## Example frames -/

/-- A length-delimited protobuf field with a one-byte length (fewer than 128 data
bytes). -/
def pbField (tag : Nat) (data : List Nat) : List Nat := (tag <<< 3 ||| 2) :: data.length :: data

/-- A `CastMessage` frame as the device sends it: the four-byte length prefix, then
`protocol_version` (tag 1), `source_id` (2), `destination_id` (3), `namespace` (4),
`payload_type` (5) and `payload_utf8` (6). -/
def castFrame (source nameSpace payload : List Nat) : List Nat :=
  lengthPrefix ([8, 0] ++ pbField 2 source ++ pbField 3 CC_SOURCEID ++ pbField 4 nameSpace
      ++ [40, 0] ++ pbField 6 payload).length
    ++ ([8, 0] ++ pbField 2 source ++ pbField 3 CC_SOURCEID ++ pbField 4 nameSpace
      ++ [40, 0] ++ pbField 6 payload)

/-- The state `s` with the bytes `frame` at the start of `connBuffer`. -/
def loaded (frame : List Nat) (s : ArduCastControl) : ArduCastControl :=
  { s with connBuffer := overwrite s.connBuffer 0 frame }

/-- Example collaborators whose parser accepts exactly the text `text` and returns `doc`
for it. -/
def jsonEnv (text : List Nat) (doc : Json) : Env :=
  { demoEnv with
    deserializeJson := fun input => if input = text then some doc else none
    asFloat := stdAsFloat
    asBool := stdAsBool
    asInt := stdAsInt }

/-- JSON text of `mediaDocNoMedia`. -/
def mediaTextNoMedia : List Nat :=
  bytes ("\x7b\"type\":\"MEDIA_STATUS\",\"status\":[\x7b\"mediaSessionId\":8,"
    ++ "\"currentTime\":12,\"playerState\":\"PLAYING\"\x7d]\x7d")

/-- A state with a connected application channel to `abc` and the cached members of
`namedState`. -/
def appState : ArduCastControl :=
  { namedState with applicationConnection := demoChannel (bytes "abc") 0 true }

/-- A media status frame from the application `abc`. -/
def mediaFrame : List Nat := castFrame (bytes "abc") CC_NS_MEDIA mediaTextNoMedia

/-- A close notice: a frame on the connection namespace. -/
def closeFrame (source : List Nat) : List Nat :=
  castFrame source CC_NS_CONNECTION (bytes "\x7b\"type\":\"CLOSE\"\x7d")

/-! ## Replay of a frame -/

/-- The cached status: device members, stored connection status and media members. -/
def cachedStatus (s : ArduCastControl) :
    (ℚ × Bool × List Nat × List Nat × List Nat) × connection_t
      × (Int × ℚ × playerState_t × ℚ × List Nat × List Nat) :=
  (deviceFields s, s.connectionStatus, mediaFields s)

/-- A member in two runs over the same fields, started with the values `a0` and `b0`:
untouched so far in both, or overwritten with the same value in both. -/
def ValRel {α : Type} (a0 b0 a b : α) : Prop := (a = a0 ∧ b = b0) ∨ a = b

/-- A text member in two runs over the same fields: untouched in both, overwritten with
the same text in both, or only the first byte overwritten with the same byte in both. -/
def TextRel (a0 b0 a b : List Nat) : Prop :=
  (a = a0 ∧ b = b0) ∨ a = b ∨ ∃ c, a = a0.set 0 c ∧ b = b0.set 0 c

/-- Two runs over the same fields, started in `x0` and `y0` and now in `x` and `y`: same
buffer, same destination ids, and the device members and the stored connection status
related as above. -/
structure Replay (x0 y0 x y : ArduCastControl) : Prop where
  buf : x.connBuffer = y.connBuffer
  dev : x.deviceConnection.destId = y.deviceConnection.destId
  app : x.applicationConnection.destId = y.applicationConnection.destId
  volume : ValRel x0.volume y0.volume x.volume y.volume
  isMuted : ValRel x0.isMuted y0.isMuted x.isMuted y.isMuted
  status : ValRel x0.connectionStatus y0.connectionStatus x.connectionStatus y.connectionStatus
  sessionId : TextRel x0.sessionId y0.sessionId x.sessionId y.sessionId
  statusText : TextRel x0.statusText y0.statusText x.statusText y.statusText
  displayName : TextRel x0.displayName y0.displayName x.displayName y.displayName

/-- A receiver status that reports one application with session `abc` and nothing
else. -/
def receiverDocSession : Json :=
  jobj [("type", jstr "RECEIVER_STATUS"),
        ("status", jobj [("applications", .arr [jobj [("sessionId", jstr "abc")]])])]

/-- JSON text of `receiverDocSession`. -/
def receiverTextSession : List Nat :=
  bytes ("\x7b\"type\":\"RECEIVER_STATUS\",\"status\":\x7b\"applications\":"
    ++ "[\x7b\"sessionId\":\"abc\"\x7d]\x7d\x7d")

/-- A receiver status frame from the device `receiver-0`. -/
def receiverFrame : List Nat := castFrame CC_MAIN_DESTIID CC_NS_RECEIVER receiverTextSession

/-! ## The scan confined to the frame -/

/-- The field scan of `loop` for a frame of `read` bytes, run on the frame bytes alone:
`connBuffer` ends with the frame, so that a header byte or a varint byte at an index of
`read` or more is out of range, and so is a compared byte there when the comparison gets
that far. -/
def scanChecked (env : Env) (read fuel : Nat) (s : ArduCastControl) :
    Except Fault ArduCastControl :=
  scanLoop env read fuel { s with connBuffer := s.connBuffer.take read } 4 0

/-- The state in which `loop` starts the field scan after `getRawMessage` returned a frame:
the frame is in `connBuffer`, `msgSent` is cleared and `errorCount` is 5.  The first
component is the frame length `read`. -/
def received (s : ArduCastControl) : Nat × ArduCastControl :=
  ((readFrame s).1, { (readFrame s).2 with msgSent := false, errorCount := 5 })

/-- The state `s` with the bytes `data` appended to what the transport holds for
reading. -/
def deliver (data : List Nat) (s : ArduCastControl) : ArduCastControl :=
  { s with client := { s.client with rx := s.client.rx ++ data } }

/-- A state at clock value 7000 whose `connBuffer` still holds an earlier frame, made of the
single field `source_id = "receiver-0"`; the device channel was last pinged at 0. -/
def staleState : ArduCastControl :=
  { loaded ([0, 0, 0, 12] ++ pbField 2 CC_MAIN_DESTIID) demoState with millis := 7000 }

/-! ## `ArduCastControl::connect` and runs from a fresh object -/

/-- `client.connect(host, 8009)` of the transport library; `up` tells whether the host
accepts the connection.  Result: the return value and the transport.  A success gives a
live transport, a failure leaves the object as it was. -/
def WiFiClientSecure.connect (c : WiFiClientSecure) (up : Bool) : Bool × WiFiClientSecure :=
  if up then (true, { c with connected := true }) else (false, c)

/-- `ArduCastControl::connect(host)`; `up` tells whether the host accepts the connection.
Result: the return value and the state. -/
def connect (env : Env) (s : ArduCastControl) (up : Bool) :
    Except Fault (Int × ArduCastControl) :=
  if !(s.client.connect up).1 then .ok (-10, { s with client := (s.client.connect up).2 })
  else
    match devConnect env
        { s with client := (s.client.connect up).2, connectionStatus := TCPALIVE }
        (CC_MAIN_DESTIID ++ [0]) with
    | .error e => .error e
    | .ok r => .ok (r.1, if r.1 = 0 then { r.2 with connectionStatus := CONNECTED } else r.2)

/-- A channel as its constructor leaves it: `lastMsgAt = 0`, `connected = false`; the
uninitialised `destId` is taken as all zero. -/
def freshChannel : ArduCastConnection :=
  { keepAlive := PING_TIMEOUT, writeBufferSize := CONNBUFFER_SIZE,
    destId := List.replicate 50 0, lastMsgAt := 0, connected := false }

/-- An orchestrator as `ArduCastControl()` leaves it: `connectionStatus = DISCONNECTED`,
`errorCount = 5`, two fresh channels, a transport that is not connected; the members
without initializer are taken as all zero (as in an object with static storage). -/
def freshState : ArduCastControl :=
  { connBuffer := List.replicate CONNBUFFER_SIZE 0
    connectionStatus := DISCONNECTED
    sessionId := List.replicate 50 0
    mediaSessionId := 0
    client := { connected := false, rx := [], writes := [], writeLimit := CONNBUFFER_SIZE }
    errorCount := 5
    deviceConnection := freshChannel
    applicationConnection := freshChannel
    msgSentAt := 0
    msgSent := false
    displayName := List.replicate 50 0
    statusText := List.replicate 50 0
    volume := 0
    isMuted := false
    playerState := IDLE
    duration := 0
    currentTime := 0
    title := List.replicate 50 0
    artist := List.replicate 50 0
    millis := 0 }

/-- What happens to an orchestrator from outside: a call of `connect(host)` at clock value
`t` (with `up` telling whether the host accepts), a call of `loop()` at clock value `t`, or
bytes arriving from the device. -/
inductive Event where
  | connect (t : Nat) (up : Bool)
  | poll (t : Nat)
  | deliver (data : List Nat)

/-- The state after a sequence of events, return values dropped. -/
def run (env : Env) (fuel : Nat) : List Event → ArduCastControl → Except Fault ArduCastControl
  | [], s => .ok s
  | .connect t up :: es, s =>
    match connect env { s with millis := t } up with
    | .error e => .error e
    | .ok r => run env fuel es r.2
  | .poll t :: es, s =>
    match pollAt env fuel t s with
    | .error e => .error e
    | .ok r => run env fuel es r.2
  | .deliver data :: es, s => run env fuel es (deliver data s)

/-- A receiver status that reports one application with an empty session id. -/
def receiverDocEmptySession : Json :=
  jobj [("type", jstr "RECEIVER_STATUS"),
        ("status", jobj [("applications", .arr [jobj [("sessionId", jstr "")]])])]

/-- JSON text of `receiverDocEmptySession`. -/
def receiverTextEmptySession : List Nat :=
  bytes ("\x7b\"type\":\"RECEIVER_STATUS\",\"status\":\x7b\"applications\":"
    ++ "[\x7b\"sessionId\":\"\"\x7d]\x7d\x7d")

/-- A receiver status frame from `receiver-0` that reports an empty session id. -/
def emptySessionFrame : List Nat :=
  castFrame CC_MAIN_DESTIID CC_NS_RECEIVER receiverTextEmptySession

/-- The state `demoState` at clock value 100 with the frame `emptySessionFrame` waiting in
the transport. -/
def reportState : ArduCastControl := { deliver emptySessionFrame demoState with millis := 100 }

/-! ## Sequences of channel calls -/

/-- A call on a channel (`pinged()`, `setDisconnect()`, `writeMsg(nameSpace, payload)`,
`getConnectionStatus()`, with the clock value where the call reads it), or a change of the
shared transport made from outside. -/
inductive ChannelCall where
  | pinged (t : Nat)
  | setDisconnect
  | writeMsg (nameSpace payload : List Nat)
  | getConnectionStatus (t : Nat)
  | transport (c : WiFiClientSecure)

/-- The calls made in order on the channel `ch`, with the shared transport and write buffer.
Result: the values returned by the `getConnectionStatus` calls, in order, and the channel at
the end. -/
def channelRun (env : Env) :
    List ChannelCall → ArduCastConnection → WiFiClientSecure → List Nat →
      Except Fault (List channelConnection_t × ArduCastConnection)
  | [], ch, _, _ => .ok ([], ch)
  | .pinged t :: cs, ch, c, b => channelRun env cs (ch.pinged t) c b
  | .setDisconnect :: cs, ch, c, b => channelRun env cs ch.setDisconnect c b
  | .writeMsg ns p :: cs, ch, c, b =>
    match ch.writeMsg env c b ns p with
    | .error e => .error e
    | .ok r => channelRun env cs ch r.2.1 r.2.2
  | .getConnectionStatus t :: cs, ch, c, b =>
    match channelRun env cs (ch.getConnectionStatus c t).2 c b with
    | .error e => .error e
    | .ok r => .ok ((ch.getConnectionStatus c t).1 :: r.1, r.2)
  | .transport c1 :: cs, ch, _, b => channelRun env cs ch c1 b

/-- A live transport with nothing to read. -/
def liveClient : WiFiClientSecure :=
  { connected := true, rx := [], writes := [], writeLimit := CONNBUFFER_SIZE }

/-- The value of the variable `err` at the end of the priority chain of `loop` (lines
426-461): the result code of the one `connect` or `writeMsg` call made, or the initial 0
when no branch is taken. -/
def sendCode (env : Env) (s : ArduCastControl) : Except Fault Int :=
  if s.connectionStatus = CONNECT_TO_APPLICATION then
    (appConnect env s s.sessionId).map Prod.fst
  else if (appStatus s).1 = CH_DISCONNECTED then
    (devWriteMsg env (appStatus s).2 CC_NS_RECEIVER CC_MSG_GET_STATUS).map Prod.fst
  else if (devStatus (appStatus s).2).1 = CH_NEEDS_PING then
    (devWriteMsg env (devStatus (appStatus s).2).2 CC_NS_HEARTBEAT CC_MSG_PING).map Prod.fst
  else if (appStatus (devStatus (appStatus s).2).2).1 = CH_CONNECTED then
    (appWriteMsg env (appStatus (devStatus (appStatus s).2).2).2 CC_NS_MEDIA
      CC_MSG_GET_STATUS).map Prod.fst
  else if (appStatus (appStatus (devStatus (appStatus s).2).2).2).1 = CH_NEEDS_PING then
    (appWriteMsg env (appStatus (appStatus (devStatus (appStatus s).2).2).2).2
      CC_NS_HEARTBEAT CC_MSG_PING).map Prod.fst
  else .ok 0

/-- A state with the stored status CONNECT_TO_APPLICATION, the session id `abc`, a live
transport and no request outstanding. -/
def ctaState : ArduCastControl :=
  { demoState with connectionStatus := CONNECT_TO_APPLICATION, sessionId := char50 (bytes "abc") }

/-- A frame with one length-delimited field (tag 1) whose length varint `FF FF FF FF 7A`
is decoded to 4294967290. -/
def loopFrame : List Nat := [0, 0, 0, 6, 10, 255, 255, 255, 255, 122]

/-- The state `s` at clock value `t` with the bytes `frame` at the start of
`connBuffer`. -/
def loadedAt (t : Nat) (frame : List Nat) (s : ArduCastControl) : ArduCastControl :=
  { loaded frame s with millis := t }

/-- A receiver status that reports one application with the session id `str`. -/
def receiverDocSessionOf (str : List Nat) : Json :=
  jobj [("type", jstr "RECEIVER_STATUS"),
        ("status", jobj [("applications", .arr [jobj [("sessionId", .str str)]])])]

/-- A media status whose metadata report the title `str`. -/
def mediaDocTitleOf (str : List Nat) : Json :=
  jobj [("type", jstr "MEDIA_STATUS"),
        ("status", .arr [jobj [("mediaSessionId", .num 7),
                               ("media", jobj [("metadata", jobj [("title", .str str)])])]])]

/-- A state with a request outstanding whose transport has gone down. -/
def droppedState : ArduCastControl :=
  { stalledState with client := { stalledState.client with connected := false } }

/-- A session in which the application `abc` is reported and connected and the device then
stops answering: `connect`, the receiver status frame, the calls of `loop()` that store the
session (100), perform the application handshake (200) and send the media GET_STATUS (300),
and five calls that each find the request timed out; the last one reports the dead link. -/
def lostSession : List Event :=
  [.connect 0 true, .deliver receiverFrame, .poll 100, .poll 200, .poll 300, .poll 801,
   .poll 1302, .poll 1803, .poll 2304, .poll 2805]

/-! ## A varint behind which the `int8_t` counter wraps -/

/-- A buffer of zero bytes with a header byte `0A` at index 130 followed by 129 bytes `80`
(top bit set) and the byte `01`. -/
def wrapBufferZero : List Nat :=
  List.replicate 130 0 ++ [0x0A] ++ List.replicate 129 0x80 ++ [0x01]

/-- A buffer with a header byte `0A` at index 130 followed by 128 bytes `80` (top bit set)
and the byte `01`; the bytes at the indices 3 and 4, which lie 128 and 127 bytes before the
first varint byte, are `80` and `05`. -/
def wrapBuffer : List Nat :=
  [0, 0, 0, 0x80, 0x05] ++ List.replicate 125 0 ++ [0x0A] ++ List.replicate 128 0x80 ++ [0x01]

/-- The byte count of a varint as the specification words it: the number of bytes up to and
including the first one whose top bit is clear. -/
def countBySpec (following : List Nat) : Nat :=
  (following.takeWhile (fun b => b &&& 0x80 != 0)).length + 1

/-! ## An example `%f` conversion -/

/-- Six decimal digits of `n`, most significant first. -/
def sixDigits (n : Nat) : List Nat :=
  [48 + n / 100000 % 10, 48 + n / 10000 % 10, 48 + n / 1000 % 10, 48 + n / 100 % 10,
   48 + n / 10 % 10, 48 + n % 10]

/-- An example `%f` conversion: sign, integer part, point and six decimals, the value
rounded to the nearest millionth. -/
def fmtFixed6 (q : ℚ) : List Nat :=
  let n := (2 * q.num.natAbs * 1000000 + q.den) / (2 * q.den)
  (if q.num < 0 then [45] else []) ++ fmtNatLoop 10 (n / 1000000) [] ++ [46]
    ++ sixDigits (n % 1000000)

/-- The example collaborators with the example `%f` conversion. -/
def fmtEnv : Env := { demoEnv with fmtFloat := fmtFixed6 }

/-! ## Frames with a repeated `source_id` field and with long fields -/

/-- A close notice from `receiver-0` in which a second `source_id` field and a receiver
status payload follow the namespace field: `protocol_version`, `source_id`,
`destination_id`, `namespace` (the connection namespace), `source_id` again,
`payload_type`, `payload_utf8`. -/
def reattribFrame : List Nat :=
  lengthPrefix ([8, 0] ++ pbField 2 CC_MAIN_DESTIID ++ pbField 3 CC_SOURCEID
      ++ pbField 4 CC_NS_CONNECTION ++ pbField 2 CC_MAIN_DESTIID ++ [40, 0]
      ++ pbField 6 receiverTextSession).length
    ++ ([8, 0] ++ pbField 2 CC_MAIN_DESTIID ++ pbField 3 CC_SOURCEID
      ++ pbField 4 CC_NS_CONNECTION ++ pbField 2 CC_MAIN_DESTIID ++ [40, 0]
      ++ pbField 6 receiverTextSession)

/-- A namespace of 43 bytes, longer than the two namespaces the scan compares with. -/
def longNamespace : List Nat := bytes "urn:x-cast:com.google.cast.remotecontrol.v1"

/-- A sender id of 62 bytes, longer than the 50-byte destination id of a channel. -/
def longSource : List Nat :=
  bytes "sender-0123456789-0123456789-0123456789-0123456789-0123456789-"

/-- A media status frame from the application `abc` on the long namespace. -/
def longNamespaceFrame : List Nat := castFrame (bytes "abc") longNamespace mediaTextNoMedia

/-- A receiver status frame from `receiver-0` on the long namespace. -/
def longReceiverFrame : List Nat := castFrame CC_MAIN_DESTIID longNamespace receiverTextSession

/-- A receiver status frame from the long sender id on the long namespace. -/
def longSourceFrame : List Nat := castFrame longSource longNamespace receiverTextSession

/-- A state with a connected application channel, an outstanding request, `errorCount = 3`
and the frame `longReceiverFrame` waiting in the transport. -/
def longFrameState : ArduCastControl :=
  deliver longReceiverFrame { appState with msgSent := true, errorCount := 3 }

/-- The state `ctaState` after the link has been lost. -/
def lostLinkState : ArduCastControl :=
  { ctaState with client := { ctaState.client with connected := false } }

/-! # Theorems -/

/-! ## `memcmp` -/

/-- When both objects hold the `n` bytes compared, `memcmp` tells whether they agree. -/
theorem memcmpWalk_in_range : ∀ (n : Nat) (a b : List Nat),
    (a.take n).length = n → (b.take n).length = n →
    memcmpWalk a b n = .ok (decide (a.take n = b.take n)) := by
  intro n
  induction n with
  | zero => intro a b _ _; simp [memcmpWalk]
  | succ n ih =>
    intro a b ha hb
    cases a with
    | nil => simp at ha
    | cons x xs =>
      cases b with
      | nil => simp at hb
      | cons y ys =>
        simp only [List.take_succ_cons, List.length_cons, Nat.add_right_cancel_iff] at ha hb
        unfold memcmpWalk
        by_cases hxy : x = y
        · rw [if_pos hxy, ih xs ys ha hb]
          simp [hxy]
        · rw [if_neg hxy]
          simp [hxy]

/-- When both ranges lie inside their objects, `memcmpEq` tells whether they agree. -/
theorem memcmpEq_in_range (buf : List Nat) (off : Nat) (other : List Nat) (n : Nat)
    (h1 : ((buf.drop off).take n).length = n) (h2 : (other.take n).length = n) :
    memcmpEq buf off other n = .ok (decide ((buf.drop off).take n = other.take n)) :=
  memcmpWalk_in_range n (buf.drop off) other h1 h2

/-- A difference inside both objects decides the comparison, whatever the length `n`
behind it: objects that agree on `pre` and differ in the next byte compare as unequal for
every `n` that reaches this byte. -/
theorem memcmpWalk_mismatch : ∀ (pre : List Nat) (x y : Nat) (as bs : List Nat) (n : Nat),
    x ≠ y → pre.length < n → memcmpWalk (pre ++ x :: as) (pre ++ y :: bs) n = .ok false := by
  intro pre
  induction pre with
  | nil =>
    intro x y as bs n hxy hn
    obtain ⟨m, rfl⟩ : ∃ m, n = m + 1 := ⟨n - 1, by simp at hn; omega⟩
    simp [memcmpWalk, hxy]
  | cons p ps ih =>
    intro x y as bs n hxy hn
    obtain ⟨m, rfl⟩ : ∃ m, n = m + 1 := ⟨n - 1, by simp at hn; omega⟩
    simp only [List.cons_append]
    unfold memcmpWalk
    rw [if_pos rfl]
    exact ih x y as bs m hxy (by simp at hn; omega)

/-- A field of text (no NUL byte among its `n` bytes) compared with an object that holds a
NUL byte has a result: the comparison ends at the NUL of the object at the latest. -/
theorem memcmpWalk_text : ∀ (n : Nat) (a b : List Nat),
    (a.take n).length = n → (∀ x ∈ a.take n, x ≠ 0) → 0 ∈ b →
    ∃ r, memcmpWalk a b n = .ok r := by
  intro n
  induction n with
  | zero => intro a b _ _ _; exact ⟨true, by simp [memcmpWalk]⟩
  | succ n ih =>
    intro a b ha hnz hb
    cases a with
    | nil => simp at ha
    | cons x xs =>
      cases b with
      | nil => cases hb
      | cons y ys =>
        simp only [List.take_succ_cons, List.length_cons, Nat.add_right_cancel_iff] at ha
        simp only [List.take_succ_cons] at hnz
        unfold memcmpWalk
        by_cases hxy : x = y
        · rw [if_pos hxy]
          have hx : x ≠ 0 := hnz x (List.mem_cons_self _ _)
          have hy : 0 ∈ ys := by
            rcases List.mem_cons.mp hb with h | h
            · exact absurd (hxy.trans h.symm) hx
            · exact h
          exact ih xs ys ha (fun z hz => hnz z (List.mem_cons_of_mem _ hz)) hy
        · rw [if_neg hxy]
          exact ⟨false, rfl⟩

/-- The comparison of a text field that lies inside the buffer with a NUL-terminated
object has a result, whatever the length of the field. -/
theorem memcmpEq_text (buf : List Nat) (off : Nat) (other : List Nat) (n : Nat)
    (h1 : ((buf.drop off).take n).length = n) (h2 : ∀ x ∈ (buf.drop off).take n, x ≠ 0)
    (h3 : 0 ∈ other) : ∃ r, memcmpEq buf off other n = .ok r :=
  memcmpWalk_text n (buf.drop off) other h1 h2 h3

/-- A namespace of 43 bytes is compared with the 40-byte heartbeat constant and the 41-byte
connection constant without a fault: both comparisons find a difference. -/
theorem memcmpEq_long_namespace :
    memcmpEq (loaded longNamespaceFrame appState).connBuffer 23 (CC_NS_HEARTBEAT ++ [0]) 43
      = .ok false
    ∧ memcmpEq (loaded longNamespaceFrame appState).connBuffer 23 (CC_NS_CONNECTION ++ [0]) 43
      = .ok false
    ∧ memcmpEq (loaded longSourceFrame appState).connBuffer 8
        appState.deviceConnection.getDestinationId 62 = .ok false := by
  decide

/-! ## C1: `pbDecodeVarint` -/

/-- The index read while the `int8_t` counter of `pbDecodeVarint` has not wrapped. -/
theorem int8Index_low (start decoded : Nat) (h : decoded < 128) :
    int8Index start decoded = some (start + decoded) := by
  unfold int8Index
  rw [if_pos h]

/-- The loop of `pbDecodeVarint` on a well-formed varint: when the bytes from
`start + decoded` on are `pre` (all with the top bit set), then `last` (top bit clear), and
the counter stays below 128, the loop returns after `last` with the groups accumulated
first byte high. -/
theorem pbDecodeVarintLoop_run (buf : List Nat) (start : Nat) (last : Nat) (rest : List Nat)
    (hlast : last &&& 0x80 = 0) :
    ∀ (pre : List Nat) (budget decoded acc : Nat),
      (∀ b ∈ pre, b &&& 0x80 ≠ 0) → pre.length < budget → decoded + pre.length < 128 →
      buf.drop (start + decoded) = pre ++ last :: rest →
      pbDecodeVarintLoop buf start budget decoded acc
        = .ok (groupsFirstByteHigh (pre ++ [last]) acc, decoded + pre.length + 1) := by
  intro pre
  induction pre with
  | nil =>
    intro budget decoded acc _ hb hd hdrop
    obtain ⟨f, rfl⟩ : ∃ f, budget = f + 1 := ⟨budget - 1, by simp at hb; omega⟩
    have hget : buf.get? (start + decoded) = some last := by
      have := congrArg List.head? hdrop
      simpa [List.head?_drop] using this
    have hw : wrap8 (decoded + 1) = decoded + 1 := by
      simp only [List.length_nil] at hd
      unfold wrap8
      omega
    unfold pbDecodeVarintLoop
    rw [int8Index_low start decoded (by simp at hd; omega)]
    simp only [Option.some_bind]
    rw [hget]
    simp [hlast, groupsFirstByteHigh, hw]
  | cons p ps ih =>
    intro budget decoded acc hpre hb hd hdrop
    obtain ⟨f, rfl⟩ : ∃ f, budget = f + 1 := ⟨budget - 1, by simp at hb; omega⟩
    have hget : buf.get? (start + decoded) = some p := by
      have := congrArg List.head? hdrop
      simpa [List.head?_drop] using this
    have hp : p &&& 0x80 ≠ 0 := hpre p (List.mem_cons_self _ _)
    have hdrop1 : buf.drop (start + (decoded + 1)) = ps ++ last :: rest := by
      have := congrArg List.tail hdrop
      simpa [List.tail_drop, Nat.add_assoc] using this
    have hrec := ih f (decoded + 1) (wrap32 (acc <<< 7) ||| (p &&& 0x7f))
      (fun b hb => hpre b (List.mem_cons_of_mem _ hb))
      (by simp at hb; omega) (by simp at hd; omega) hdrop1
    have hw : wrap8 (decoded + 1) = decoded + 1 := by
      simp only [List.length_cons] at hd
      unfold wrap8
      omega
    unfold pbDecodeVarintLoop
    rw [int8Index_low start decoded (by simp at hd; omega)]
    simp only [Option.some_bind]
    rw [hget]
    simp only [hp, ne_eq, not_false_eq_true, if_true, hw]
    rw [hrec]
    simp only [groupsFirstByteHigh, List.cons_append, List.foldl_cons, List.length_cons]
    congr 2
    omega

/-- What `pbDecodeVarint` computes on a well-formed varint of at most 128 bytes (the
`int8_t` counter does not wrap): the groups
accumulated first byte high, and the number of bytes up to and including the first byte
with a clear top bit. -/
theorem pbDecodeVarint_groups (buf : List Nat) (start : Nat) (pre : List Nat) (last : Nat)
    (rest : List Nat) (hpre : ∀ b ∈ pre, b &&& 0x80 ≠ 0) (hlast : last &&& 0x80 = 0)
    (hlen : pre.length < 128) (hdrop : buf.drop start = pre ++ last :: rest) :
    pbDecodeVarint buf start
      = .ok (groupsFirstByteHigh (pre ++ [last]) 0, pre.length + 1) := by
  have h := pbDecodeVarintLoop_run buf start last rest hlast pre 256 0 0 hpre (by omega)
    (by omega) (by simpa using hdrop)
  unfold pbDecodeVarint
  rw [h]
  simp

/-- A one-byte varint is decoded to its low seven bits and one byte is consumed. -/
theorem pbDecodeVarint_one_byte (b : Nat) (rest : List Nat) (hb : b &&& 0x80 = 0) :
    pbDecodeVarint (b :: rest) 0 = .ok (b &&& 0x7f, 1) := by
  have h := pbDecodeVarint_groups (b :: rest) 0 [] b rest (by simp) hb (by simp) rfl
  simpa [groupsFirstByteHigh, wrap32] using h

/-- A two-byte varint is decoded with the first byte in the more significant group. -/
theorem pbDecodeVarint_two_bytes (b0 b1 : Nat) (rest : List Nat) (h0 : b0 &&& 0x80 ≠ 0)
    (h1 : b1 &&& 0x80 = 0) :
    pbDecodeVarint (b0 :: b1 :: rest) 0
      = .ok (wrap32 ((b0 &&& 0x7f) <<< 7) ||| (b1 &&& 0x7f), 2) := by
  have h := pbDecodeVarint_groups (b0 :: b1 :: rest) 0 [b0] b1 rest (by simpa using h0) h1
    (by simp) rfl
  simpa [groupsFirstByteHigh, wrap32] using h

/-- C1 (the code at the failing input): for the two bytes `0x81 0x02` (first byte with its
top bit set, second with it clear) `pbDecodeVarint` returns the value 130 with two bytes
consumed, whereas the standard little-endian base-128 value of these bytes is 257. -/
theorem C1_pbDecodeVarint_first_byte_most_significant :
    pbDecodeVarint [0x81, 0x02] 0 = .ok (130, 2) ∧ standardVarint [0x81, 0x02] = 257 := by
  decide

/-! ## C2: `getRawMessage` -/

/-- A complete frame whose declared length is below 65536 is consumed whole: the call
returns `min (L + 4) bufSize`, stores that many leading bytes of the frame and removes
`L + 4` bytes from the transport. -/
theorem getRawMessage_complete_frame (buffer : List Nat) (bufSize : Nat)
    (client : WiFiClientSecure) (millis timeout : Nat) (hcap : 4 < bufSize)
    (hL : getIncomingMessageLength client < 65536)
    (hav : getIncomingMessageLength client + 4 ≤ client.rx.length) :
    getRawMessage buffer bufSize client millis timeout
      = (min (getIncomingMessageLength client + 4) bufSize,
         overwrite buffer 0 (client.rx.take (min (getIncomingMessageLength client + 4) bufSize)),
         { client with rx := client.rx.drop (getIncomingMessageLength client + 4) },
         millis) := by
  have hw : wrap16 (getIncomingMessageLength client) = getIncomingMessageLength client := by
    simp only [wrap16]; omega
  have h1 : ¬ (bufSize ≤ 4 ∨ client.rx.length < 4) := by omega
  have h2 : ¬ (client.rx.length < getIncomingMessageLength client + 4) := by omega
  unfold getRawMessage
  rw [if_neg h1]
  simp only [hw, if_neg h2]
  by_cases h3 : bufSize < getIncomingMessageLength client + 4
  · have e1 : bufSize - 4 + 4 = bufSize := by omega
    have e2 : bufSize + (getIncomingMessageLength client - (bufSize - 4))
        = getIncomingMessageLength client + 4 := by omega
    have e3 : min (getIncomingMessageLength client + 4) bufSize = bufSize := by omega
    simp only [if_pos h3, e1, e2, e3]
  · have e3 : min (getIncomingMessageLength client + 4) bufSize
        = getIncomingMessageLength client + 4 := by omega
    simp only [if_neg h3, e3, Nat.add_zero]

/-- A length prefix `00 01 00 00` (declared length 65536) is read as length 0, whatever
follows it: four bytes are taken and the call returns 4. -/
theorem getRawMessage_prefix_65536 (buffer payload : List Nat) (c : Bool)
    (w : List (List Nat)) (k : Nat) :
    getIncomingMessageLength
        { connected := c, rx := [0, 1, 0, 0] ++ payload, writes := w, writeLimit := k } = 65536
    ∧ getRawMessage buffer 4096
        { connected := c, rx := [0, 1, 0, 0] ++ payload, writes := w, writeLimit := k } 0 100
      = (4, overwrite buffer 0 [0, 1, 0, 0],
         { connected := c, rx := payload, writes := w, writeLimit := k }, 0) := by
  constructor
  · simp [getIncomingMessageLength, wrap32]
  · have h : ¬ (payload.length + 1 + 1 + 1 + 1 < 4) := by omega
    simp [getRawMessage, getIncomingMessageLength, wrap32, wrap16, h]

/-- C2 (the code at the failing input): the transport holds a complete frame of declared
length 65536 (prefix `00 01 00 00` and 65536 payload bytes).  `getRawMessage` with capacity
4096 keeps only the low 16 bits of the length: it returns 4 and removes 4 bytes, leaving the
whole payload unread, where the claim demands 65540 bytes removed and the value 4096. -/
theorem C2_getRawMessage_drops_high_length_bits (buffer : List Nat) :
    getIncomingMessageLength
        { connected := true, rx := [0, 1, 0, 0] ++ List.replicate 65536 7, writes := [],
          writeLimit := 0 } = 65536
    ∧ getRawMessage buffer 4096
        { connected := true, rx := [0, 1, 0, 0] ++ List.replicate 65536 7, writes := [],
          writeLimit := 0 } 0 100
      = (4, overwrite buffer 0 [0, 1, 0, 0],
         { connected := true, rx := List.replicate 65536 7, writes := [], writeLimit := 0 },
         0) :=
  getRawMessage_prefix_65536 buffer (List.replicate 65536 7) true [] 0

/-! ## C3: `ArduCastConnection::getConnectionStatus` -/

/-- Without wrap-around (the two deadlines fit 32 bits and the clock has not passed
`lastMsgAt` backwards) the code returns the status the specification words. -/
theorem getConnectionStatus_eq_spec_of_no_wrap (ch : ArduCastConnection)
    (client : WiFiClientSecure) (now : Nat) (h1 : ch.lastMsgAt + 3 * ch.keepAlive < 4294967296)
    (h2 : ch.lastMsgAt ≤ now) (h3 : now < 4294967296) :
    (ch.getConnectionStatus client now).1
      = statusBySpec client.connected ch.connected ch.lastMsgAt ch.keepAlive now := by
  have e1 : wrap32 (ch.lastMsgAt + 3 * ch.keepAlive) = ch.lastMsgAt + 3 * ch.keepAlive := by
    simp only [wrap32]; omega
  have e2 : wrap32 (ch.lastMsgAt + ch.keepAlive) = ch.lastMsgAt + ch.keepAlive := by
    simp only [wrap32]; omega
  have e3 : sub32 now ch.lastMsgAt = now - ch.lastMsgAt := by
    simp only [sub32, wrap32]; omega
  unfold ArduCastConnection.getConnectionStatus statusBySpec
  rw [e1, e2, e3]
  cases hc : client.connected <;> cases hl : ch.connected <;> simp
  by_cases ha : ch.lastMsgAt + 3 * ch.keepAlive < now
  · have hb : 3 * ch.keepAlive < now - ch.lastMsgAt := by omega
    simp [ha, hb]
  · have hb : ¬ (3 * ch.keepAlive < now - ch.lastMsgAt) := by omega
    by_cases hd : ch.lastMsgAt + ch.keepAlive < now
    · have he : ch.keepAlive < now - ch.lastMsgAt := by omega
      simp [ha, hb, hd, he]
    · have he : ¬ (ch.keepAlive < now - ch.lastMsgAt) := by omega
      simp [ha, hb, hd, he]

/-- C3 (the code at the failing input): a channel with a live transport, latch set and
`lastMsgAt = 4294967295`, asked at the same clock value 4294967295 (no time has passed), is
reported Disconnected and loses its latch, because `lastMsgAt + 3 * keepAlive` wraps to
14999; the specification's rule gives Connected. -/
theorem C3_getConnectionStatus_deadline_wraps :
    (demoChannel CC_MAIN_DESTIID 4294967295 true).getConnectionStatus demoState.client 4294967295
      = (CH_DISCONNECTED, demoChannel CC_MAIN_DESTIID 4294967295 false)
    ∧ statusBySpec true true 4294967295 PING_TIMEOUT 4294967295 = CH_CONNECTED := by
  decide

/-- Return codes of `writeMsg`. -/
theorem writeMsg_code (env : Env) (ch : ArduCastConnection) (client : WiFiClientSecure)
    (buf ns payload : List Nat) (err : Int) (c : WiFiClientSecure) (b : List Nat)
    (h : ch.writeMsg env client buf ns payload = .ok (err, c, b)) :
    err = 0 ∨ err = -1 ∨ err = -2 ∨ err = -3 := by
  unfold ArduCastConnection.writeMsg at h
  split at h
  · cases h; simp
  · split at h
    · cases h
    · dsimp only at h
      split at h
      · cases h; simp
      · split at h <;> cases h <;> simp

/-- Effect of `writeMsg` on the transport: only the write log can change, by at most one
entry. -/
theorem writeMsg_client (env : Env) (ch : ArduCastConnection) (client : WiFiClientSecure)
    (buf ns payload : List Nat) (err : Int) (c : WiFiClientSecure) (b : List Nat)
    (h : ch.writeMsg env client buf ns payload = .ok (err, c, b)) :
    c.connected = client.connected ∧ c.rx = client.rx ∧ c.writeLimit = client.writeLimit
      ∧ (c.writes = client.writes ∨ ∃ w, c.writes = client.writes ++ [w]) := by
  unfold ArduCastConnection.writeMsg at h
  split at h
  · cases h; simp
  · split at h
    · cases h
    · dsimp only at h
      split at h
      · cases h; simp
      · split at h <;> cases h <;> simp [WiFiClientSecure.write]

/-! ## C7: rejection of commands -/

/-- Return code of `devWriteMsg` is one of the codes of `writeMsg`. -/
theorem devWriteMsg_code (env : Env) (s : ArduCastControl) (ns payload : List Nat)
    (x : Int × ArduCastControl) (h : devWriteMsg env s ns payload = .ok x) :
    x.1 = 0 ∨ x.1 = -1 ∨ x.1 = -2 ∨ x.1 = -3 := by
  unfold devWriteMsg at h
  split at h
  · cases h
  · rename_i err c b hw
    cases h
    exact writeMsg_code env _ _ _ _ _ err c b hw

/-- C7: while a request is outstanding each of the seven commands returns -10, whatever
the other fields hold; with no request outstanding and `mediaSessionId < 0` the five media
commands return -9; `setVolume` and `setMute` never return -9; and every rejected call
returns the state it was given (nothing written, no member changed). -/
theorem C7_commands_busy_and_no_media (env : Env) (s : ArduCastControl) :
    (s.msgSent = true →
      play env s = .ok (-10, s) ∧ (∀ toggle, pause env s toggle = .ok (-10, s))
      ∧ prev env s = .ok (-10, s) ∧ next env s = .ok (-10, s)
      ∧ (∀ relative v, seek env s relative v = .ok (-10, s))
      ∧ (∀ relative v, setVolume env s relative v = .ok (-10, s))
      ∧ (∀ newMute toggle, setMute env s newMute toggle = .ok (-10, s)))
    ∧ (s.msgSent = false → s.mediaSessionId < 0 →
      play env s = .ok (-9, s) ∧ (∀ toggle, pause env s toggle = .ok (-9, s))
      ∧ prev env s = .ok (-9, s) ∧ next env s = .ok (-9, s)
      ∧ (∀ relative v, seek env s relative v = .ok (-9, s)))
    ∧ (∀ relative v x, setVolume env s relative v = .ok x → x.1 ≠ -9)
    ∧ (∀ newMute toggle x, setMute env s newMute toggle = .ok x → x.1 ≠ -9) := by
  refine ⟨?_, ?_, ?_, ?_⟩
  · intro h
    simp [play, pause, prev, next, seek, setVolume, setMute, h]
  · intro h hm
    simp [play, pause, prev, next, seek, h, hm]
  · intro relative v x hx
    unfold setVolume at hx
    split at hx
    · cases hx; simp
    · have := devWriteMsg_code env s _ _ x hx
      omega
  · intro newMute toggle x hx
    unfold setMute at hx
    split at hx
    · cases hx; simp
    · have := devWriteMsg_code env s _ _ x hx
      omega

/-- C7 at a concrete state: with a request outstanding and a valid media session, `play`
and `setVolume` are rejected with -10 and return the state unchanged. -/
theorem C7_commands_busy_and_no_media_witness :
    play demoEnv busyState = .ok (-10, busyState)
    ∧ setVolume demoEnv busyState true 10 = .ok (-10, busyState) :=
  ⟨((C7_commands_busy_and_no_media demoEnv busyState).1 rfl).1,
   ((C7_commands_busy_and_no_media demoEnv busyState).1 rfl).2.2.2.2.2.1 true 10⟩

/-! ## Lengths of formatted integers -/

/-- Length of the digit string produced by `fmtNatLoop`. -/
theorem fmtNatLoop_length_le (rounds : Nat) :
    ∀ (n : Nat) (acc : List Nat), (fmtNatLoop rounds n acc).length ≤ rounds + acc.length := by
  induction rounds with
  | zero => intro n acc; simp [fmtNatLoop]
  | succ r ih =>
    intro n acc
    unfold fmtNatLoop
    dsimp only
    split
    · simp only [List.length_cons]; omega
    · have := ih (n / 10) ((48 + n % 10) :: acc)
      simp only [List.length_cons] at this
      omega

/-- The `%d` text of an integer has at most eleven characters. -/
theorem fmtInt_length_le (i : Int) : (fmtInt i).length ≤ 11 := by
  unfold fmtInt
  have := fmtNatLoop_length_le 10 i.natAbs []
  split
  · simp only [List.length_cons, List.length_nil] at *; omega
  · simp only [List.length_nil] at *; omega

/-! ## C8: `seek` -/

/-- C8 (counterexample): with no request outstanding, `mediaSessionId = 1` and a cached
duration of -1, `seek(false, -5.0)` is accepted and sends the SEEK text with
`"currentTime": -1.000000`: the value formatted is -1, which is neither 0 nor a value of
`[0, duration]`. -/
theorem C8_seek_negative_duration_counterexample :
    negativeDurationState.msgSent = false ∧ 0 ≤ negativeDurationState.mediaSessionId
    ∧ negativeDurationState.duration = -1
    ∧ seekTarget negativeDurationState false (-5) = -1
    ∧ ¬ (0 ≤ seekTarget negativeDurationState false (-5))
    ∧ seek fmtEnv negativeDurationState false (-5)
        = appWriteMsg fmtEnv negativeDurationState CC_NS_MEDIA
            (bytes ("\x7b\"type\": \"SEEK\", \"requestId\": 2, \"mediaSessionId\": 1, "
              ++ "\"currentTime\": -1.000000\x7d")) := by
  have h : seekTarget negativeDurationState false (-5) = -1 := by
    simp [seekTarget, negativeDurationState, demoState]
  refine ⟨rfl, by decide, rfl, h, ?_, ?_⟩
  · rw [h]; norm_num
  · have h1 : negativeDurationState.msgSent = false := rfl
    have h2 : negativeDurationState.mediaSessionId = 1 := rfl
    have h3 : seekCmd fmtEnv 1 (-1)
        = bytes ("\x7b\"type\": \"SEEK\", \"requestId\": 2, \"mediaSessionId\": 1, "
              ++ "\"currentTime\": -1.000000\x7d") := by decide
    simp only [seek, h1, h2, h, ← h3]
    simp

/-- C8 (amended): an accepted `seek(relative, v)` is one `writeMsg` on the application
channel and the media namespace whose payload is the text
`{"type": "SEEK", "requestId": 2, "mediaSessionId": ` followed by the decimal
`mediaSessionId`, `, "currentTime": `, the `%f` conversion of `min (max t 0) duration` and a
closing brace, cut to 127 characters by `snprintf` (not cut when the `%f` text has at most
47 characters), where `t = v + currentTime` when relative and `t = v` otherwise; when the
cached duration is not negative the value formatted lies in `[0, duration]`: it is 0 when
`t < 0`, `duration` when `t > duration`, and `t` otherwise. -/
theorem C8_seek_clamps (env : Env) (s : ArduCastControl) (relative : Bool) (v : ℚ)
    (hm : s.msgSent = false) (hid : 0 ≤ s.mediaSessionId) :
    seek env s relative v
        = appWriteMsg env s CC_NS_MEDIA
            ((bytes "\x7b\"type\": \"SEEK\", \"requestId\": 2, \"mediaSessionId\": "
              ++ fmtInt s.mediaSessionId ++ bytes ", \"currentTime\": "
              ++ env.fmtFloat
                  (min (max (if relative then v + s.currentTime else v) 0) s.duration)
              ++ bytes "\x7d").take 127)
    ∧ ((env.fmtFloat
          (min (max (if relative then v + s.currentTime else v) 0) s.duration)).length ≤ 47 →
        seek env s relative v
          = appWriteMsg env s CC_NS_MEDIA
              (bytes "\x7b\"type\": \"SEEK\", \"requestId\": 2, \"mediaSessionId\": "
                ++ fmtInt s.mediaSessionId ++ bytes ", \"currentTime\": "
                ++ env.fmtFloat
                    (min (max (if relative then v + s.currentTime else v) 0) s.duration)
                ++ bytes "\x7d"))
    ∧ seekTarget s relative v
        = min (max (if relative then v + s.currentTime else v) 0) s.duration
    ∧ (0 ≤ s.duration →
        0 ≤ min (max (if relative then v + s.currentTime else v) 0) s.duration
        ∧ min (max (if relative then v + s.currentTime else v) 0) s.duration ≤ s.duration
        ∧ ((if relative then v + s.currentTime else v) < 0 →
            min (max (if relative then v + s.currentTime else v) 0) s.duration = 0)
        ∧ (s.duration < (if relative then v + s.currentTime else v) →
            min (max (if relative then v + s.currentTime else v) 0) s.duration = s.duration)
        ∧ (0 ≤ (if relative then v + s.currentTime else v) →
            (if relative then v + s.currentTime else v) ≤ s.duration →
            min (max (if relative then v + s.currentTime else v) 0) s.duration
              = (if relative then v + s.currentTime else v))) := by
  have hnot : ¬ (s.mediaSessionId < 0) := by omega
  have htarget : seekTarget s relative v
      = min (max (if relative then v + s.currentTime else v) 0) s.duration := by
    unfold seekTarget
    generalize (if relative then v + s.currentTime else v) = t
    dsimp only
    by_cases h1 : t < 0
    · have e : max t 0 = 0 := max_eq_right (le_of_lt h1)
      rw [if_pos h1, e]
      by_cases h2 : (0 : ℚ) > s.duration
      · rw [if_pos h2, min_eq_right (le_of_lt h2)]
      · rw [if_neg h2, min_eq_left (not_lt.mp h2)]
    · have e : max t 0 = t := max_eq_left (not_lt.mp h1)
      rw [if_neg h1, e]
      by_cases h2 : t > s.duration
      · rw [if_pos h2, min_eq_right (le_of_lt h2)]
      · rw [if_neg h2, min_eq_left (not_lt.mp h2)]
  have hseek : seek env s relative v
      = appWriteMsg env s CC_NS_MEDIA
          ((bytes "\x7b\"type\": \"SEEK\", \"requestId\": 2, \"mediaSessionId\": "
            ++ fmtInt s.mediaSessionId ++ bytes ", \"currentTime\": "
            ++ env.fmtFloat
                (min (max (if relative then v + s.currentTime else v) 0) s.duration)
            ++ bytes "\x7d").take 127) := by
    rw [← htarget]
    simp [seek, hm, hnot, seekCmd, snprintf128]
  refine ⟨hseek, fun hlen => ?_, htarget, fun hd => ?_⟩
  · rw [hseek]
    congr 1
    apply List.take_of_length_le
    have h1 : (bytes "\x7b\"type\": \"SEEK\", \"requestId\": 2, \"mediaSessionId\": ").length
        = 51 := by decide
    have h2 : (bytes ", \"currentTime\": ").length = 17 := by decide
    have h3 : (bytes "\x7d").length = 1 := by decide
    have h4 := fmtInt_length_le s.mediaSessionId
    simp only [List.length_append, h1, h2, h3]
    omega
  · generalize (if relative then v + s.currentTime else v) = t
    refine ⟨le_min (le_max_right _ _) hd, min_le_right _ _, fun h => ?_, fun h => ?_,
      fun h1 h2 => ?_⟩
    · rw [max_eq_right (le_of_lt h), min_eq_left hd]
    · rw [max_eq_left (by linarith), min_eq_right (le_of_lt h)]
    · rw [max_eq_left h1, min_eq_left h2]

set_option maxRecDepth 100000 in
/-- C8 (amended) at a concrete state: with `mediaSessionId = 7` and duration 100,
`seek(false, -5.0)` sends the SEEK text with `"currentTime": 0.000000`. -/
theorem C8_seek_clamps_witness :
    seek fmtEnv playingState false (-5)
      = appWriteMsg fmtEnv playingState CC_NS_MEDIA
          (bytes ("\x7b\"type\": \"SEEK\", \"requestId\": 2, \"mediaSessionId\": 7, "
            ++ "\"currentTime\": 0.000000\x7d")) :=
  (C8_seek_clamps fmtEnv playingState false (-5) rfl (by decide)).1.trans
    (by
      have h : min (max (if false = true then (-5 : ℚ) + playingState.currentTime else -5) 0)
          playingState.duration = 0 := by
        simp [playingState, demoState]
      rw [h]
      rfl)

/-! ## C9: `setVolume` -/

/-- C9: an accepted `setVolume(relative, v)` is one `writeMsg` on the device channel and the
receiver namespace whose payload is the text `CC_MSG_SET_VOL`
(`{"type": "SET_VOLUME", "requestId": 2, "volume": {"level": `) followed by the `%f`
conversion of `min (max t 0) 1` and two closing braces, cut to 127 characters by `snprintf`
(not cut when the `%f` text has at most 66 characters), where `t = v + volume` when
relative and `t = v` otherwise; the level formatted lies in `[0, 1]` for every cached
volume, and `setVolume(true, 10.0)` with cached volume 0.5 formats level 1. -/
theorem C9_setVolume_clamps (env : Env) (s : ArduCastControl) (relative : Bool) (v : ℚ)
    (hm : s.msgSent = false) :
    setVolume env s relative v
        = devWriteMsg env s CC_NS_RECEIVER
            ((CC_MSG_SET_VOL
              ++ env.fmtFloat (min (max (if relative then v + s.volume else v) 0) 1)
              ++ bytes "\x7d\x7d").take 127)
    ∧ ((env.fmtFloat (min (max (if relative then v + s.volume else v) 0) 1)).length ≤ 66 →
        setVolume env s relative v
          = devWriteMsg env s CC_NS_RECEIVER
              (CC_MSG_SET_VOL
                ++ env.fmtFloat (min (max (if relative then v + s.volume else v) 0) 1)
                ++ bytes "\x7d\x7d"))
    ∧ volumeTarget s relative v = min (max (if relative then v + s.volume else v) 0) 1
    ∧ 0 ≤ min (max (if relative then v + s.volume else v) 0) 1
    ∧ min (max (if relative then v + s.volume else v) 0) 1 ≤ 1
    ∧ (s.volume = 1 / 2 →
        setVolume env s true 10
          = devWriteMsg env s CC_NS_RECEIVER
              ((CC_MSG_SET_VOL ++ env.fmtFloat 1 ++ bytes "\x7d\x7d").take 127)) := by
  have key : ∀ t : ℚ, (if (if t < 0 then 0 else t) > 1 then 1 else (if t < 0 then 0 else t))
      = min (max t 0) 1 := by
    intro t
    by_cases h1 : t < 0
    · have e : max t 0 = 0 := max_eq_right (le_of_lt h1)
      have h2 : ¬ ((0 : ℚ) > 1) := by norm_num
      rw [if_pos h1, e, if_neg h2, min_eq_left (by norm_num)]
    · have e : max t 0 = t := max_eq_left (not_lt.mp h1)
      rw [if_neg h1, e]
      by_cases h2 : t > 1
      · rw [if_pos h2, min_eq_right (le_of_lt h2)]
      · rw [if_neg h2, min_eq_left (not_lt.mp h2)]
  have htarget : ∀ (r : Bool) (w : ℚ), volumeTarget s r w
      = min (max (if r then w + s.volume else w) 0) 1 := by
    intro r w
    unfold volumeTarget
    exact key _
  have hset : ∀ (r : Bool) (w : ℚ), setVolume env s r w
      = devWriteMsg env s CC_NS_RECEIVER
          ((CC_MSG_SET_VOL
            ++ env.fmtFloat (min (max (if r then w + s.volume else w) 0) 1)
            ++ bytes "\x7d\x7d").take 127) := by
    intro r w
    rw [← htarget]
    simp [setVolume, hm, volumeCmd, snprintf128]
  refine ⟨hset relative v, fun hlen => ?_, htarget relative v,
    le_min (le_max_right _ _) (by norm_num), min_le_right _ _, fun hv => ?_⟩
  · rw [hset]
    congr 1
    apply List.take_of_length_le
    have h1 : CC_MSG_SET_VOL.length = 59 := by decide
    have h3 : (bytes "\x7d\x7d").length = 2 := by decide
    simp only [List.length_append, h1, h3]
    omega
  · rw [hset true 10, hv]
    norm_num

set_option maxRecDepth 100000 in
/-- C9 at a concrete state: with cached volume 0.5 and no request outstanding,
`setVolume(true, 10.0)` sends the SET_VOLUME text with `"level": 1.000000`. -/
theorem C9_setVolume_clamps_witness :
    setVolume fmtEnv playingState true 10
      = devWriteMsg fmtEnv playingState CC_NS_RECEIVER
          (bytes ("\x7b\"type\": \"SET_VOLUME\", \"requestId\": 2, \"volume\": "
            ++ "\x7b\"level\": 1.000000\x7d\x7d")) :=
  ((C9_setVolume_clamps fmtEnv playingState true 10 rfl).2.2.2.2.2
    (by simp [playingState, demoState])).trans rfl

/-! ## C10: `pause` -/

/-- The PLAY and PAUSE texts for the same media session differ. -/
theorem mediaCmd_play_ne_pause (i : Int) : mediaCmd CC_MSG_PLAY i ≠ mediaCmd CC_MSG_PAUSE i := by
  intro h
  have h1 := congrArg (fun l => l.getD 11 0) h
  revert h1
  simp [mediaCmd, snprintf128, CC_MSG_PLAY, CC_MSG_PAUSE, bytes]

/-- The PLAY and PAUSE texts fit `cc_msg_ctrl` and are not cut by `snprintf`. -/
theorem mediaCmd_play_pause_whole (i : Int) :
    mediaCmd CC_MSG_PLAY i = CC_MSG_PLAY ++ fmtInt i ++ bytes "\x7d"
    ∧ mediaCmd CC_MSG_PAUSE i = CC_MSG_PAUSE ++ fmtInt i ++ bytes "\x7d" := by
  have h := fmtInt_length_le i
  have h1 : CC_MSG_PLAY.length = 51 := by decide
  have h2 : CC_MSG_PAUSE.length = 52 := by decide
  have h3 : (bytes "\x7d").length = 1 := by decide
  constructor
  · unfold mediaCmd snprintf128
    apply List.take_of_length_le
    simp only [List.length_append, h1, h3]; omega
  · unfold mediaCmd snprintf128
    apply List.take_of_length_le
    simp only [List.length_append, h2, h3]; omega

/-- C10: an accepted `pause(toggle)` is one `writeMsg` on the application channel and the
media namespace; its payload is the PLAY text with the cached `mediaSessionId` when `toggle`
is true and the cached `playerState` is PAUSED, and the PAUSE text with the cached
`mediaSessionId` in every other case; the two texts differ, and each is the constant
followed by the decimal `mediaSessionId` and a closing brace. -/
theorem C10_pause_toggle (env : Env) (s : ArduCastControl) (toggle : Bool)
    (hm : s.msgSent = false) (hid : 0 ≤ s.mediaSessionId) :
    pause env s toggle
        = appWriteMsg env s CC_NS_MEDIA
            (if toggle = true ∧ s.playerState = PAUSED
              then mediaCmd CC_MSG_PLAY s.mediaSessionId
              else mediaCmd CC_MSG_PAUSE s.mediaSessionId)
    ∧ mediaCmd CC_MSG_PLAY s.mediaSessionId ≠ mediaCmd CC_MSG_PAUSE s.mediaSessionId
    ∧ mediaCmd CC_MSG_PLAY s.mediaSessionId
        = CC_MSG_PLAY ++ fmtInt s.mediaSessionId ++ bytes "\x7d"
    ∧ mediaCmd CC_MSG_PAUSE s.mediaSessionId
        = CC_MSG_PAUSE ++ fmtInt s.mediaSessionId ++ bytes "\x7d" := by
  have hnot : ¬ (s.mediaSessionId < 0) := by omega
  refine ⟨?_, mediaCmd_play_ne_pause _, mediaCmd_play_pause_whole _⟩
  by_cases h : toggle = true ∧ s.playerState = PAUSED
  · rw [if_pos h]
    simp [pause, play, hm, hnot, h.1, h.2]
  · rw [if_neg h]
    unfold pause
    cases toggle
    · simp [hm, hnot]
    · have hp : s.playerState ≠ PAUSED := fun hp => h ⟨rfl, hp⟩
      simp [hm, hnot, hp]

/-- C10 at a concrete state: `pause(true)` with cached `playerState = PAUSED` and
`mediaSessionId = 7` hands the PLAY text for session 7 to the application channel. -/
theorem C10_pause_toggle_witness :
    pause demoEnv playingState true
      = appWriteMsg demoEnv playingState CC_NS_MEDIA (mediaCmd CC_MSG_PLAY 7) :=
  (C10_pause_toggle demoEnv playingState true rfl (by decide)).1

/-! ## Members left alone by the receive path -/

theorem Keeps.keepsRefl (s : ArduCastControl) : Keeps s s := ⟨rfl, rfl, rfl, rfl⟩

theorem Keeps.keepsTrans {a b c : ArduCastControl} (h1 : Keeps a b) (h2 : Keeps b c) : Keeps a c :=
  ⟨h2.1.trans h1.1, h2.2.1.trans h1.2.1, h2.2.2.1.trans h1.2.2.1, h2.2.2.2.trans h1.2.2.2⟩

theorem volumeBlock_keeps (env : Env) (s : ArduCastControl) (status : Json) :
    Keeps s (volumeBlock env s status) := by
  unfold volumeBlock Keeps
  dsimp only
  split <;> exact ⟨rfl, rfl, rfl, rfl⟩

theorem sessionIdBlock_keeps (s s1 : ArduCastControl) (j : Json)
    (h : sessionIdBlock s j = .ok s1) : Keeps s s1 := by
  unfold sessionIdBlock at h
  unfold Keeps
  split at h
  · split at h
    · cases h
    · cases h; exact ⟨rfl, rfl, rfl, rfl⟩
  · cases h; exact ⟨rfl, rfl, rfl, rfl⟩

theorem statusTextBlock_keeps (s s1 : ArduCastControl) (j : Json)
    (h : statusTextBlock s j = .ok s1) : Keeps s s1 := by
  unfold statusTextBlock at h
  unfold Keeps
  split at h
  · split at h
    · cases h
    · cases h; exact ⟨rfl, rfl, rfl, rfl⟩
  · cases h; exact ⟨rfl, rfl, rfl, rfl⟩

theorem displayNameBlock_keeps (s s1 : ArduCastControl) (j : Json)
    (h : displayNameBlock s j = .ok s1) : Keeps s s1 := by
  unfold displayNameBlock at h
  unfold Keeps
  split at h
  · split at h
    · cases h
    · cases h; exact ⟨rfl, rfl, rfl, rfl⟩
  · cases h; exact ⟨rfl, rfl, rfl, rfl⟩

theorem receiverStatus_keeps (env : Env) (s s1 : ArduCastControl) (doc : Json)
    (h : receiverStatus env s doc = .ok s1) : Keeps s s1 := by
  unfold receiverStatus at h
  dsimp only at h
  have h0 := volumeBlock_keeps env s (doc.getMember (bytes "status"))
  split at h
  · split at h
    · cases h
    · rename_i s2 e2
      split at h
      · cases h
      · rename_i s3 e3
        exact ((h0.keepsTrans (sessionIdBlock_keeps _ _ _ e2)).keepsTrans
          (statusTextBlock_keeps _ _ _ e3)).keepsTrans (displayNameBlock_keeps _ _ _ h)
  · cases h
    exact h0.keepsTrans ⟨rfl, rfl, rfl, rfl⟩

theorem playerStateBlock_keeps (s s1 : ArduCastControl) (j : Json)
    (h : playerStateBlock s j = .ok s1) : Keeps s s1 := by
  unfold playerStateBlock at h
  unfold Keeps
  split at h
  · split at h
    · cases h
    · cases h; exact ⟨rfl, rfl, rfl, rfl⟩
  · cases h; exact ⟨rfl, rfl, rfl, rfl⟩

theorem titleBlock_keeps (s s1 : ArduCastControl) (j : Json)
    (h : titleBlock s j = .ok s1) : Keeps s s1 := by
  unfold titleBlock at h
  unfold Keeps
  split at h
  · split at h
    · cases h
    · cases h; exact ⟨rfl, rfl, rfl, rfl⟩
  · cases h; exact ⟨rfl, rfl, rfl, rfl⟩

theorem artistBlock_keeps (s s1 : ArduCastControl) (j : Json)
    (h : artistBlock s j = .ok s1) : Keeps s s1 := by
  unfold artistBlock at h
  unfold Keeps
  split at h
  · split at h
    · cases h
    · cases h; exact ⟨rfl, rfl, rfl, rfl⟩
  · cases h; exact ⟨rfl, rfl, rfl, rfl⟩

theorem duration_keeps (s : ArduCastControl) (q : ℚ) : Keeps s { s with duration := q } :=
  ⟨rfl, rfl, rfl, rfl⟩

theorem mediaBlock_keeps (env : Env) (s s1 : ArduCastControl) (j : Json)
    (h : mediaBlock env s j = .ok s1) : Keeps s s1 := by
  unfold mediaBlock at h
  dsimp only at h
  split at h
  · split at h
    · split at h
      · cases h
      · rename_i s2 e2
        exact ((duration_keeps s _).keepsTrans (titleBlock_keeps _ _ _ e2)).keepsTrans
          (artistBlock_keeps _ _ _ h)
    · cases h; exact ⟨rfl, rfl, rfl, rfl⟩
  · cases h; exact Keeps.keepsRefl s

theorem mediaStatus_keeps (env : Env) (s s1 : ArduCastControl) (doc : Json)
    (h : mediaStatus env s doc = .ok s1) : Keeps s s1 := by
  unfold mediaStatus at h
  dsimp only at h
  have k1 : Keeps s (sessionTimeBlock env s ((doc.getMember (bytes "status")).getElement 0)) :=
    ⟨rfl, rfl, rfl, rfl⟩
  split at h
  · cases h
  · rename_i s2 e2
    exact (k1.keepsTrans (playerStateBlock_keeps _ _ _ e2)).keepsTrans (mediaBlock_keeps _ _ _ _ h)

theorem receiverBranch_keeps (env : Env) (s s1 : ArduCastControl) (doc : Json) (pp : Nat)
    (h : receiverBranch env s doc pp = .ok s1) : Keeps s s1 := by
  unfold receiverBranch at h
  split at h
  · split at h
    · cases h
    · exact receiverStatus_keeps env s s1 doc h
    · cases h; exact Keeps.keepsRefl s
  · cases h; exact Keeps.keepsRefl s

theorem mediaBranch_keeps (env : Env) (s s1 : ArduCastControl) (doc : Json) (pp : Nat)
    (h : mediaBranch env s doc pp = .ok s1) : Keeps s s1 := by
  unfold mediaBranch at h
  split at h
  · split at h
    · cases h
    · exact mediaStatus_keeps env s s1 doc h
    · cases h; exact Keeps.keepsRefl s
  · cases h; exact Keeps.keepsRefl s

theorem payloadField_keeps (env : Env) (s s1 : ArduCastControl) (offset len pp : Nat)
    (h : payloadField env s offset len pp = .ok s1) : Keeps s s1 := by
  unfold payloadField at h
  split at h
  · cases h; exact Keeps.keepsRefl s
  · rename_i doc hdoc
    split at h
    · split at h
      · cases h
      · rename_i s2 e2
        exact (receiverBranch_keeps _ _ _ _ _ e2).keepsTrans (mediaBranch_keeps _ _ _ _ _ h)
    · cases h; exact Keeps.keepsRefl s

theorem appStatus_keeps (s : ArduCastControl) : Keeps s (appStatus s).2 := ⟨rfl, rfl, rfl, rfl⟩

theorem devStatus_keeps (s : ArduCastControl) : Keeps s (devStatus s).2 := ⟨rfl, rfl, rfl, rfl⟩

theorem deviceSource_keeps (s : ArduCastControl) (offset len pp : Nat)
    (r : ArduCastControl × Nat) (h : deviceSource s offset len pp = .ok r) : Keeps s r.1 := by
  unfold deviceSource at h
  split at h
  · cases h
  · cases h; exact ⟨rfl, rfl, rfl, rfl⟩
  · cases h; exact Keeps.keepsRefl s

theorem applicationSource_keeps (s : ArduCastControl) (offset len pp : Nat)
    (r : ArduCastControl × Nat) (h : applicationSource s offset len pp = .ok r) :
    Keeps s r.1 := by
  unfold applicationSource at h
  split at h
  · cases h; exact appStatus_keeps s
  · split at h
    · cases h
    · cases h; exact ⟨rfl, rfl, rfl, rfl⟩
    · cases h; exact appStatus_keeps s

theorem sourceIdField_keeps (s : ArduCastControl) (offset len pp : Nat)
    (r : ArduCastControl × Nat) (h : sourceIdField s offset len pp = .ok r) : Keeps s r.1 := by
  unfold sourceIdField at h
  split at h
  · cases h
  · rename_i r1 e1
    exact (deviceSource_keeps _ _ _ _ _ e1).keepsTrans (applicationSource_keeps _ _ _ _ _ h)

theorem connectionNamespace_keeps (s : ArduCastControl) (offset len pp : Nat)
    (r : ArduCastControl × Nat) (h : connectionNamespace s offset len pp = .ok r) :
    Keeps s r.1 := by
  unfold connectionNamespace at h
  split at h
  · cases h
  · split at h
    · cases h; exact ⟨rfl, rfl, rfl, rfl⟩
    · split at h
      · cases h; exact ⟨rfl, rfl, rfl, rfl⟩
      · cases h; exact Keeps.keepsRefl s
  · cases h; exact Keeps.keepsRefl s

theorem namespaceField_keeps (s : ArduCastControl) (offset len pp : Nat)
    (r : ArduCastControl × Nat) (h : namespaceField s offset len pp = .ok r) : Keeps s r.1 := by
  unfold namespaceField at h
  split at h
  · cases h
  · exact connectionNamespace_keeps _ _ _ _ _ h

theorem scanStep_keeps (env : Env) (s : ArduCastControl) (offset pp : Nat)
    (r : ArduCastControl × Nat × Nat) (h : scanStep env s offset pp = .ok r) : Keeps s r.1 := by
  unfold scanStep at h
  split at h
  · cases h
  · rename_i hd ehd
    dsimp only at h
    split at h
    · cases h
    · rename_i r1 e1
      split at h
      · cases h
      · rename_i r2 e2
        split at h
        · cases h
        · rename_i s3 e3
          have k1 : Keeps s r1.1 := by
            split at e1
            · exact sourceIdField_keeps _ _ _ _ _ e1
            · cases e1; exact Keeps.keepsRefl s
          have k2 : Keeps r1.1 r2.1 := by
            split at e2
            · exact namespaceField_keeps _ _ _ _ _ e2
            · cases e2; exact Keeps.keepsRefl _
          have k3 : Keeps r2.1 s3 := by
            split at e3
            · exact payloadField_keeps _ _ _ _ _ _ e3
            · cases e3; exact Keeps.keepsRefl _
          cases h
          exact (k1.keepsTrans k2).keepsTrans k3

theorem scanLoop_keeps (env : Env) (read : Nat) :
    ∀ (fuel : Nat) (s : ArduCastControl) (offset pp : Nat) (s1 : ArduCastControl),
      scanLoop env read fuel s offset pp = .ok s1 → Keeps s s1 := by
  intro fuel
  induction fuel with
  | zero => intro s offset pp s1 h; cases h
  | succ f ih =>
    intro s offset pp s1 h
    unfold scanLoop at h
    split at h
    · cases h
    · rename_i s2 off2 pp2 hstep
      have k := scanStep_keeps env s offset pp _ hstep
      split at h
      · exact k.keepsTrans (ih _ _ _ _ h)
      · cases h; exact k

/-! ## C6: a received frame suppresses the send phase -/

/-- Effect of `readFrame`: the write log, the liveness flag, the write limit, the latch and
the error counter stay as they are. -/
theorem readFrame_keeps (s : ArduCastControl) :
    (readFrame s).2.client.writes = s.client.writes
    ∧ (readFrame s).2.client.connected = s.client.connected
    ∧ (readFrame s).2.client.writeLimit = s.client.writeLimit
    ∧ (readFrame s).2.msgSent = s.msgSent ∧ (readFrame s).2.errorCount = s.errorCount := by
  unfold readFrame getRawMessage
  dsimp only
  split
  · exact ⟨rfl, rfl, rfl, rfl, rfl⟩
  · split <;> exact ⟨rfl, rfl, rfl, rfl, rfl⟩

/-- Invariant of the drain loop: nothing is written, and once a frame has been processed the
latch is clear and the error counter is 5. -/
theorem rxLoop_inv (env : Env) (scanFuel : Nat) :
    ∀ (fuel : Nat) (s : ArduCastControl) (b b1 : Bool) (s1 : ArduCastControl),
      rxLoop env scanFuel fuel s b = .ok (b1, s1) →
      s1.client.writes = s.client.writes ∧ s1.client.connected = s.client.connected
      ∧ s1.client.writeLimit = s.client.writeLimit
      ∧ (b1 = true → (b = true → s.msgSent = false ∧ s.errorCount = 5) →
          s1.msgSent = false ∧ s1.errorCount = 5) := by
  intro fuel
  induction fuel with
  | zero => intro s b b1 s1 h; cases h
  | succ f ih =>
    intro s b b1 s1 h
    have hr := readFrame_keeps s
    unfold rxLoop at h
    dsimp only at h
    split at h
    · split at h
      · cases h
      · rename_i s2 hscan
        have k := scanLoop_keeps env _ _ _ _ _ _ hscan
        have hi := ih s2 true b1 s1 h
        have e1 : s2.client = (readFrame s).2.client := k.1
        have e2 : s2.msgSent = false := k.2.1
        have e3 : s2.errorCount = 5 := k.2.2.1
        refine ⟨?_, ?_, ?_, ?_⟩
        · rw [hi.1, e1, hr.1]
        · rw [hi.2.1, e1, hr.2.1]
        · rw [hi.2.2.1, e1, hr.2.2.1]
        · intro hb _
          exact hi.2.2.2 hb (fun _ => ⟨e2, e3⟩)
    · cases h
      refine ⟨hr.1, hr.2.1, hr.2.2.1, ?_⟩
      intro hb hinv
      have := hinv hb
      rw [hr.2.2.2.1, hr.2.2.2.2]
      exact this

/-- Effect of `getConnection` on the state: transport, latch and error counter stay. -/
theorem getConnection_keeps (s : ArduCastControl) : Keeps s (getConnection s).2 := by
  unfold getConnection
  split
  · exact Keeps.keepsRefl s
  · split <;> exact appStatus_keeps s

/-- Once a frame has been processed the drain loop ends with `rxProcessed` set. -/
theorem rxLoop_true (env : Env) (scanFuel : Nat) :
    ∀ (fuel : Nat) (s : ArduCastControl) (b1 : Bool) (s1 : ArduCastControl),
      rxLoop env scanFuel fuel s true = .ok (b1, s1) → b1 = true := by
  intro fuel
  induction fuel with
  | zero => intro s b1 s1 h; cases h
  | succ f ih =>
    intro s b1 s1 h
    unfold rxLoop at h
    dsimp only at h
    split at h
    · split at h
      · cases h
      · exact ih _ b1 s1 h
    · cases h
      rfl

/-- When the first call of the frame reader returns a frame, the drain loop ends with
`rxProcessed` set. -/
theorem rxLoop_first (env : Env) (scanFuel fuel : Nat) (s : ArduCastControl) (b b1 : Bool)
    (s1 : ArduCastControl) (h : rxLoop env scanFuel fuel s b = .ok (b1, s1))
    (hr : 0 < (readFrame s).1) : b1 = true := by
  cases fuel with
  | zero => cases h
  | succ f =>
    unfold rxLoop at h
    dsimp only at h
    rw [if_pos hr] at h
    split at h
    · cases h
    · exact rxLoop_true env scanFuel f _ b1 s1 h

/-- C6: in a `loop()` call whose drain phase has processed at least one frame
(`rxProcessed` is true at its end), the call returns, nothing has been written to the
transport, the outstanding-request latch `msgSent` is false and `errorCount` is 5,
whatever the frames held; and whenever the first call of the frame reader returns a
non-empty frame and `loop()` returns, it returns in such a state. -/
theorem C6_received_frame_suppresses_send (env : Env) (fuel : Nat) (s : ArduCastControl)
    (hc : s.client.connected = true) :
    ((rxLoop env fuel fuel s false).map Prod.fst = .ok true →
      ∃ r s2, loop env fuel s = .ok (r, s2) ∧ s2.client.writes = s.client.writes
        ∧ s2.msgSent = false ∧ s2.errorCount = 5)
    ∧ (∀ r s2, loop env fuel s = .ok (r, s2) → 0 < (readFrame s).1 →
        s2.client.writes = s.client.writes ∧ s2.msgSent = false ∧ s2.errorCount = 5) := by
  have key : ∀ s1, rxLoop env fuel fuel s false = .ok (true, s1) →
      loop env fuel s = .ok (getConnection s1)
      ∧ (getConnection s1).2.client.writes = s.client.writes
      ∧ (getConnection s1).2.msgSent = false ∧ (getConnection s1).2.errorCount = 5 := by
    intro s1 hres
    have hi := rxLoop_inv env fuel fuel s false true s1 hres
    have h5 := hi.2.2.2 rfl (fun h => absurd h (by decide))
    have k := getConnection_keeps s1
    refine ⟨?_, ?_, ?_, ?_⟩
    · unfold loop
      rw [hc, hres]
      rfl
    · rw [k.1, hi.1]
    · rw [k.2.1, h5.1]
    · rw [k.2.2.1, h5.2]
  constructor
  · intro hrx
    cases hres : rxLoop env fuel fuel s false with
    | error e => rw [hres] at hrx; cases hrx
    | ok x =>
      obtain ⟨b, s1⟩ := x
      rw [hres] at hrx
      have hb : b = true := by
        simpa [Except.map] using hrx
      subst hb
      obtain ⟨k1, k2, k3, k4⟩ := key s1 hres
      exact ⟨(getConnection s1).1, (getConnection s1).2, k1, k2, k3, k4⟩
  · intro r s2 h hr
    cases hres : rxLoop env fuel fuel s false with
    | error e =>
      unfold loop at h
      rw [hc, hres] at h
      cases h
    | ok x =>
      obtain ⟨b, s1⟩ := x
      have hb := rxLoop_first env fuel fuel s false b s1 hres hr
      subst hb
      obtain ⟨k1, k2, k3, k4⟩ := key s1 hres
      rw [k1] at h
      have e := congrArg Prod.snd (Except.ok.inj h)
      dsimp only at e
      rw [← e]
      exact ⟨k2, k3, k4⟩

set_option maxRecDepth 100000 in
/-- C6 at concrete states: with a request outstanding, `errorCount = 3` and one frame
waiting, `loop()` returns with an unchanged write log, `msgSent = false` and
`errorCount = 5`; the same with a receiver status frame waiting whose namespace field has
43 bytes, more than the namespaces the scan compares it with. -/
theorem C6_received_frame_suppresses_send_witness :
    (∃ r s2, loop demoEnv 2 frameState = .ok (r, s2)
      ∧ s2.client.writes = frameState.client.writes ∧ s2.msgSent = false
      ∧ s2.errorCount = 5)
    ∧ (∃ r s2, loop (jsonEnv receiverTextSession receiverDocSession) 10 longFrameState
          = .ok (r, s2)
      ∧ s2.client.writes = longFrameState.client.writes ∧ s2.msgSent = false
      ∧ s2.errorCount = 5) :=
  ⟨(C6_received_frame_suppresses_send demoEnv 2 frameState rfl).1 (by decide),
   (C6_received_frame_suppresses_send (jsonEnv receiverTextSession receiverDocSession) 10
     longFrameState rfl).1 (by decide)⟩

/-! ## C5: the priority chain of the send phase -/

/-- `writeMsg` only reads the destination id and the buffer size of its channel. -/
theorem writeMsg_congr (env : Env) (ch1 ch2 : ArduCastConnection) (c : WiFiClientSecure)
    (buf ns payload : List Nat) (h1 : ch1.destId = ch2.destId)
    (h2 : ch1.writeBufferSize = ch2.writeBufferSize) :
    ch1.writeMsg env c buf ns payload = ch2.writeMsg env c buf ns payload := by
  unfold ArduCastConnection.writeMsg
  rw [h1, h2]

/-- `getConnectionStatus` leaves the destination id and the buffer size alone. -/
theorem getConnectionStatus_fields (ch : ArduCastConnection) (c : WiFiClientSecure) (t : Nat) :
    (ch.getConnectionStatus c t).2.destId = ch.destId
    ∧ (ch.getConnectionStatus c t).2.writeBufferSize = ch.writeBufferSize := by
  unfold ArduCastConnection.getConnectionStatus
  split
  · exact ⟨rfl, rfl⟩
  · split
    · exact ⟨rfl, rfl⟩
    · split <;> exact ⟨rfl, rfl⟩

/-- Asking a channel twice at the same clock value gives the same status. -/
theorem getConnectionStatus_idem (ch : ArduCastConnection) (c : WiFiClientSecure) (t : Nat) :
    ((ch.getConnectionStatus c t).2.getConnectionStatus c t).1
      = (ch.getConnectionStatus c t).1 := by
  by_cases h0 : (!c.connected || !ch.connected) = true
  · have e : ch.getConnectionStatus c t = (CH_DISCONNECTED, ch) := by
      unfold ArduCastConnection.getConnectionStatus
      rw [if_pos h0]
    rw [e]
    show (ch.getConnectionStatus c t).1 = CH_DISCONNECTED
    rw [e]
  · by_cases ha : wrap32 (ch.lastMsgAt + 3 * ch.keepAlive) < t
    · have e : ch.getConnectionStatus c t
          = (CH_DISCONNECTED, { ch with connected := false }) := by
        unfold ArduCastConnection.getConnectionStatus
        rw [if_neg h0, if_pos ha]
      rw [e]
      show (({ ch with connected := false } : ArduCastConnection).getConnectionStatus c t).1
        = CH_DISCONNECTED
      unfold ArduCastConnection.getConnectionStatus
      simp
    · by_cases hb : wrap32 (ch.lastMsgAt + ch.keepAlive) < t
      · have e : ch.getConnectionStatus c t = (CH_NEEDS_PING, ch) := by
          unfold ArduCastConnection.getConnectionStatus
          rw [if_neg h0, if_neg ha, if_pos hb]
        rw [e]
        show (ch.getConnectionStatus c t).1 = CH_NEEDS_PING
        rw [e]
      · have e : ch.getConnectionStatus c t = (CH_CONNECTED, ch) := by
          unfold ArduCastConnection.getConnectionStatus
          rw [if_neg h0, if_neg ha, if_neg hb]
        rw [e]
        show (ch.getConnectionStatus c t).1 = CH_CONNECTED
        rw [e]

theorem sendAndMark_dev_client (env : Env) (s : ArduCastControl) (ns payload : List Nat) :
    (sendAndMark (devWriteMsg env s ns payload)).map (fun x => x.client)
      = (s.deviceConnection.writeMsg env s.client s.connBuffer ns payload).map
          transportOf := by
  unfold sendAndMark devWriteMsg
  cases s.deviceConnection.writeMsg env s.client s.connBuffer ns payload with
  | error e => rfl
  | ok r =>
    obtain ⟨err, c, b⟩ := r
    simp only [Except.map, markSent, transportOf]
    split <;> rfl

theorem sendAndMark_app_client (env : Env) (s : ArduCastControl) (ns payload : List Nat) :
    (sendAndMark (appWriteMsg env s ns payload)).map (fun x => x.client)
      = (s.applicationConnection.writeMsg env s.client s.connBuffer ns payload).map
          transportOf := by
  unfold sendAndMark appWriteMsg
  cases s.applicationConnection.writeMsg env s.client s.connBuffer ns payload with
  | error e => rfl
  | ok r =>
    obtain ⟨err, c, b⟩ := r
    simp only [Except.map, markSent, transportOf]
    split <;> rfl

/-- The transport after the priority chain is the transport after the one `writeMsg` call of
the selected action. -/
theorem sendNext_client (env : Env) (s : ArduCastControl) :
    (sendNext env s).map (fun x => x.client) = performAction env s (chosenAction s) := by
  have e4 : (appStatus (devStatus (appStatus s).2).2).1
      = (s.applicationConnection.getConnectionStatus s.client s.millis).1 :=
    getConnectionStatus_idem _ _ _
  have e5 : (appStatus (appStatus (devStatus (appStatus s).2).2).2).1
      = (s.applicationConnection.getConnectionStatus s.client s.millis).1 :=
    (getConnectionStatus_idem _ _ _).trans (getConnectionStatus_idem _ _ _)
  have f1 := getConnectionStatus_fields s.applicationConnection s.client s.millis
  have f2 := getConnectionStatus_fields
    (s.applicationConnection.getConnectionStatus s.client s.millis).2 s.client s.millis
  unfold sendNext chosenAction
  by_cases h1 : s.connectionStatus = CONNECT_TO_APPLICATION
  · rw [if_pos h1, if_pos h1]
    unfold performAction appConnect ArduCastConnection.connect
    cases strncpy s.sessionId 50 with
    | error e => rfl
    | ok d =>
      dsimp only
      cases ({ s.applicationConnection with destId := d }).writeMsg env s.client s.connBuffer
          CC_NS_CONNECTION CC_MSG_CONNECT with
      | error e => rfl
      | ok r =>
        obtain ⟨err, c, b⟩ := r
        simp only [Except.map, transportOf]
        split <;> rfl
  · rw [if_neg h1, if_neg h1]
    by_cases h2 : (s.applicationConnection.getConnectionStatus s.client s.millis).1
        = CH_DISCONNECTED
    · have h2' : (appStatus s).1 = CH_DISCONNECTED := h2
      rw [if_pos h2', if_pos h2]
      exact sendAndMark_dev_client env _ _ _
    · have h2' : ¬ (appStatus s).1 = CH_DISCONNECTED := h2
      rw [if_neg h2', if_neg h2]
      by_cases h3 : (s.deviceConnection.getConnectionStatus s.client s.millis).1
          = CH_NEEDS_PING
      · have h3' : (devStatus (appStatus s).2).1 = CH_NEEDS_PING := h3
        rw [if_pos h3', if_pos h3, sendAndMark_dev_client]
        unfold performAction
        have g := getConnectionStatus_fields s.deviceConnection s.client s.millis
        exact congrArg _ (writeMsg_congr env _ _ _ _ _ _ g.1 g.2)
      · have h3' : ¬ (devStatus (appStatus s).2).1 = CH_NEEDS_PING := h3
        rw [if_neg h3', if_neg h3, e4, e5]
        by_cases h4 : (s.applicationConnection.getConnectionStatus s.client s.millis).1
            = CH_CONNECTED
        · rw [if_pos h4, if_pos h4, sendAndMark_app_client]
          unfold performAction
          exact congrArg _ (writeMsg_congr env _ _ _ _ _ _ (f2.1.trans f1.1)
            (f2.2.trans f1.2))
        · rw [if_neg h4, if_neg h4]
          by_cases h5 : (s.applicationConnection.getConnectionStatus s.client s.millis).1
              = CH_NEEDS_PING
          · rw [if_pos h5, if_pos h5, sendAndMark_app_client]
            unfold performAction
            have f3 := getConnectionStatus_fields
              ((s.applicationConnection.getConnectionStatus s.client s.millis).2.getConnectionStatus
                s.client s.millis).2 s.client s.millis
            exact congrArg _ (writeMsg_congr env _ _ _ _ _ _
              (f3.1.trans (f2.1.trans f1.1)) (f3.2.trans (f2.2.trans f1.2)))
          · rw [if_neg h5, if_neg h5]
            rfl

/-- The selected action writes at most one message: the write log of the transport after
`performAction` is the old log or the old log with one entry appended. -/
theorem performAction_at_most_one (env : Env) (s : ArduCastControl) (a : Outbound)
    (c : WiFiClientSecure) (h : performAction env s a = .ok c) :
    c.writes = s.client.writes ∨ ∃ w, c.writes = s.client.writes ++ [w] := by
  have key : ∀ (ch : ArduCastConnection) (ns payload : List Nat),
      (ch.writeMsg env s.client s.connBuffer ns payload).map transportOf = .ok c →
      c.writes = s.client.writes ∨ ∃ w, c.writes = s.client.writes ++ [w] := by
    intro ch ns payload hw
    cases hres : ch.writeMsg env s.client s.connBuffer ns payload with
    | error e => rw [hres] at hw; cases hw
    | ok r =>
      obtain ⟨err, c1, b⟩ := r
      rw [hres] at hw
      have hc : c1 = c := by
        simpa [Except.map, transportOf] using hw
      subst hc
      exact (writeMsg_client env ch _ _ _ _ err c1 b hres).2.2.2
  cases a with
  | appConnect =>
    simp only [performAction] at h
    cases hd : strncpy s.sessionId 50 with
    | error e => rw [hd] at h; cases h
    | ok d => rw [hd] at h; exact key _ _ _ h
  | devGetStatus => exact key _ _ _ h
  | devPing => exact key _ _ _ h
  | appGetStatus => exact key _ _ _ h
  | appPing => exact key _ _ _ h
  | nothing =>
    simp only [performAction, Except.ok.injEq] at h
    subst h
    exact Or.inl rfl

/-- C5: in a `loop()` call whose drain phase received nothing (`rxProcessed` false, state
`s1` at its end), that enters the send phase (no request outstanding, or the last one older
than 500 ms) and does not trigger the dead-link disconnect, the transport ends as after the
single `writeMsg` call of the action selected by the strict priority list (`chosenAction`,
`performAction`): at most one message is appended to the write log, and the action is the
application connect handshake, the device GET_STATUS on the receiver namespace, the device
PING, the application GET_STATUS on the media namespace, the application PING, or none. -/
theorem C5_send_phase_strict_priority (env : Env) (fuel : Nat) (s s1 : ArduCastControl)
    (hc : s.client.connected = true)
    (hrx : rxLoop env fuel fuel s false = .ok (false, s1))
    (hguard : s1.msgSent = false ∨ 500 < sub32 s1.millis s1.msgSentAt)
    (hlive : ¬ (s1.msgSent = true ∧ wrap8 (s1.errorCount + 255) = 0)) :
    (loop env fuel s).map (fun r => r.2.client) = performAction env s1 (chosenAction s1)
    ∧ ∀ c, performAction env s1 (chosenAction s1) = .ok c →
        c.writes = s.client.writes ∨ ∃ w, c.writes = s.client.writes ++ [w] := by
  have hw : s1.client.writes = s.client.writes := (rxLoop_inv env fuel fuel s false false s1 hrx).1
  constructor
  · have hg : (!false && (!s1.msgSent || decide (500 < sub32 s1.millis s1.msgSentAt))) = true := by
      rcases hguard with h | h
      · simp [h]
      · simp [h]
    have hd : ¬ ((s1.msgSent && (if s1.msgSent = true then wrap8 (s1.errorCount + 255)
        else s1.errorCount) == 0) = true) := by
      intro h
      simp only [Bool.and_eq_true, beq_iff_eq] at h
      rw [if_pos h.1] at h
      exact hlive h
    unfold loop
    rw [hc, hrx]
    show (txPhase env s1 false).map (fun r => r.2.client) = _
    unfold txPhase
    rw [if_pos hg]
    dsimp only
    rw [if_neg hd]
    have hs := sendNext_client env
      { s1 with errorCount := (if s1.msgSent = true then wrap8 (s1.errorCount + 255)
                               else s1.errorCount), msgSent := false }
    have hsame : performAction env
        { s1 with errorCount := (if s1.msgSent = true then wrap8 (s1.errorCount + 255)
                                 else s1.errorCount), msgSent := false }
        (chosenAction
          { s1 with errorCount := (if s1.msgSent = true then wrap8 (s1.errorCount + 255)
                                   else s1.errorCount), msgSent := false })
        = performAction env s1 (chosenAction s1) := rfl
    rw [← hsame, ← hs]
    cases sendNext env
      { s1 with errorCount := (if s1.msgSent = true then wrap8 (s1.errorCount + 255)
                               else s1.errorCount), msgSent := false } with
    | error e => rfl
    | ok x =>
      simp only [Except.map]
      exact congrArg Except.ok (getConnection_keeps x).1
  · intro c h
    rw [← hw]
    exact performAction_at_most_one env s1 _ c h

set_option maxRecDepth 100000 in
/-- C5 at a concrete state: a connected orchestrator without application channel and
without outstanding request sends exactly the device GET_STATUS on the receiver namespace. -/
theorem C5_send_phase_strict_priority_witness :
    (loop demoEnv 1 demoState).map (fun r => r.2.client)
      = performAction demoEnv demoState Outbound.devGetStatus :=
  (C5_send_phase_strict_priority demoEnv 1 demoState demoState rfl rfl (Or.inl rfl)
    (by decide)).1

/-! ## C4: dead-link escalation -/

theorem overwrite_length (buf : List Nat) (a : Nat) (data : List Nat)
    (h : a + data.length ≤ buf.length) : (overwrite buf a data).length = buf.length := by
  unfold overwrite
  simp only [List.length_append, List.length_take, List.length_drop]
  omega

/-- A send that succeeds at the encoder, over a live transport that accepts whole frames,
returns 0; the transport keeps its liveness, receive queue and write limit, and the buffer
keeps its length. -/
theorem writeMsg_ok (env : Env) (ch : ArduCastConnection) (c : WiFiClientSecure)
    (buf ns payload : List Nat) (hok : sendOk env ch ns payload)
    (hsize : ch.writeBufferSize = CONNBUFFER_SIZE) (hbuf : buf.length = CONNBUFFER_SIZE)
    (hc : c.connected = true) (hlim : CONNBUFFER_SIZE ≤ c.writeLimit) :
    ∃ c1 b1, ch.writeMsg env c buf ns payload = .ok (0, c1, b1)
      ∧ c1.connected = c.connected ∧ c1.rx = c.rx ∧ c1.writeLimit = c.writeLimit
      ∧ b1.length = buf.length := by
  obtain ⟨d, hd, henc⟩ := hok
  have hcap : (pbEncodeInto env (ch.writeBufferSize - 4)
      { source_id := CC_SOURCEID, destination_id := d, namespace_fix := ns,
        payload_utf8 := payload }).2.length ≤ ch.writeBufferSize - 4 := by
    unfold pbEncodeInto
    exact List.length_take_le _ _
  generalize hr : pbEncodeInto env (ch.writeBufferSize - 4)
      { source_id := CC_SOURCEID, destination_id := d, namespace_fix := ns,
        payload_utf8 := payload } = r at henc hcap
  have h4096 : CONNBUFFER_SIZE = 4096 := rfl
  rw [hsize, h4096] at hcap
  have hl1 : (overwrite buf 4 r.2).length = buf.length :=
    overwrite_length buf 4 r.2 (by rw [hbuf, h4096]; omega)
  have hl2 : (overwrite (overwrite buf 4 r.2) 0 (lengthPrefix r.2.length)).length
      = buf.length := by
    rw [overwrite_length _ 0 _ (by rw [hl1, hbuf, h4096]; simp [lengthPrefix]), hl1]
  have hnc : (!c.connected) = false := by rw [hc]; rfl
  have hne : (!r.1) = false := by rw [henc]; rfl
  have hacc : ¬ ((c.write ((overwrite (overwrite buf 4 r.2) 0
      (lengthPrefix r.2.length)).take (r.2.length + 4))).1 < r.2.length + 4) := by
    unfold WiFiClientSecure.write
    simp only [List.length_take, hl2, hbuf, h4096]
    rw [h4096] at hlim
    omega
  refine ⟨(c.write ((overwrite (overwrite buf 4 r.2) 0
      (lengthPrefix r.2.length)).take (r.2.length + 4))).2,
    overwrite (overwrite buf 4 r.2) 0 (lengthPrefix r.2.length), ?_, rfl, rfl, rfl, hl2⟩
  unfold ArduCastConnection.writeMsg
  simp only [hnc, hd, hr, hne, hacc, if_false, Bool.false_eq_true]

theorem Carry.carryRefl (s : ArduCastControl) : Carry s s :=
  ⟨rfl, rfl, rfl, rfl, rfl, rfl, rfl, rfl, rfl, rfl, rfl⟩

theorem Carry.carryTrans {a b c : ArduCastControl} (h1 : Carry a b) (h2 : Carry b c) : Carry a c := by
  unfold Carry at *
  obtain ⟨a1, a2, a3, a4, a5, a6, a7, a8, a9, a10, a11⟩ := h1
  obtain ⟨b1, b2, b3, b4, b5, b6, b7, b8, b9, b10, b11⟩ := h2
  exact ⟨b1.trans a1, b2.trans a2, b3.trans a3, b4.trans a4, b5.trans a5, b6.trans a6,
    b7.trans a7, b8.trans a8, b9.trans a9, b10.trans a10, b11.trans a11⟩

theorem sendOk_congr (env : Env) (ch1 ch2 : ArduCastConnection) (ns payload : List Nat)
    (h1 : ch2.destId = ch1.destId) (h2 : ch2.writeBufferSize = ch1.writeBufferSize)
    (h : sendOk env ch1 ns payload) : sendOk env ch2 ns payload := by
  unfold sendOk at *
  rw [h1, h2]
  exact h

theorem Sendable_of_carry (env : Env) (s s1 : ArduCastControl) (hc : Carry s s1)
    (h : Sendable env s) : Sendable env s1 := by
  unfold Carry at hc
  unfold Sendable at *
  obtain ⟨c1, _, c3, c4, c5, c6, c7, c8, _, _, _⟩ := hc
  obtain ⟨h1, h2, h3, h4, h5, h6, h7, h8, h9⟩ := h
  exact ⟨c1.trans h1, by rw [c3]; exact h2, c4.trans h3, c6.trans h4, c8.trans h5,
    sendOk_congr env _ _ _ _ c5 c6 h6, sendOk_congr env _ _ _ _ c5 c6 h7,
    sendOk_congr env _ _ _ _ c7 c8 h8, sendOk_congr env _ _ _ _ c7 c8 h9⟩

theorem appStatus_carry (s : ArduCastControl) : Carry s (appStatus s).2 := by
  have f := getConnectionStatus_fields s.applicationConnection s.client s.millis
  exact ⟨rfl, rfl, rfl, rfl, rfl, rfl, f.1, f.2, rfl, rfl, rfl⟩

theorem devStatus_carry (s : ArduCastControl) : Carry s (devStatus s).2 := by
  have f := getConnectionStatus_fields s.deviceConnection s.client s.millis
  exact ⟨rfl, rfl, rfl, rfl, f.1, f.2, rfl, rfl, rfl, rfl, rfl⟩

theorem getConnection_carry (s : ArduCastControl) : Carry s (getConnection s).2 := by
  unfold getConnection
  split
  · exact Carry.carryRefl s
  · split <;> exact appStatus_carry s

/-- A successful device-channel send of the priority chain: the latch is set, the send
time recorded. -/
theorem devSend_ok (env : Env) (s : ArduCastControl) (ns payload : List Nat)
    (hs : Sendable env s) (hok : sendOk env s.deviceConnection ns payload) :
    ∃ s1, sendAndMark (devWriteMsg env s ns payload) = .ok s1 ∧ Carry s s1
      ∧ s1.msgSent = true ∧ s1.msgSentAt = s.millis := by
  obtain ⟨h1, h2, h3, h4, _⟩ := hs
  obtain ⟨c1, b1, hw, e1, e2, e3, e4⟩ :=
    writeMsg_ok env s.deviceConnection s.client s.connBuffer ns payload hok h4 h3 h1 h2
  refine ⟨{ s with client := c1, connBuffer := b1, msgSentAt := s.millis, msgSent := true },
    ?_, ⟨e1, e2, e3, e4, rfl, rfl, rfl, rfl, rfl, rfl, rfl⟩, rfl, rfl⟩
  unfold sendAndMark devWriteMsg
  rw [hw]
  rfl

/-- A successful application-channel send of the priority chain. -/
theorem appSend_ok (env : Env) (s : ArduCastControl) (ns payload : List Nat)
    (hs : Sendable env s) (hok : sendOk env s.applicationConnection ns payload) :
    ∃ s1, sendAndMark (appWriteMsg env s ns payload) = .ok s1 ∧ Carry s s1
      ∧ s1.msgSent = true ∧ s1.msgSentAt = s.millis := by
  obtain ⟨h1, h2, h3, _, h5, _⟩ := hs
  obtain ⟨c1, b1, hw, e1, e2, e3, e4⟩ :=
    writeMsg_ok env s.applicationConnection s.client s.connBuffer ns payload hok h5 h3 h1 h2
  refine ⟨{ s with client := c1, connBuffer := b1, msgSentAt := s.millis, msgSent := true },
    ?_, ⟨e1, e2, e3, e4, rfl, rfl, rfl, rfl, rfl, rfl, rfl⟩, rfl, rfl⟩
  unfold sendAndMark appWriteMsg
  rw [hw]
  rfl

/-- A channel status is one of the three values. -/
theorem channel_status_cases (x : channelConnection_t) :
    x = CH_DISCONNECTED ∨ x = CH_NEEDS_PING ∨ x = CH_CONNECTED := by
  cases x <;> simp

/-- With a stored status other than CONNECT_TO_APPLICATION and every send succeeding, the
priority chain sends one message, sets the latch and records the send time. -/
theorem sendNext_sends (env : Env) (s : ArduCastControl)
    (hcta : s.connectionStatus ≠ CONNECT_TO_APPLICATION) (hs : Sendable env s) :
    ∃ s1, sendNext env s = .ok s1 ∧ Carry s s1 ∧ s1.msgSent = true
      ∧ s1.msgSentAt = s.millis := by
  have k1 := appStatus_carry s
  have k2 := k1.carryTrans (devStatus_carry (appStatus s).2)
  have k3 := k2.carryTrans (appStatus_carry (devStatus (appStatus s).2).2)
  have k4 := k3.carryTrans (appStatus_carry (appStatus (devStatus (appStatus s).2).2).2)
  have s1 := Sendable_of_carry env _ _ k1 hs
  have s2 := Sendable_of_carry env _ _ k2 hs
  have s3 := Sendable_of_carry env _ _ k3 hs
  have s4 := Sendable_of_carry env _ _ k4 hs
  unfold sendNext
  rw [if_neg hcta]
  by_cases h2 : (appStatus s).1 = CH_DISCONNECTED
  · rw [if_pos h2]
    obtain ⟨x, hx, cx, mx, tx⟩ := devSend_ok env _ CC_NS_RECEIVER CC_MSG_GET_STATUS s1 s1.2.2.2.2.2.1
    exact ⟨x, hx, k1.carryTrans cx, mx, tx.trans k1.2.2.2.2.2.2.2.2.2.2⟩
  · rw [if_neg h2]
    by_cases h3 : (devStatus (appStatus s).2).1 = CH_NEEDS_PING
    · rw [if_pos h3]
      obtain ⟨x, hx, cx, mx, tx⟩ :=
        devSend_ok env _ CC_NS_HEARTBEAT CC_MSG_PING s2 s2.2.2.2.2.2.2.1
      exact ⟨x, hx, k2.carryTrans cx, mx, tx.trans k2.2.2.2.2.2.2.2.2.2.2⟩
    · rw [if_neg h3]
      by_cases h4 : (appStatus (devStatus (appStatus s).2).2).1 = CH_CONNECTED
      · rw [if_pos h4]
        obtain ⟨x, hx, cx, mx, tx⟩ :=
          appSend_ok env _ CC_NS_MEDIA CC_MSG_GET_STATUS s3 s3.2.2.2.2.2.2.2.1
        exact ⟨x, hx, k3.carryTrans cx, mx, tx.trans k3.2.2.2.2.2.2.2.2.2.2⟩
      · rw [if_neg h4]
        have e4 : (appStatus (devStatus (appStatus s).2).2).1 = (appStatus s).1 :=
          getConnectionStatus_idem _ _ _
        have e5 : (appStatus (appStatus (devStatus (appStatus s).2).2).2).1
            = (appStatus s).1 :=
          (getConnectionStatus_idem _ _ _).trans (getConnectionStatus_idem _ _ _)
        have h5 : (appStatus (appStatus (devStatus (appStatus s).2).2).2).1
            = CH_NEEDS_PING := by
          rw [e5]
          rw [e4] at h4
          rcases channel_status_cases (appStatus s).1 with h | h | h
          · exact absurd h h2
          · exact h
          · exact absurd h h4
        rw [if_pos h5]
        obtain ⟨x, hx, cx, mx, tx⟩ :=
          appSend_ok env _ CC_NS_HEARTBEAT CC_MSG_PING s4 s4.2.2.2.2.2.2.2.2
        exact ⟨x, hx, k4.carryTrans cx, mx, tx.trans k4.2.2.2.2.2.2.2.2.2.2⟩

/-- With fewer than four bytes buffered the frame reader returns 0 and changes nothing. -/
theorem readFrame_idle (s : ArduCastControl) (h : s.client.rx.length < 4) :
    readFrame s = (0, s) := by
  unfold readFrame getRawMessage
  have hc : CONNBUFFER_SIZE ≤ 4 ∨ s.client.rx.length < 4 := Or.inr h
  rw [if_pos hc]

/-- With fewer than four bytes buffered the drain phase receives nothing. -/
theorem rxLoop_idle (env : Env) (scanFuel fuel : Nat) (s : ArduCastControl) (b : Bool)
    (h : s.client.rx.length < 4) : rxLoop env scanFuel (fuel + 1) s b = .ok (b, s) := by
  unfold rxLoop
  rw [readFrame_idle s h]
  rfl

/-- One timed-out poll cycle of the dead-link scenario with at least two errors left: the
counter drops by one, a message is sent, the call returns WAIT_FOR_RESPONSE and the
scenario persists. -/
theorem loop_timeout_step (env : Env) (fuel : Nat) (s : ArduCastControl) (k : Nat)
    (hf : 0 < fuel) (hst : Stalled env s) (hk : s.errorCount = k + 2) (hk2 : k + 2 < 256)
    (ht : 500 < sub32 s.millis s.msgSentAt) :
    ∃ s1, loop env fuel s = .ok (WAIT_FOR_RESPONSE, s1) ∧ Stalled env s1
      ∧ s1.errorCount = k + 1 ∧ s1.msgSentAt = s.millis := by
  obtain ⟨f, rfl⟩ : ∃ f, fuel = f + 1 := ⟨fuel - 1, by omega⟩
  obtain ⟨hrx, hms, hcta, hs⟩ := hst
  have hconn : s.client.connected = true := hs.1
  have hec : wrap8 (s.errorCount + 255) = k + 1 := by
    rw [hk]; unfold wrap8; omega
  have hs0 : Sendable env { s with errorCount := k + 1, msgSent := false } := hs
  obtain ⟨x, hx, cx, mx, tx⟩ :=
    sendNext_sends env { s with errorCount := k + 1, msgSent := false } hcta hs0
  have hgc : getConnection x = (WAIT_FOR_RESPONSE, x) := by
    unfold getConnection
    rw [if_pos mx]
  refine ⟨x, ?_, ⟨?_, mx, ?_, Sendable_of_carry env _ _ cx hs0⟩, ?_, tx⟩
  · unfold loop
    rw [hconn, rxLoop_idle env _ _ s false hrx]
    show txPhase env s false = _
    unfold txPhase
    have hg : (!false && (!s.msgSent || decide (500 < sub32 s.millis s.msgSentAt))) = true := by
      simp [ht]
    rw [if_pos hg]
    dsimp only
    rw [if_pos hms, hec]
    have hd : ¬ ((s.msgSent && (k + 1 == 0)) = true) := by simp
    rw [if_neg hd, hx]
    exact congrArg Except.ok hgc
  · have := cx.2.1
    rw [this]
    exact hrx
  · have := cx.2.2.2.2.2.2.2.2.1
    rw [this]
    exact hcta
  · exact cx.2.2.2.2.2.2.2.2.2.1

/-- The timed-out poll cycle that finds `errorCount = 1`: the counter reaches zero, the
transport is closed and the call returns DISCONNECTED. -/
theorem loop_timeout_last (env : Env) (fuel : Nat) (s : ArduCastControl)
    (hf : 0 < fuel) (hst : Stalled env s) (hk : s.errorCount = 1)
    (ht : 500 < sub32 s.millis s.msgSentAt) :
    ∃ s1, loop env fuel s = .ok (DISCONNECTED, s1) ∧ s1.client.connected = false
      ∧ s1.connectionStatus = DISCONNECTED ∧ s1.errorCount = 0 := by
  obtain ⟨f, rfl⟩ : ∃ f, fuel = f + 1 := ⟨fuel - 1, by omega⟩
  obtain ⟨hrx, hms, hcta, hs⟩ := hst
  have hconn : s.client.connected = true := hs.1
  have hec : wrap8 (s.errorCount + 255) = 0 := by
    rw [hk]; rfl
  refine ⟨{ s with errorCount := 0, client := s.client.stopAll,
                   connectionStatus := DISCONNECTED, msgSent := false }, ?_, rfl, rfl, rfl⟩
  unfold loop
  rw [hconn, rxLoop_idle env _ _ s false hrx]
  show txPhase env s false = _
  unfold txPhase
  have hg : (!false && (!s.msgSent || decide (500 < sub32 s.millis s.msgSentAt))) = true := by
    simp [ht]
  rw [if_pos hg]
  dsimp only
  rw [if_pos hms, hec]
  have hd : (s.msgSent && (0 == 0)) = true := by simp [hms]
  rw [if_pos hd]

theorem pollSeq_cons_ok (env : Env) (fuel t : Nat) (ts : List Nat) (s s1 s2 : ArduCastControl)
    (r : connection_t) (rs : List connection_t)
    (h1 : loop env fuel { s with millis := t } = .ok (r, s1))
    (h2 : pollSeq env fuel ts s1 = .ok (rs, s2)) :
    pollSeq env fuel (t :: ts) s = .ok (r :: rs, s2) := by
  unfold pollSeq pollAt
  rw [h1]
  dsimp only
  rw [h2]

/-- C4 (counterexample): from a state with a live transport, `errorCount = 5` and an
outstanding request, with no inbound bytes, `loop()` is called at 1000, 2000, 3000, 4000 and
5000 ms (each more than 500 ms after the previous send, each send succeeding so that the
call returns WAIT_FOR_RESPONSE): already the fifth call reports DISCONNECTED, and the
transport is closed. -/
theorem C4_fifth_call_disconnects_counterexample :
    stalledState.client.connected = true ∧ stalledState.errorCount = 5
    ∧ stalledState.msgSent = true ∧ stalledState.client.rx = []
    ∧ 500 < sub32 1000 stalledState.msgSentAt
    ∧ (pollSeq demoEnv 1 [1000, 2000, 3000, 4000, 5000] stalledState).map
        (fun r => (r.1, r.2.client.connected))
      = .ok ([WAIT_FOR_RESPONSE, WAIT_FOR_RESPONSE, WAIT_FOR_RESPONSE, WAIT_FOR_RESPONSE,
              DISCONNECTED], false) := by
  decide

/-- C4 (amended): from a state with a live transport, `errorCount = 5`, an outstanding
request and a stored status other than CONNECT_TO_APPLICATION, with no inbound frame
arriving, `loop()` called five times, each call more than 500 ms after the last send and
each send succeeding, returns WAIT_FOR_RESPONSE four times and DISCONNECTED the fifth time,
with the transport closed. -/
theorem C4_dead_link_fifth_timeout (env : Env) (fuel : Nat) (s : ArduCastControl)
    (t1 t2 t3 t4 t5 : Nat) (hf : 0 < fuel) (hst : Stalled env s) (he : s.errorCount = 5)
    (h1 : 500 < sub32 t1 s.msgSentAt) (h2 : 500 < sub32 t2 t1) (h3 : 500 < sub32 t3 t2)
    (h4 : 500 < sub32 t4 t3) (h5 : 500 < sub32 t5 t4) :
    ∃ s5, pollSeq env fuel [t1, t2, t3, t4, t5] s
        = .ok ([WAIT_FOR_RESPONSE, WAIT_FOR_RESPONSE, WAIT_FOR_RESPONSE, WAIT_FOR_RESPONSE,
                DISCONNECTED], s5)
      ∧ s5.client.connected = false := by
  obtain ⟨s1, e1, st1, k1, m1⟩ :=
    loop_timeout_step env fuel { s with millis := t1 } 3 hf hst he (by omega) h1
  have h2' : 500 < sub32 ({ s1 with millis := t2 } : ArduCastControl).millis
      ({ s1 with millis := t2 } : ArduCastControl).msgSentAt := by
    show 500 < sub32 t2 s1.msgSentAt
    rw [m1]; exact h2
  obtain ⟨s2, e2, st2, k2, m2⟩ :=
    loop_timeout_step env fuel { s1 with millis := t2 } 2 hf st1 k1 (by omega) h2'
  have h3' : 500 < sub32 ({ s2 with millis := t3 } : ArduCastControl).millis
      ({ s2 with millis := t3 } : ArduCastControl).msgSentAt := by
    show 500 < sub32 t3 s2.msgSentAt
    rw [m2]; exact h3
  obtain ⟨s3, e3, st3, k3, m3⟩ :=
    loop_timeout_step env fuel { s2 with millis := t3 } 1 hf st2 k2 (by omega) h3'
  have h4' : 500 < sub32 ({ s3 with millis := t4 } : ArduCastControl).millis
      ({ s3 with millis := t4 } : ArduCastControl).msgSentAt := by
    show 500 < sub32 t4 s3.msgSentAt
    rw [m3]; exact h4
  obtain ⟨s4, e4, st4, k4, m4⟩ :=
    loop_timeout_step env fuel { s3 with millis := t4 } 0 hf st3 k3 (by omega) h4'
  have h5' : 500 < sub32 ({ s4 with millis := t5 } : ArduCastControl).millis
      ({ s4 with millis := t5 } : ArduCastControl).msgSentAt := by
    show 500 < sub32 t5 s4.msgSentAt
    rw [m4]; exact h5
  obtain ⟨s5, e5, hclosed, _, _⟩ :=
    loop_timeout_last env fuel { s4 with millis := t5 } hf st4 k4 h5'
  refine ⟨s5, ?_, hclosed⟩
  exact pollSeq_cons_ok env fuel t1 _ s s1 s5 _ _ e1
    (pollSeq_cons_ok env fuel t2 _ s1 s2 s5 _ _ e2
      (pollSeq_cons_ok env fuel t3 _ s2 s3 s5 _ _ e3
        (pollSeq_cons_ok env fuel t4 _ s3 s4 s5 _ _ e4
          (pollSeq_cons_ok env fuel t5 _ s4 s5 s5 _ _ e5 rfl))))

/-- The example state satisfies the hypotheses of the dead-link scenario. -/
theorem stalledState_stalled : Stalled demoEnv stalledState := by
  refine ⟨by decide, rfl, by decide, rfl, by decide, List.length_replicate _ _, rfl, rfl,
    ⟨_, rfl, rfl⟩, ⟨_, rfl, rfl⟩, ⟨_, rfl, rfl⟩, ⟨_, rfl, rfl⟩⟩

/-- C4 (amended) at a concrete state: calls at 1000, 2000, 3000, 4000 and 5000 ms. -/
theorem C4_dead_link_fifth_timeout_witness :
    ∃ s5, pollSeq demoEnv 1 [1000, 2000, 3000, 4000, 5000] stalledState
        = .ok ([WAIT_FOR_RESPONSE, WAIT_FOR_RESPONSE, WAIT_FOR_RESPONSE, WAIT_FOR_RESPONSE,
                DISCONNECTED], s5)
      ∧ s5.client.connected = false :=
  C4_dead_link_fifth_timeout demoEnv 1 stalledState 1000 2000 3000 4000 5000 (by decide)
    stalledState_stalled rfl (by decide) (by decide) (by decide) (by decide) (by decide)

/-! ## Payload interpreter: what each block writes -/

/-- A member that is not contained reads as the null variant. -/
theorem getMember_of_not_containsKey (j : Json) (key : List Nat)
    (h : j.containsKey key = false) : j.getMember key = .null := by
  cases j with
  | obj kvs =>
    simp only [Json.containsKey] at h
    simp only [Json.getMember]
    have hnone : kvs.find? (fun kv => kv.1 == key) = none := by
      rw [List.find?_eq_none]
      intro x hx
      have := (List.any_eq_false.mp h) x hx
      simpa using this
    rw [hnone]
  | null => rfl
  | bool b => rfl
  | num q => rfl
  | str s => rfl
  | arr xs => rfl

/-- Result of the `sessionId` block. -/
theorem sessionIdBlock_ok (s s1 : ArduCastControl) (j : Json)
    (h : sessionIdBlock s j = .ok s1) :
    (j.containsKey (bytes "sessionId") = true
      ∧ ∃ d, copyField (j.getMember (bytes "sessionId")).asCStr = .ok d
        ∧ s1 = { s with sessionId := d, connectionStatus := CONNECT_TO_APPLICATION })
    ∨ (j.containsKey (bytes "sessionId") = false
      ∧ s1 = { s with sessionId := s.sessionId.set 0 10 }) := by
  unfold sessionIdBlock at h
  split at h
  · rename_i hk
    split at h
    · cases h
    · rename_i d hd
      cases h
      exact Or.inl ⟨hk, d, hd, rfl⟩
  · rename_i hk
    cases h
    exact Or.inr ⟨by simpa using hk, rfl⟩

/-- Result of the `statusText` block. -/
theorem statusTextBlock_ok (s s1 : ArduCastControl) (j : Json)
    (h : statusTextBlock s j = .ok s1) :
    (j.containsKey (bytes "statusText") = true
      ∧ ∃ d, copyField (j.getMember (bytes "statusText")).asCStr = .ok d
        ∧ s1 = { s with statusText := d })
    ∨ (j.containsKey (bytes "statusText") = false
      ∧ s1 = { s with statusText := s.statusText.set 0 10 }) := by
  unfold statusTextBlock at h
  split at h
  · rename_i hk
    split at h
    · cases h
    · rename_i d hd
      cases h
      exact Or.inl ⟨hk, d, hd, rfl⟩
  · rename_i hk
    cases h
    exact Or.inr ⟨by simpa using hk, rfl⟩

/-- Result of the `displayName` block. -/
theorem displayNameBlock_ok (s s1 : ArduCastControl) (j : Json)
    (h : displayNameBlock s j = .ok s1) :
    (j.containsKey (bytes "displayName") = true
      ∧ ∃ d, copyField (j.getMember (bytes "displayName")).asCStr = .ok d
        ∧ s1 = { s with displayName := d })
    ∨ (j.containsKey (bytes "displayName") = false
      ∧ s1 = { s with displayName := s.displayName.set 0 10 }) := by
  unfold displayNameBlock at h
  split at h
  · rename_i hk
    split at h
    · cases h
    · rename_i d hd
      cases h
      exact Or.inl ⟨hk, d, hd, rfl⟩
  · rename_i hk
    cases h
    exact Or.inr ⟨by simpa using hk, rfl⟩

/-- The three application blocks leave `volume`, `isMuted` and the media members alone. -/
theorem applicationBlocks_keep (s s1 s2 s3 : ArduCastControl) (j : Json)
    (h1 : sessionIdBlock s j = .ok s1) (h2 : statusTextBlock s1 j = .ok s2)
    (h3 : displayNameBlock s2 j = .ok s3) :
    s3.volume = s.volume ∧ s3.isMuted = s.isMuted ∧ s3.mediaSessionId = s.mediaSessionId
    ∧ s3.currentTime = s.currentTime ∧ s3.playerState = s.playerState
    ∧ s3.duration = s.duration ∧ s3.title = s.title ∧ s3.artist = s.artist := by
  rcases sessionIdBlock_ok _ _ _ h1 with ⟨_, d, _, e1⟩ | ⟨_, e1⟩ <;>
  rcases statusTextBlock_ok _ _ _ h2 with ⟨_, d2, _, e2⟩ | ⟨_, e2⟩ <;>
  rcases displayNameBlock_ok _ _ _ h3 with ⟨_, d3, _, e3⟩ | ⟨_, e3⟩ <;>
  (subst e3; subst e2; subst e1; exact ⟨rfl, rfl, rfl, rfl, rfl, rfl, rfl, rfl⟩)

/-- The receiver-status branch ends with the `volume` and `isMuted` written by the volume
block and leaves the media members alone. -/
theorem receiverStatus_volume (env : Env) (s s1 : ArduCastControl) (doc : Json)
    (h : receiverStatus env s doc = .ok s1) :
    s1.volume = (volumeBlock env s (doc.getMember (bytes "status"))).volume
    ∧ s1.isMuted = (volumeBlock env s (doc.getMember (bytes "status"))).isMuted
    ∧ s1.mediaSessionId = s.mediaSessionId ∧ s1.currentTime = s.currentTime
    ∧ s1.playerState = s.playerState ∧ s1.duration = s.duration ∧ s1.title = s.title
    ∧ s1.artist = s.artist := by
  have hv : ∀ j, (volumeBlock env s j).mediaSessionId = s.mediaSessionId
      ∧ (volumeBlock env s j).currentTime = s.currentTime
      ∧ (volumeBlock env s j).playerState = s.playerState
      ∧ (volumeBlock env s j).duration = s.duration ∧ (volumeBlock env s j).title = s.title
      ∧ (volumeBlock env s j).artist = s.artist := by
    intro j
    unfold volumeBlock
    dsimp only
    split <;> exact ⟨rfl, rfl, rfl, rfl, rfl, rfl⟩
  have hv' := hv (doc.getMember (bytes "status"))
  unfold receiverStatus at h
  dsimp only at h
  split at h
  · split at h
    · cases h
    · rename_i s2 e2
      split at h
      · cases h
      · rename_i s3 e3
        have k := applicationBlocks_keep _ _ _ _ _ e2 e3 h
        exact ⟨k.1, k.2.1, k.2.2.1.trans hv'.1, k.2.2.2.1.trans hv'.2.1,
          k.2.2.2.2.1.trans hv'.2.2.1, k.2.2.2.2.2.1.trans hv'.2.2.2.1,
          k.2.2.2.2.2.2.1.trans hv'.2.2.2.2.1, k.2.2.2.2.2.2.2.trans hv'.2.2.2.2.2⟩
  · cases h
    exact ⟨rfl, rfl, hv'.1, hv'.2.1, hv'.2.2.1, hv'.2.2.2.1, hv'.2.2.2.2.1, hv'.2.2.2.2.2⟩

/-- A device-attributed payload that parses to a document with the keys `type` and `status`
and the type string `RECEIVER_STATUS` is handled by the receiver-status branch alone. -/
theorem payloadField_receiver (env : Env) (s : ArduCastControl) (offset len : Nat)
    (doc : Json) (ty : List Nat)
    (hdoc : env.deserializeJson ((s.connBuffer.drop offset).take len) = some doc)
    (htype : doc.containsKey (bytes "type") = true)
    (hstatus : doc.containsKey (bytes "status") = true)
    (hty : (doc.getMember (bytes "type")).asCStr = some ty)
    (hrs : ty.takeWhile (fun c => c != 0) = bytes "RECEIVER_STATUS") :
    payloadField env s offset len 1 = receiverStatus env s doc := by
  unfold payloadField
  rw [hdoc]
  simp only [htype, hstatus, Bool.and_self, if_true]
  have h1 : receiverBranch env s doc 1 = receiverStatus env s doc := by
    unfold receiverBranch strcmpEq
    simp [hty, hrs]
  rw [h1]
  cases hres : receiverStatus env s doc with
  | error e => rfl
  | ok s1 =>
    simp only [mediaBranch]
    rfl

/-- `strncpy` from a NUL-terminated string never leaves its source. -/
theorem strncpy_terminated (str : List Nat) (n : Nat) : ∃ d, strncpy (str ++ [0]) n = .ok d := by
  have hlt : (List.takeWhile (fun c => c != 0) (str ++ [0])).length < (str ++ [0]).length := by
    have hle := (List.takeWhile_prefix (fun c : Nat => c != 0) (l := str ++ [0])).length_le
    rcases Nat.lt_or_ge (List.takeWhile (fun c => c != 0) (str ++ [0])).length
        (str ++ [0]).length with h | h
    · exact h
    · exfalso
      have heq : (List.takeWhile (fun c => c != 0) (str ++ [0])).length
          = (str ++ [0]).length := Nat.le_antisymm hle h
      have hall : List.takeWhile (fun c => c != 0) (str ++ [0]) = str ++ [0] := by
        have hpre := List.takeWhile_prefix (fun c : Nat => c != 0) (l := str ++ [0])
        exact hpre.eq_of_length heq
      have hmem : (0 : Nat) ∈ str ++ [0] := by simp
      have := (List.takeWhile_eq_self_iff.mp hall) 0 hmem
      simp at this
  unfold strncpy
  dsimp only
  split
  · exact ⟨_, rfl⟩
  · exact ⟨_, rfl⟩

/-- A string obtained from `as<char*>()` can always be copied into a `char[50]` member. -/
theorem copyField_some (str : List Nat) : ∃ d, copyField (some str) = .ok d := by
  obtain ⟨d, hd⟩ := strncpy_terminated str 50
  unfold copyField
  dsimp only
  rw [hd]
  exact ⟨_, rfl⟩

/-- The receiver-status branch returns when the three text keys of the first application
are strings wherever present. -/
theorem receiverStatus_total (env : Env) (s : ArduCastControl) (doc : Json)
    (h1 : TextOk (((doc.getMember (bytes "status")).getMember
      (bytes "applications")).getElement 0) (bytes "sessionId"))
    (h2 : TextOk (((doc.getMember (bytes "status")).getMember
      (bytes "applications")).getElement 0) (bytes "statusText"))
    (h3 : TextOk (((doc.getMember (bytes "status")).getMember
      (bytes "applications")).getElement 0) (bytes "displayName")) :
    ∃ s1, receiverStatus env s doc = .ok s1 := by
  have b1 : ∀ x, ∃ y, sessionIdBlock x (((doc.getMember (bytes "status")).getMember
      (bytes "applications")).getElement 0) = .ok y := by
    intro x
    unfold sessionIdBlock
    split
    · rename_i hk
      obtain ⟨str, hs⟩ := h1 hk
      obtain ⟨d, hd⟩ := copyField_some str
      rw [hs, hd]
      exact ⟨_, rfl⟩
    · exact ⟨_, rfl⟩
  have b2 : ∀ x, ∃ y, statusTextBlock x (((doc.getMember (bytes "status")).getMember
      (bytes "applications")).getElement 0) = .ok y := by
    intro x
    unfold statusTextBlock
    split
    · rename_i hk
      obtain ⟨str, hs⟩ := h2 hk
      obtain ⟨d, hd⟩ := copyField_some str
      rw [hs, hd]
      exact ⟨_, rfl⟩
    · exact ⟨_, rfl⟩
  have b3 : ∀ x, ∃ y, displayNameBlock x (((doc.getMember (bytes "status")).getMember
      (bytes "applications")).getElement 0) = .ok y := by
    intro x
    unfold displayNameBlock
    split
    · rename_i hk
      obtain ⟨str, hs⟩ := h3 hk
      obtain ⟨d, hd⟩ := copyField_some str
      rw [hs, hd]
      exact ⟨_, rfl⟩
    · exact ⟨_, rfl⟩
  unfold receiverStatus
  dsimp only
  split
  · obtain ⟨y1, e1⟩ := b1 (volumeBlock env s (doc.getMember (bytes "status")))
    obtain ⟨y2, e2⟩ := b2 y1
    obtain ⟨y3, e3⟩ := b3 y2
    rw [e1]
    dsimp only
    rw [e2]
    dsimp only
    rw [e3]
    exact ⟨_, rfl⟩
  · exact ⟨_, rfl⟩

/-- The `volume` and `isMuted` written by the volume block, in one formula for a present
and for a missing volume object. -/
theorem volumeBlock_values (env : Env) (s : ArduCastControl) (status : Json) :
    (volumeBlock env s status).volume
      = (if (status.getMember (bytes "volume")).containsKey (bytes "level") = true then
          env.asFloat ((status.getMember (bytes "volume")).getMember (bytes "level"))
        else -1)
    ∧ (volumeBlock env s status).isMuted
      = (if (status.getMember (bytes "volume")).containsKey (bytes "muted") = true then
          env.asBool ((status.getMember (bytes "volume")).getMember (bytes "muted"))
        else false) := by
  unfold volumeBlock
  dsimp only
  split
  · exact ⟨rfl, rfl⟩
  · rename_i hk
    have hnull := getMember_of_not_containsKey status (bytes "volume") (by simpa using hk)
    rw [hnull]
    simp [Json.containsKey]

/-! ## C11: volume and mute of a receiver status -/

/-- C11: for a device-attributed payload that parses to a document with the keys `type`
(the string `RECEIVER_STATUS`) and `status`, whenever the interpreter returns, `volume` is
the converted `status.volume.level` if that key is present and -1 otherwise (also when the
volume object is missing), and `isMuted` is the converted `status.volume.muted` if present
and `false` otherwise, whatever was cached before; and the interpreter does return when the
text keys of the first application are strings wherever present. -/
theorem C11_receiver_status_volume_and_mute (env : Env) (s : ArduCastControl)
    (offset len : Nat) (doc : Json) (ty : List Nat)
    (hdoc : env.deserializeJson ((s.connBuffer.drop offset).take len) = some doc)
    (htype : doc.containsKey (bytes "type") = true)
    (hstatus : doc.containsKey (bytes "status") = true)
    (hty : (doc.getMember (bytes "type")).asCStr = some ty)
    (hrs : ty.takeWhile (fun c => c != 0) = bytes "RECEIVER_STATUS") :
    (∀ s1, payloadField env s offset len 1 = .ok s1 →
      s1.volume
        = (if ((doc.getMember (bytes "status")).getMember (bytes "volume")).containsKey
              (bytes "level") = true then
            env.asFloat (((doc.getMember (bytes "status")).getMember (bytes "volume")).getMember
              (bytes "level"))
          else -1)
      ∧ s1.isMuted
        = (if ((doc.getMember (bytes "status")).getMember (bytes "volume")).containsKey
              (bytes "muted") = true then
            env.asBool (((doc.getMember (bytes "status")).getMember (bytes "volume")).getMember
              (bytes "muted"))
          else false))
    ∧ (TextOk (((doc.getMember (bytes "status")).getMember (bytes "applications")).getElement 0)
          (bytes "sessionId") →
        TextOk (((doc.getMember (bytes "status")).getMember (bytes "applications")).getElement 0)
          (bytes "statusText") →
        TextOk (((doc.getMember (bytes "status")).getMember (bytes "applications")).getElement 0)
          (bytes "displayName") →
        ∃ s1, payloadField env s offset len 1 = .ok s1) := by
  have hp := payloadField_receiver env s offset len doc ty hdoc htype hstatus hty hrs
  constructor
  · intro s1 h
    rw [hp] at h
    have hv := receiverStatus_volume env s s1 doc h
    have hb := volumeBlock_values env s (doc.getMember (bytes "status"))
    exact ⟨hv.1.trans hb.1, hv.2.1.trans hb.2⟩
  · intro h1 h2 h3
    rw [hp]
    exact receiverStatus_total env s doc h1 h2 h3

/-- C11 at a concrete document: a receiver status with level 0.5 and muted, processed in a
state with volume 0.25, is interpreted to the end and leaves `volume = 0.5` and
`isMuted = true`. -/
theorem C11_receiver_status_volume_and_mute_witness :
    ∃ s1, payloadField (docEnv receiverDoc) namedState 0 0 1 = .ok s1
      ∧ s1.volume = 1 / 2 ∧ s1.isMuted = true :=
  have hc := C11_receiver_status_volume_and_mute (docEnv receiverDoc) namedState 0 0
    receiverDoc (bytes "RECEIVER_STATUS") rfl rfl rfl rfl (by decide)
  (hc.2 (fun _ => ⟨_, rfl⟩) (fun _ => ⟨_, rfl⟩) (fun _ => ⟨_, rfl⟩)).elim
    (fun s1 h => ⟨s1, h, hc.1 s1 h⟩)

/-! ## C12: text members whose source is missing -/

set_option maxRecDepth 100000 in
/-- C12 (the code at the failing inputs): with `sessionId`, `statusText`, `displayName`,
`title`, `artist` cached as `abc`, `Casting`, `Spotify`, `Song`, `Band`: a receiver status
whose first application has none of the three keys leaves the strings `\nbc`, `\nasting`,
`\npotify` (first byte overwritten by a line feed, not by NUL), and a media status whose
media object has no metadata leaves `\nong` and `\nand`; none of them is empty.  The
sibling path for a missing applications list does empty all three. -/
theorem C12_missing_key_writes_line_feed :
    (payloadField (docEnv receiverDocBare) namedState 0 0 1).map
        (fun s => (cstr s.sessionId, cstr s.statusText, cstr s.displayName))
      = .ok (.ok (10 :: bytes "bc"), .ok (10 :: bytes "asting"), .ok (10 :: bytes "potify"))
    ∧ (payloadField (docEnv mediaDocNoMetadata) namedState 0 0 2).map
        (fun s => (cstr s.title, cstr s.artist))
      = .ok (.ok (10 :: bytes "ong"), .ok (10 :: bytes "and"))
    ∧ (payloadField (docEnv receiverDocIdle) namedState 0 0 1).map
        (fun s => (cstr s.sessionId, cstr s.statusText, cstr s.displayName))
      = .ok (.ok [], .ok [], .ok []) := by
  decide

/-! ## C13 and C14: media status -/

/-- One link of the `strcmp` chain on a non-null string. -/
theorem strcmpChain_some (literal str : List Nat) (value : playerState_t)
    (otherwise : Except Fault playerState_t) :
    strcmpChain literal (some str) value otherwise
      = if str.takeWhile (fun c => c != 0) = literal then .ok value else otherwise := by
  unfold strcmpChain strcmpEq
  by_cases h : str.takeWhile (fun c => c != 0) = literal <;> simp [h]

/-- The `playerState` chain on a string gives the state the specification assigns. -/
theorem parsePlayerState_some (str : List Nat) :
    parsePlayerState (some str) = .ok (playerStateOf (str.takeWhile (fun c => c != 0))) := by
  unfold parsePlayerState playerStateOf
  simp only [strcmpChain_some]
  split_ifs <;> rfl

/-- Result of the `playerState` block. -/
theorem playerStateBlock_ok (s s1 : ArduCastControl) (j : Json)
    (h : playerStateBlock s j = .ok s1) :
    s1 = { s with playerState := s1.playerState }
    ∧ (j.containsKey (bytes "playerState") = false → s1.playerState = IDLE)
    ∧ (j.containsKey (bytes "playerState") = true →
        ∀ str, (j.getMember (bytes "playerState")).asCStr = some str →
          s1.playerState = playerStateOf (str.takeWhile (fun c => c != 0))) := by
  unfold playerStateBlock at h
  split at h
  · rename_i hk
    split at h
    · cases h
    · rename_i ps hps
      cases h
      refine ⟨rfl, fun hf => ?_, fun _ str hs => ?_⟩
      · rw [hk] at hf; cases hf
      · rw [hs, parsePlayerState_some] at hps
        cases hps
        rfl
  · rename_i hk
    cases h
    refine ⟨rfl, fun _ => rfl, fun ht => ?_⟩
    exact absurd ht hk

/-- Result of the `title` block. -/
theorem titleBlock_ok (s s1 : ArduCastControl) (j : Json) (h : titleBlock s j = .ok s1) :
    (j.containsKey (bytes "title") = true
      ∧ ∃ d, copyField (j.getMember (bytes "title")).asCStr = .ok d
        ∧ s1 = { s with title := d })
    ∨ (j.containsKey (bytes "title") = false ∧ s1 = { s with title := s.title.set 0 0 }) := by
  unfold titleBlock at h
  split at h
  · rename_i hk
    split at h
    · cases h
    · rename_i d hd
      cases h
      exact Or.inl ⟨hk, d, hd, rfl⟩
  · rename_i hk
    cases h
    exact Or.inr ⟨by simpa using hk, rfl⟩

/-- Result of the `artist` block. -/
theorem artistBlock_ok (s s1 : ArduCastControl) (j : Json) (h : artistBlock s j = .ok s1) :
    (j.containsKey (bytes "artist") = true
      ∧ ∃ d, copyField (j.getMember (bytes "artist")).asCStr = .ok d
        ∧ s1 = { s with artist := d })
    ∨ (j.containsKey (bytes "artist") = false
      ∧ s1 = { s with artist := s.artist.set 0 0 }) := by
  unfold artistBlock at h
  split at h
  · rename_i hk
    split at h
    · cases h
    · rename_i d hd
      cases h
      exact Or.inl ⟨hk, d, hd, rfl⟩
  · rename_i hk
    cases h
    exact Or.inr ⟨by simpa using hk, rfl⟩

/-- The media block leaves `mediaSessionId`, `currentTime`, `playerState`, the device
members and the stored connection status alone, and changes nothing at all when the media
object is missing. -/
theorem mediaBlock_ok (env : Env) (s s1 : ArduCastControl) (j : Json)
    (h : mediaBlock env s j = .ok s1) :
    s1.mediaSessionId = s.mediaSessionId ∧ s1.currentTime = s.currentTime
    ∧ s1.playerState = s.playerState ∧ deviceFields s1 = deviceFields s
    ∧ s1.connectionStatus = s.connectionStatus
    ∧ (j.containsKey (bytes "media") = false → s1 = s) := by
  unfold mediaBlock at h
  dsimp only at h
  split at h
  · rename_i hk
    have hno : j.containsKey (bytes "media") = false → s1 = s := by
      intro hf; rw [hk] at hf; cases hf
    split at h
    · split at h
      · cases h
      · rename_i s2 e2
        rcases titleBlock_ok _ _ _ e2 with ⟨_, d, _, e⟩ | ⟨_, e⟩ <;>
        rcases artistBlock_ok _ _ _ h with ⟨_, d2, _, e'⟩ | ⟨_, e'⟩ <;>
        (subst e'; subst e; exact ⟨rfl, rfl, rfl, rfl, rfl, hno⟩)
    · cases h
      exact ⟨rfl, rfl, rfl, rfl, rfl, hno⟩
  · cases h
    exact ⟨rfl, rfl, rfl, rfl, rfl, fun _ => rfl⟩

/-- What the media-status branch leaves behind: the three scalar members from `status[0]`,
untouched device members and connection status, and untouched `duration`, `title`,
`artist` when the media object is missing. -/
theorem mediaStatus_ok (env : Env) (s s1 : ArduCastControl) (doc : Json)
    (h : mediaStatus env s doc = .ok s1) :
    s1.mediaSessionId
      = (if ((doc.getMember (bytes "status")).getElement 0).containsKey
            (bytes "mediaSessionId") = true then
          env.asInt (((doc.getMember (bytes "status")).getElement 0).getMember
            (bytes "mediaSessionId"))
        else -1)
    ∧ s1.currentTime
      = (if ((doc.getMember (bytes "status")).getElement 0).containsKey
            (bytes "currentTime") = true then
          env.asFloat (((doc.getMember (bytes "status")).getElement 0).getMember
            (bytes "currentTime"))
        else 0)
    ∧ (((doc.getMember (bytes "status")).getElement 0).containsKey (bytes "playerState") = false →
        s1.playerState = IDLE)
    ∧ (((doc.getMember (bytes "status")).getElement 0).containsKey (bytes "playerState") = true →
        ∀ str, ((((doc.getMember (bytes "status")).getElement 0).getMember
            (bytes "playerState")).asCStr = some str) →
          s1.playerState = playerStateOf (str.takeWhile (fun c => c != 0)))
    ∧ deviceFields s1 = deviceFields s ∧ s1.connectionStatus = s.connectionStatus
    ∧ (((doc.getMember (bytes "status")).getElement 0).containsKey (bytes "media") = false →
        s1.duration = s.duration ∧ s1.title = s.title ∧ s1.artist = s.artist) := by
  unfold mediaStatus at h
  dsimp only at h
  split at h
  · cases h
  · rename_i s2 e2
    have hp := playerStateBlock_ok _ _ _ e2
    have hm := mediaBlock_ok env _ _ _ h
    obtain ⟨m1, m2, m3, m4, m5, m6⟩ := hm
    obtain ⟨p1, p2, p3⟩ := hp
    have q1 : s2.mediaSessionId = (sessionTimeBlock env s
        ((doc.getMember (bytes "status")).getElement 0)).mediaSessionId := by rw [p1]
    have q2 : s2.currentTime = (sessionTimeBlock env s
        ((doc.getMember (bytes "status")).getElement 0)).currentTime := by rw [p1]
    have q3 : deviceFields s2 = deviceFields s := by rw [p1]; rfl
    have q4 : s2.connectionStatus = s.connectionStatus := by rw [p1]; rfl
    have q5 : s2.duration = s.duration ∧ s2.title = s.title ∧ s2.artist = s.artist := by
      rw [p1]; exact ⟨rfl, rfl, rfl⟩
    refine ⟨m1.trans q1, m2.trans q2, fun hf => m3.trans (p2 hf),
      fun ht str hs => m3.trans (p3 ht str hs), m4.trans q3, m5.trans q4, fun hf => ?_⟩
    have := m6 hf
    subst this
    exact q5

/-- With `processPayload = 2` and a `MEDIA_STATUS` document the payload block is the
media-status branch. -/
theorem payloadField_media (env : Env) (s : ArduCastControl) (offset len : Nat)
    (doc : Json) (ty : List Nat)
    (hdoc : env.deserializeJson ((s.connBuffer.drop offset).take len) = some doc)
    (htype : doc.containsKey (bytes "type") = true)
    (hstatus : doc.containsKey (bytes "status") = true)
    (hty : (doc.getMember (bytes "type")).asCStr = some ty)
    (hms : ty.takeWhile (fun c => c != 0) = bytes "MEDIA_STATUS") :
    payloadField env s offset len 2 = mediaStatus env s doc := by
  unfold payloadField
  rw [hdoc]
  simp only [htype, hstatus, Bool.and_self, if_true]
  have h1 : receiverBranch env s doc 2 = .ok s := by
    unfold receiverBranch
    simp
  rw [h1]
  unfold mediaBranch strcmpEq
  simp [hty, hms]

/-- The media-status branch returns when `playerState`, `title` and `artist` are strings
wherever present. -/
theorem mediaStatus_total (env : Env) (s : ArduCastControl) (doc : Json)
    (h1 : TextOk ((doc.getMember (bytes "status")).getElement 0) (bytes "playerState"))
    (h2 : TextOk ((((doc.getMember (bytes "status")).getElement 0).getMember
      (bytes "media")).getMember (bytes "metadata")) (bytes "title"))
    (h3 : TextOk ((((doc.getMember (bytes "status")).getElement 0).getMember
      (bytes "media")).getMember (bytes "metadata")) (bytes "artist")) :
    ∃ s1, mediaStatus env s doc = .ok s1 := by
  have b1 : ∀ x, ∃ y, playerStateBlock x ((doc.getMember (bytes "status")).getElement 0)
      = .ok y := by
    intro x
    unfold playerStateBlock
    split
    · rename_i hk
      obtain ⟨str, hs⟩ := h1 hk
      rw [hs, parsePlayerState_some]
      exact ⟨_, rfl⟩
    · exact ⟨_, rfl⟩
  have b2 : ∀ x, ∃ y, titleBlock x ((((doc.getMember (bytes "status")).getElement 0).getMember
      (bytes "media")).getMember (bytes "metadata")) = .ok y := by
    intro x
    unfold titleBlock
    split
    · rename_i hk
      obtain ⟨str, hs⟩ := h2 hk
      obtain ⟨d, hd⟩ := copyField_some str
      rw [hs, hd]
      exact ⟨_, rfl⟩
    · exact ⟨_, rfl⟩
  have b3 : ∀ x, ∃ y, artistBlock x ((((doc.getMember (bytes "status")).getElement 0).getMember
      (bytes "media")).getMember (bytes "metadata")) = .ok y := by
    intro x
    unfold artistBlock
    split
    · rename_i hk
      obtain ⟨str, hs⟩ := h3 hk
      obtain ⟨d, hd⟩ := copyField_some str
      rw [hs, hd]
      exact ⟨_, rfl⟩
    · exact ⟨_, rfl⟩
  have key : ∀ x, ∃ y, (match titleBlock x ((((doc.getMember (bytes "status")).getElement
      0).getMember (bytes "media")).getMember (bytes "metadata")) with
      | .error e => Except.error e
      | .ok s2 => artistBlock s2 ((((doc.getMember (bytes "status")).getElement 0).getMember
          (bytes "media")).getMember (bytes "metadata"))) = .ok y := by
    intro x
    obtain ⟨y2, e2⟩ := b2 x
    rw [e2]
    exact b3 y2
  unfold mediaStatus
  dsimp only
  obtain ⟨y1, e1⟩ := b1 (sessionTimeBlock env s ((doc.getMember (bytes "status")).getElement 0))
  rw [e1]
  dsimp only
  unfold mediaBlock
  dsimp only
  split
  · split
    · exact key _
    · exact ⟨_, rfl⟩
  · exact ⟨_, rfl⟩

/-- C13: for an application-attributed payload that parses to a document with the keys
`type` (the string `MEDIA_STATUS`) and `status`, whenever the interpreter returns,
`mediaSessionId` is the converted `status[0].mediaSessionId` if present and -1 otherwise,
`currentTime` is the converted `status[0].currentTime` if present and 0 otherwise, and
`playerState` is IDLE when the key is absent and, when `status[0].playerState` is a string,
the state `playerStateOf` assigns to it (IDLE, BUFFERING, PLAYING, PAUSED for exactly these
four strings, IDLE for every other string); and the interpreter does return when
`playerState`, `title` and `artist` are strings wherever present. -/
theorem C13_media_status_session_time_state (env : Env) (s : ArduCastControl)
    (offset len : Nat) (doc : Json) (ty : List Nat)
    (hdoc : env.deserializeJson ((s.connBuffer.drop offset).take len) = some doc)
    (htype : doc.containsKey (bytes "type") = true)
    (hstatus : doc.containsKey (bytes "status") = true)
    (hty : (doc.getMember (bytes "type")).asCStr = some ty)
    (hms : ty.takeWhile (fun c => c != 0) = bytes "MEDIA_STATUS") :
    (∀ s1, payloadField env s offset len 2 = .ok s1 →
      s1.mediaSessionId
        = (if ((doc.getMember (bytes "status")).getElement 0).containsKey
              (bytes "mediaSessionId") = true then
            env.asInt (((doc.getMember (bytes "status")).getElement 0).getMember
              (bytes "mediaSessionId"))
          else -1)
      ∧ s1.currentTime
        = (if ((doc.getMember (bytes "status")).getElement 0).containsKey
              (bytes "currentTime") = true then
            env.asFloat (((doc.getMember (bytes "status")).getElement 0).getMember
              (bytes "currentTime"))
          else 0)
      ∧ (((doc.getMember (bytes "status")).getElement 0).containsKey (bytes "playerState")
            = false → s1.playerState = IDLE)
      ∧ (∀ str, (((doc.getMember (bytes "status")).getElement 0).getMember
            (bytes "playerState")).asCStr = some str →
          s1.playerState = playerStateOf (str.takeWhile (fun c => c != 0))))
    ∧ (TextOk ((doc.getMember (bytes "status")).getElement 0) (bytes "playerState") →
        TextOk ((((doc.getMember (bytes "status")).getElement 0).getMember
          (bytes "media")).getMember (bytes "metadata")) (bytes "title") →
        TextOk ((((doc.getMember (bytes "status")).getElement 0).getMember
          (bytes "media")).getMember (bytes "metadata")) (bytes "artist") →
        ∃ s1, payloadField env s offset len 2 = .ok s1) := by
  have hp := payloadField_media env s offset len doc ty hdoc htype hstatus hty hms
  constructor
  · intro s1 h
    rw [hp] at h
    obtain ⟨a1, a2, a3, a4, -⟩ := mediaStatus_ok env s s1 doc h
    refine ⟨a1, a2, a3, fun str hs => ?_⟩
    cases hk : ((doc.getMember (bytes "status")).getElement 0).containsKey (bytes "playerState")
    · rw [getMember_of_not_containsKey _ _ hk] at hs
      cases hs
    · exact a4 hk str hs
  · intro h1 h2 h3
    rw [hp]
    exact mediaStatus_total env s doc h1 h2 h3

/-- C13 at a concrete document: a media status with session 7, time 30 and state `PAUSED`
is interpreted to the end and leaves `mediaSessionId = 7`, `currentTime = 30` and
`playerState = PAUSED`. -/
theorem C13_media_status_session_time_state_witness :
    ∃ s1, payloadField (docEnv mediaDoc) namedState 0 0 2 = .ok s1
      ∧ s1.mediaSessionId = 7 ∧ s1.currentTime = 30 ∧ s1.playerState = PAUSED :=
  have hc := C13_media_status_session_time_state (docEnv mediaDoc) namedState 0 0 mediaDoc
    (bytes "MEDIA_STATUS") rfl rfl rfl rfl (by decide)
  (hc.2 (fun _ => ⟨_, rfl⟩) (fun _ => ⟨_, rfl⟩) (fun _ => ⟨_, rfl⟩)).elim
    (fun s1 h => ⟨s1, h, (hc.1 s1 h).1, (hc.1 s1 h).2.1,
      (hc.1 s1 h).2.2.2 (bytes "PAUSED") rfl⟩)

/-- C14: for a `MEDIA_STATUS` payload whose `status[0]` has no `media` key, whenever the
interpreter returns, `duration`, `title` and `artist` are what they were, while
`mediaSessionId`, `currentTime` and `playerState` are set from `status[0]` (a missing
`playerState` gives IDLE, a string the state assigned to it); and the interpreter does
return when `playerState` is a string if present. -/
theorem C14_missing_media_object_keeps_track_fields (env : Env) (s : ArduCastControl)
    (offset len : Nat) (doc : Json) (ty : List Nat)
    (hdoc : env.deserializeJson ((s.connBuffer.drop offset).take len) = some doc)
    (htype : doc.containsKey (bytes "type") = true)
    (hstatus : doc.containsKey (bytes "status") = true)
    (hty : (doc.getMember (bytes "type")).asCStr = some ty)
    (hms : ty.takeWhile (fun c => c != 0) = bytes "MEDIA_STATUS")
    (hmedia : ((doc.getMember (bytes "status")).getElement 0).containsKey (bytes "media")
      = false) :
    (∀ s1, payloadField env s offset len 2 = .ok s1 →
      (s1.duration = s.duration ∧ s1.title = s.title ∧ s1.artist = s.artist)
      ∧ s1.mediaSessionId
        = (if ((doc.getMember (bytes "status")).getElement 0).containsKey
              (bytes "mediaSessionId") = true then
            env.asInt (((doc.getMember (bytes "status")).getElement 0).getMember
              (bytes "mediaSessionId"))
          else -1)
      ∧ s1.currentTime
        = (if ((doc.getMember (bytes "status")).getElement 0).containsKey
              (bytes "currentTime") = true then
            env.asFloat (((doc.getMember (bytes "status")).getElement 0).getMember
              (bytes "currentTime"))
          else 0)
      ∧ (((doc.getMember (bytes "status")).getElement 0).containsKey (bytes "playerState")
            = false → s1.playerState = IDLE)
      ∧ (((doc.getMember (bytes "status")).getElement 0).containsKey (bytes "playerState")
            = true →
          ∀ str, (((doc.getMember (bytes "status")).getElement 0).getMember
              (bytes "playerState")).asCStr = some str →
            s1.playerState = playerStateOf (str.takeWhile (fun c => c != 0))))
    ∧ (TextOk ((doc.getMember (bytes "status")).getElement 0) (bytes "playerState") →
        ∃ s1, payloadField env s offset len 2 = .ok s1) := by
  have hp := payloadField_media env s offset len doc ty hdoc htype hstatus hty hms
  constructor
  · intro s1 h
    rw [hp] at h
    obtain ⟨a1, a2, a3, a4, -, -, a7⟩ := mediaStatus_ok env s s1 doc h
    exact ⟨a7 hmedia, a1, a2, a3, a4⟩
  · intro h1
    rw [hp]
    apply mediaStatus_total env s doc h1
    · intro hk
      rw [getMember_of_not_containsKey _ _ hmedia] at hk
      cases hk
    · intro hk
      rw [getMember_of_not_containsKey _ _ hmedia] at hk
      cases hk

/-- C14 at a concrete document: a media status without media object (session 8, time 12,
`PLAYING`), processed with `duration = 100`, `Song` and `Band` cached, is interpreted to the
end, keeps these three and sets `mediaSessionId = 8`, `currentTime = 12`,
`playerState = PLAYING`. -/
theorem C14_missing_media_object_keeps_track_fields_witness :
    ∃ s1, payloadField (docEnv mediaDocNoMedia) namedState 0 0 2 = .ok s1
      ∧ (s1.duration = 100 ∧ s1.title = char50 (bytes "Song")
        ∧ s1.artist = char50 (bytes "Band"))
      ∧ s1.mediaSessionId = 8 ∧ s1.currentTime = 12 ∧ s1.playerState = PLAYING :=
  have hc := C14_missing_media_object_keeps_track_fields (docEnv mediaDocNoMedia) namedState
    0 0 mediaDocNoMedia (bytes "MEDIA_STATUS") rfl rfl rfl rfl (by decide) rfl
  (hc.2 (fun _ => ⟨_, rfl⟩)).elim
    (fun s1 h => ⟨s1, h, (hc.1 s1 h).1, (hc.1 s1 h).2.1, (hc.1 s1 h).2.2.1,
      (hc.1 s1 h).2.2.2.2 rfl (bytes "PLAYING") rfl⟩)

/-! ## The scan of a frame, field by field -/

/-- One pass of the inner loop is the header decoder followed by `fieldStep`. -/
theorem scanStep_eq_fieldStep (env : Env) (s : ArduCastControl) (offset pp : Nat) :
    scanStep env s offset pp
      = match pbDecodeHeader s.connBuffer offset with
        | .error e => .error e
        | .ok h =>
          match fieldStep env s (wrap32 (offset + h.processedBytes)) h pp with
          | .error e => .error e
          | .ok r =>
            .ok (r.1, (if h.wire = 2 then
                wrap32 (wrap32 (offset + h.processedBytes) + h.lengthOrValue)
              else wrap32 (offset + h.processedBytes)), r.2) := by
  unfold scanStep fieldStep
  cases pbDecodeHeader s.connBuffer offset with
  | error e => rfl
  | ok h =>
    dsimp only
    split
    · rfl
    · split
      · rfl
      · split <;> rfl

theorem deviceMerge_trans {a b c : ArduCastControl} (h1 : b = deviceMerge a b)
    (h2 : c = deviceMerge b c) : c = deviceMerge a c := by
  rw [h2, h1]
  rfl

theorem mediaMerge_trans {a b c : ArduCastControl} (h1 : b = mediaMerge a b)
    (h2 : c = mediaMerge b c) : c = mediaMerge a c := by
  rw [h2, h1]
  rfl

theorem channelMerge_trans {a b c : ArduCastControl} (h1 : b = channelMerge a b)
    (h2 : c = channelMerge b c) : c = channelMerge a c := by
  rw [h2, h1]
  rfl

/-- The receiver-status branch changes device members and the stored connection
status only. -/
theorem receiverStatus_shape (env : Env) (s s1 : ArduCastControl) (doc : Json)
    (h : receiverStatus env s doc = .ok s1) : s1 = deviceMerge s s1 := by
  unfold receiverStatus at h
  dsimp only at h
  have h0 : volumeBlock env s (doc.getMember (bytes "status"))
      = deviceMerge s (volumeBlock env s (doc.getMember (bytes "status"))) := by
    unfold volumeBlock
    dsimp only
    split <;> rfl
  split at h
  · split at h
    · cases h
    · rename_i s2 e2
      split at h
      · cases h
      · rename_i s3 e3
        have k2 : s2 = deviceMerge (volumeBlock env s (doc.getMember (bytes "status"))) s2 := by
          rcases sessionIdBlock_ok _ _ _ e2 with ⟨_, d, _, e⟩ | ⟨_, e⟩ <;> (rw [e]; rfl)
        have k3 : s3 = deviceMerge s2 s3 := by
          rcases statusTextBlock_ok _ _ _ e3 with ⟨_, d, _, e⟩ | ⟨_, e⟩ <;> (rw [e]; rfl)
        have k4 : s1 = deviceMerge s3 s1 := by
          rcases displayNameBlock_ok _ _ _ h with ⟨_, d, _, e⟩ | ⟨_, e⟩ <;> (rw [e]; rfl)
        exact deviceMerge_trans (deviceMerge_trans (deviceMerge_trans h0 k2) k3) k4
  · cases h
    exact deviceMerge_trans h0 rfl

/-- The media-status branch changes media members only. -/
theorem mediaStatus_shape (env : Env) (s s1 : ArduCastControl) (doc : Json)
    (h : mediaStatus env s doc = .ok s1) : s1 = mediaMerge s s1 := by
  unfold mediaStatus at h
  dsimp only at h
  split at h
  · cases h
  · rename_i s2 e2
    have k1 : s2 = mediaMerge s s2 := by
      have := (playerStateBlock_ok _ _ _ e2).1
      rw [this]
      rfl
    have k2 : s1 = mediaMerge s2 s1 := by
      unfold mediaBlock at h
      dsimp only at h
      split at h
      · split at h
        · split at h
          · cases h
          · rename_i s3 e3
            rcases titleBlock_ok _ _ _ e3 with ⟨_, d, _, e⟩ | ⟨_, e⟩ <;>
            rcases artistBlock_ok _ _ _ h with ⟨_, d2, _, e'⟩ | ⟨_, e'⟩ <;>
            (rw [e', e]; rfl)
        · cases h; rfl
      · cases h; rfl
    exact mediaMerge_trans k1 k2

theorem receiverBranch_shape (env : Env) (s s1 : ArduCastControl) (doc : Json) (pp : Nat)
    (h : receiverBranch env s doc pp = .ok s1) :
    s1 = deviceMerge s s1 ∧ (pp ≠ 1 → s1 = s) := by
  unfold receiverBranch at h
  split at h
  · rename_i hpp
    split at h
    · cases h
    · exact ⟨receiverStatus_shape env s s1 doc h, fun hne => absurd hpp hne⟩
    · cases h; exact ⟨rfl, fun _ => rfl⟩
  · cases h; exact ⟨rfl, fun _ => rfl⟩

theorem mediaBranch_shape (env : Env) (s s1 : ArduCastControl) (doc : Json) (pp : Nat)
    (h : mediaBranch env s doc pp = .ok s1) :
    s1 = mediaMerge s s1 ∧ (pp ≠ 2 → s1 = s) := by
  unfold mediaBranch at h
  split at h
  · rename_i hpp
    split at h
    · cases h
    · exact ⟨mediaStatus_shape env s s1 doc h, fun hne => absurd hpp hne⟩
    · cases h; exact ⟨rfl, fun _ => rfl⟩
  · cases h; exact ⟨rfl, fun _ => rfl⟩

/-- The payload block changes device members and the stored connection status only when
`processPayload` is 1, and media members only when it is 2. -/
theorem payloadField_shape (env : Env) (s s1 : ArduCastControl) (offset len pp : Nat)
    (h : payloadField env s offset len pp = .ok s1) :
    (pp ≠ 2 → s1 = deviceMerge s s1) ∧ (pp ≠ 1 → s1 = mediaMerge s s1) := by
  unfold payloadField at h
  split at h
  · cases h; exact ⟨fun _ => rfl, fun _ => rfl⟩
  · rename_i doc hdoc
    split at h
    · split at h
      · cases h
      · rename_i s2 e2
        obtain ⟨r1, r2⟩ := receiverBranch_shape _ _ _ _ _ e2
        obtain ⟨m1, m2⟩ := mediaBranch_shape _ _ _ _ _ h
        constructor
        · intro hne
          rw [m2 hne]
          exact r1
        · intro hne
          have := r2 hne
          subst this
          exact m1
    · cases h; exact ⟨fun _ => rfl, fun _ => rfl⟩

/-- The `source_id` block changes channel timestamps and latches only; it sets
`processPayload` to 1 only on a match with the device channel's destination id and to 2
only on a match with the application channel's. -/
theorem sourceIdField_shape (s : ArduCastControl) (offset len pp : Nat)
    (r : ArduCastControl × Nat) (h : sourceIdField s offset len pp = .ok r) :
    r.1 = channelMerge s r.1
    ∧ r.1.connectionStatus = s.connectionStatus
    ∧ (r.2 = 1 → pp = 1
        ∨ memcmpEq s.connBuffer offset s.deviceConnection.getDestinationId len = .ok true)
    ∧ (r.2 = 2 → pp = 2
        ∨ memcmpEq s.connBuffer offset s.applicationConnection.getDestinationId len
            = .ok true) := by
  unfold sourceIdField at h
  split at h
  · cases h
  · rename_i r1 e1
    have d : r1.1 = channelMerge s r1.1 ∧ r1.1.connectionStatus = s.connectionStatus
        ∧ r1.1.connBuffer = s.connBuffer
        ∧ r1.1.applicationConnection = s.applicationConnection
        ∧ (r1.2 = pp ∨ (r1.2 = 1
          ∧ memcmpEq s.connBuffer offset s.deviceConnection.getDestinationId len
              = .ok true)) := by
      unfold deviceSource at e1
      split at e1
      · cases e1
      · rename_i hm
        cases e1
        exact ⟨rfl, rfl, rfl, rfl, Or.inr ⟨rfl, hm⟩⟩
      · cases e1
        exact ⟨rfl, rfl, rfl, rfl, Or.inl rfl⟩
    obtain ⟨d1, d2, d3, d4, d5⟩ := d
    have hdest : (appStatus r1.1).2.applicationConnection.getDestinationId
        = s.applicationConnection.getDestinationId := by
      unfold appStatus ArduCastConnection.getConnectionStatus
        ArduCastConnection.getDestinationId
      dsimp only
      rw [d4]
      split
      · rfl
      · split
        · rfl
        · split <;> rfl
    have hst : (appStatus r1.1).2 = channelMerge r1.1 (appStatus r1.1).2 := by
      unfold appStatus ArduCastConnection.getConnectionStatus
      dsimp only
      split
      · rfl
      · split
        · rfl
        · split <;> rfl
    have hbuf : (appStatus r1.1).2.connBuffer = s.connBuffer := d3
    have hcs : (appStatus r1.1).2.connectionStatus = s.connectionStatus := d2
    unfold applicationSource at h
    split at h
    · cases h
      refine ⟨channelMerge_trans d1 hst, hcs, fun h1 => ?_, fun h2 => ?_⟩
      · rcases d5 with e | ⟨_, e⟩
        · exact Or.inl (e ▸ h1)
        · exact Or.inr e
      · rcases d5 with e | ⟨e1, _⟩
        · exact Or.inl (e ▸ h2)
        · rw [e1] at h2; cases h2
    · split at h
      · cases h
      · rename_i hm
        cases h
        rw [hbuf, hdest] at hm
        refine ⟨channelMerge_trans d1 (channelMerge_trans hst rfl), hcs, fun h1 => ?_,
          fun _ => Or.inr hm⟩
        cases h1
      · cases h
        refine ⟨channelMerge_trans d1 hst, hcs, fun h1 => ?_, fun h2 => ?_⟩
        · rcases d5 with e | ⟨_, e⟩
          · exact Or.inl (e ▸ h1)
          · exact Or.inr e
        · rcases d5 with e | ⟨e1, _⟩
          · exact Or.inl (e ▸ h2)
          · rw [e1] at h2; cases h2

/-- The namespace block changes channel latches and the stored connection status only; it
leaves `processPayload` or sets it to 0. -/
theorem namespaceField_shape (s : ArduCastControl) (offset len pp : Nat)
    (r : ArduCastControl × Nat) (h : namespaceField s offset len pp = .ok r) :
    r.1 = channelMerge s r.1 ∧ (r.2 = pp ∨ r.2 = 0) := by
  unfold namespaceField at h
  split at h
  · cases h
  · rename_i pp1 e1
    have hp : pp1 = pp ∨ pp1 = 0 := by
      unfold heartbeatNamespace at e1
      split at e1
      · cases e1
      · cases e1; exact Or.inr rfl
      · cases e1; exact Or.inl rfl
    unfold connectionNamespace at h
    split at h
    · cases h
    · split at h
      · cases h; exact ⟨rfl, Or.inr rfl⟩
      · split at h
        · cases h; exact ⟨rfl, Or.inr rfl⟩
        · cases h; exact ⟨rfl, hp⟩
    · cases h; exact ⟨rfl, hp⟩

/-- What one field of the scan can do: the buffer and the destination ids stay;
`processPayload` becomes 1 (2) only on a `source_id` field that matches the device
(application) channel; device members change only under `processPayload = 1`, media members
only under `processPayload = 2`. -/
theorem fieldStep_facts (env : Env) (s : ArduCastControl) (off1 : Nat) (hd : Header)
    (pp : Nat) (r : ArduCastControl × Nat) (h : fieldStep env s off1 hd pp = .ok r) :
    (r.1.connBuffer = s.connBuffer
      ∧ r.1.deviceConnection.destId = s.deviceConnection.destId
      ∧ r.1.applicationConnection.destId = s.applicationConnection.destId)
    ∧ (r.2 = 1 → pp = 1 ∨ (hd.tag = env.source_id_tag
        ∧ memcmpEq s.connBuffer off1 s.deviceConnection.getDestinationId hd.lengthOrValue
            = .ok true))
    ∧ (r.2 = 2 → pp = 2 ∨ (hd.tag = env.source_id_tag
        ∧ memcmpEq s.connBuffer off1 s.applicationConnection.getDestinationId
            hd.lengthOrValue = .ok true))
    ∧ (r.2 ≠ 1 → deviceFields r.1 = deviceFields s)
    ∧ (r.2 ≠ 2 → mediaFields r.1 = mediaFields s) := by
  unfold fieldStep at h
  split at h
  · cases h
  · rename_i r1 e1
    split at h
    · cases h
    · rename_i r2 e2
      split at h
      · cases h
      · rename_i s3 e3
        cases h
        have k1 : r1.1 = channelMerge s r1.1
            ∧ (r1.2 = 1 → pp = 1 ∨ (hd.tag = env.source_id_tag
              ∧ memcmpEq s.connBuffer off1 s.deviceConnection.getDestinationId
                  hd.lengthOrValue = .ok true))
            ∧ (r1.2 = 2 → pp = 2 ∨ (hd.tag = env.source_id_tag
              ∧ memcmpEq s.connBuffer off1 s.applicationConnection.getDestinationId
                  hd.lengthOrValue = .ok true)) := by
          split at e1
          · rename_i ht
            obtain ⟨a, _, b, c⟩ := sourceIdField_shape _ _ _ _ _ e1
            exact ⟨a, fun x => (b x).imp id (fun y => ⟨ht, y⟩),
              fun x => (c x).imp id (fun y => ⟨ht, y⟩)⟩
          · cases e1
            exact ⟨rfl, fun x => Or.inl x, fun x => Or.inl x⟩
        have k2 : r2.1 = channelMerge r1.1 r2.1 ∧ (r2.2 = r1.2 ∨ r2.2 = 0) := by
          split at e2
          · exact namespaceField_shape _ _ _ _ _ e2
          · cases e2
            exact ⟨rfl, Or.inl rfl⟩
        have k3 : (r2.2 ≠ 2 → s3 = deviceMerge r2.1 s3)
            ∧ (r2.2 ≠ 1 → s3 = mediaMerge r2.1 s3) := by
          split at e3
          · exact payloadField_shape _ _ _ _ _ _ e3
          · cases e3
            exact ⟨fun _ => rfl, fun _ => rfl⟩
        obtain ⟨a1, a2, a3⟩ := k1
        obtain ⟨b1, b2⟩ := k2
        obtain ⟨c1, c2⟩ := k3
        have hch : r2.1 = channelMerge s r2.1 := channelMerge_trans a1 b1
        have hbuf : s3.connBuffer = s.connBuffer
            ∧ s3.deviceConnection.destId = s.deviceConnection.destId
            ∧ s3.applicationConnection.destId = s.applicationConnection.destId := by
          by_cases h2 : r2.2 = 2
          · have := c2 (by omega)
            rw [this, hch]
            exact ⟨rfl, rfl, rfl⟩
          · have := c1 h2
            rw [this, hch]
            exact ⟨rfl, rfl, rfl⟩
        refine ⟨hbuf, fun x => ?_, fun x => ?_, fun x => ?_, fun x => ?_⟩
        · rcases b2 with e | e
          · exact a2 (e ▸ x)
          · dsimp only at x; omega
        · rcases b2 with e | e
          · exact a3 (e ▸ x)
          · dsimp only at x; omega
        · have := c2 x
          rw [this, hch]
          rfl
        · have := c1 x
          rw [this, hch]
          rfl

/-- The inner loop of `loop` is `runFields` over the fields it visits. -/
theorem scanLoop_eq_runFields (env : Env) (read : Nat) :
    ∀ (fuel : Nat) (s : ArduCastControl) (offset pp : Nat) (fields : List (Nat × Header)),
      scanFields s.connBuffer read fuel offset = .ok fields →
      scanLoop env read fuel s offset pp
        = match runFields env fields s pp with
          | .error e => .error e
          | .ok r => .ok r.1 := by
  intro fuel
  induction fuel with
  | zero => intro s offset pp fields h; cases h
  | succ f ih =>
    intro s offset pp fields hf
    unfold scanFields at hf
    unfold scanLoop
    rw [scanStep_eq_fieldStep]
    split at hf
    · cases hf
    · rename_i hd ehd
      generalize (if hd.wire = 2 then
          wrap32 (wrap32 (offset + hd.processedBytes) + hd.lengthOrValue)
        else wrap32 (offset + hd.processedBytes)) = nxt at hf ⊢
      by_cases hlt : nxt < read
      · rw [if_pos hlt] at hf
        cases efs : scanFields s.connBuffer read f nxt with
        | error e => rw [efs] at hf; cases hf
        | ok fs =>
          rw [efs] at hf
          cases hf
          unfold runFields
          dsimp only
          cases hstep : fieldStep env s (wrap32 (offset + hd.processedBytes)) hd pp with
          | error e => rfl
          | ok r =>
            dsimp only
            rw [if_pos hlt]
            have hb := (fieldStep_facts env s _ hd pp r hstep).1.1
            rw [← hb] at efs
            exact ih r.1 _ r.2 fs efs
      · rw [if_neg hlt] at hf
        cases hf
        unfold runFields
        dsimp only
        cases hstep : fieldStep env s (wrap32 (offset + hd.processedBytes)) hd pp with
        | error e => rfl
        | ok r =>
          dsimp only
          rw [if_neg hlt]
          rfl

/-! ## C16: attribution confines the update -/

/-- While no `source_id` field matches the device channel, `processPayload` never becomes 1
and the device members stay. -/
theorem runFields_device (env : Env) :
    ∀ (fields : List (Nat × Header)) (s : ArduCastControl) (pp : Nat)
      (r : ArduCastControl × Nat),
      runFields env fields s pp = .ok r → pp ≠ 1 →
      (∀ f ∈ fields, f.2.tag = env.source_id_tag →
        memcmpEq s.connBuffer f.1 s.deviceConnection.getDestinationId f.2.lengthOrValue
          = .ok false) →
      deviceFields r.1 = deviceFields s ∧ r.2 ≠ 1 := by
  intro fields
  induction fields with
  | nil =>
    intro s pp r h hpp _
    cases h
    exact ⟨rfl, hpp⟩
  | cons f fs ih =>
    intro s pp r h hpp hall
    unfold runFields at h
    split at h
    · cases h
    · rename_i r1 e1
      obtain ⟨⟨b1, b2, _⟩, f1, _, f3, _⟩ := fieldStep_facts env s f.1 f.2 pp r1 e1
      have hne : r1.2 ≠ 1 := by
        intro h1
        rcases f1 h1 with e | ⟨ht, hm⟩
        · exact hpp e
        · rw [hall f (List.mem_cons_self _ _) ht] at hm
          cases hm
      have hall1 : ∀ g ∈ fs, g.2.tag = env.source_id_tag →
          memcmpEq r1.1.connBuffer g.1 r1.1.deviceConnection.getDestinationId
            g.2.lengthOrValue = .ok false := by
        intro g hg ht
        have := hall g (List.mem_cons_of_mem _ hg) ht
        unfold ArduCastConnection.getDestinationId at this ⊢
        rw [b1, b2]
        exact this
      obtain ⟨i1, i2⟩ := ih r1.1 r1.2 r h hne hall1
      exact ⟨i1.trans (f3 hne), i2⟩

/-- While no `source_id` field matches the application channel, `processPayload` never
becomes 2 and the media members stay. -/
theorem runFields_media (env : Env) :
    ∀ (fields : List (Nat × Header)) (s : ArduCastControl) (pp : Nat)
      (r : ArduCastControl × Nat),
      runFields env fields s pp = .ok r → pp ≠ 2 →
      (∀ f ∈ fields, f.2.tag = env.source_id_tag →
        memcmpEq s.connBuffer f.1 s.applicationConnection.getDestinationId
          f.2.lengthOrValue = .ok false) →
      mediaFields r.1 = mediaFields s ∧ r.2 ≠ 2 := by
  intro fields
  induction fields with
  | nil =>
    intro s pp r h hpp _
    cases h
    exact ⟨rfl, hpp⟩
  | cons f fs ih =>
    intro s pp r h hpp hall
    unfold runFields at h
    split at h
    · cases h
    · rename_i r1 e1
      obtain ⟨⟨b1, _, b3⟩, _, f2, _, f4⟩ := fieldStep_facts env s f.1 f.2 pp r1 e1
      have hne : r1.2 ≠ 2 := by
        intro h1
        rcases f2 h1 with e | ⟨ht, hm⟩
        · exact hpp e
        · rw [hall f (List.mem_cons_self _ _) ht] at hm
          cases hm
      have hall1 : ∀ g ∈ fs, g.2.tag = env.source_id_tag →
          memcmpEq r1.1.connBuffer g.1 r1.1.applicationConnection.getDestinationId
            g.2.lengthOrValue = .ok false := by
        intro g hg ht
        have := hall g (List.mem_cons_of_mem _ hg) ht
        unfold ArduCastConnection.getDestinationId at this ⊢
        rw [b1, b3]
        exact this
      obtain ⟨i1, i2⟩ := ih r1.1 r1.2 r h hne hall1
      exact ⟨i1.trans (f4 hne), i2⟩

/-- C16: for every state and every frame in `connBuffer` (`fields` are the fields the scan
visits from offset 4 on): if no `source_id` field of the frame matches the device channel's
destination id, the scan of the frame leaves `volume`, `isMuted`, `sessionId`,
`statusText`, `displayName` as they were, whatever the payload says; and if no `source_id`
field matches the application channel's destination id, it leaves `mediaSessionId`,
`currentTime`, `playerState`, `duration`, `title`, `artist` as they were. -/
theorem C16_attribution_confines_update (env : Env) (read fuel : Nat) (s : ArduCastControl)
    (fields : List (Nat × Header))
    (hf : scanFields s.connBuffer read fuel 4 = .ok fields) :
    ((∀ f ∈ fields, f.2.tag = env.source_id_tag →
        memcmpEq s.connBuffer f.1 s.deviceConnection.getDestinationId f.2.lengthOrValue
          = .ok false) →
      ∀ s1, scanLoop env read fuel s 4 0 = .ok s1 → deviceFields s1 = deviceFields s)
    ∧ ((∀ f ∈ fields, f.2.tag = env.source_id_tag →
        memcmpEq s.connBuffer f.1 s.applicationConnection.getDestinationId
          f.2.lengthOrValue = .ok false) →
      ∀ s1, scanLoop env read fuel s 4 0 = .ok s1 → mediaFields s1 = mediaFields s) := by
  have hrun := scanLoop_eq_runFields env read fuel s 4 0 fields hf
  constructor
  · intro hall s1 h
    rw [hrun] at h
    split at h
    · cases h
    · rename_i r er
      cases h
      exact (runFields_device env fields s 0 r er (by decide) hall).1
  · intro hall s1 h
    rw [hrun] at h
    split at h
    · cases h
    · rename_i r er
      cases h
      exact (runFields_media env fields s 0 r er (by decide) hall).1

set_option maxRecDepth 100000 in
/-- C16 at concrete frames: the media status frame of the application `abc` is scanned to
the end, sets `mediaSessionId = 8`, and leaves the device members as they were; so does
the same frame sent on a namespace of 43 bytes; and a receiver status frame whose
`source_id` has 62 bytes (more than a destination id holds) and matches neither channel is
scanned to the end and leaves the device members and the media members as they were. -/
theorem C16_attribution_confines_update_witness :
    ((scanLoop (jsonEnv mediaTextNoMedia mediaDocNoMedia) 155 10 (loaded mediaFrame appState)
        4 0).map (fun s => s.mediaSessionId) = .ok 8
      ∧ ∀ s1, scanLoop (jsonEnv mediaTextNoMedia mediaDocNoMedia) 155 10
          (loaded mediaFrame appState) 4 0 = .ok s1 →
        deviceFields s1 = deviceFields (loaded mediaFrame appState))
    ∧ ((scanLoop (jsonEnv mediaTextNoMedia mediaDocNoMedia) 166 10
        (loaded longNamespaceFrame appState) 4 0).map (fun s => s.mediaSessionId) = .ok 8
      ∧ ∀ s1, scanLoop (jsonEnv mediaTextNoMedia mediaDocNoMedia) 166 10
          (loaded longNamespaceFrame appState) 4 0 = .ok s1 →
        deviceFields s1 = deviceFields (loaded longNamespaceFrame appState))
    ∧ ((scanLoop (jsonEnv receiverTextSession receiverDocSession) 203 10
        (loaded longSourceFrame appState) 4 0).toBool = true
      ∧ ∀ s1, scanLoop (jsonEnv receiverTextSession receiverDocSession) 203 10
          (loaded longSourceFrame appState) 4 0 = .ok s1 →
        deviceFields s1 = deviceFields (loaded longSourceFrame appState)
        ∧ mediaFields s1 = mediaFields (loaded longSourceFrame appState)) :=
  ⟨⟨by decide,
    (C16_attribution_confines_update (jsonEnv mediaTextNoMedia mediaDocNoMedia) 155 10
      (loaded mediaFrame appState)
      [(6, ⟨1, 0, 0, 2⟩), (8, ⟨2, 2, 3, 2⟩), (13, ⟨3, 2, 8, 2⟩), (23, ⟨4, 2, 32, 2⟩),
       (57, ⟨5, 0, 0, 2⟩), (59, ⟨6, 2, 96, 2⟩)]
      (by decide)).1 (by decide)⟩,
   ⟨by decide,
    (C16_attribution_confines_update (jsonEnv mediaTextNoMedia mediaDocNoMedia) 166 10
      (loaded longNamespaceFrame appState)
      [(6, ⟨1, 0, 0, 2⟩), (8, ⟨2, 2, 3, 2⟩), (13, ⟨3, 2, 8, 2⟩), (23, ⟨4, 2, 43, 2⟩),
       (68, ⟨5, 0, 0, 2⟩), (70, ⟨6, 2, 96, 2⟩)]
      (by decide)).1 (by decide)⟩,
   ⟨by decide,
    fun s1 h =>
      ⟨(C16_attribution_confines_update (jsonEnv receiverTextSession receiverDocSession) 203
          10 (loaded longSourceFrame appState)
          [(6, ⟨1, 0, 0, 2⟩), (8, ⟨2, 2, 62, 2⟩), (72, ⟨3, 2, 8, 2⟩), (82, ⟨4, 2, 43, 2⟩),
           (127, ⟨5, 0, 0, 2⟩), (129, ⟨6, 2, 74, 2⟩)]
          (by decide)).1 (by decide) s1 h,
       (C16_attribution_confines_update (jsonEnv receiverTextSession receiverDocSession) 203
          10 (loaded longSourceFrame appState)
          [(6, ⟨1, 0, 0, 2⟩), (8, ⟨2, 2, 62, 2⟩), (72, ⟨3, 2, 8, 2⟩), (82, ⟨4, 2, 43, 2⟩),
           (127, ⟨5, 0, 0, 2⟩), (129, ⟨6, 2, 74, 2⟩)]
          (by decide)).2 (by decide) s1 h⟩⟩⟩

/-! ## C15: the connection namespace as a disconnect notice -/

/-- With `processPayload = 0`, a field that is not a `source_id` field changes nothing. -/
theorem fieldStep_quiet (env : Env) (s : ArduCastControl) (off1 : Nat) (hd : Header)
    (hsrc : hd.tag ≠ env.source_id_tag) :
    (∀ r, fieldStep env s off1 hd 0 = .ok r → r = (s, 0))
    ∧ (hd.tag ≠ env.namespace_fix_tag → fieldStep env s off1 hd 0 = .ok (s, 0)) := by
  unfold fieldStep
  rw [if_neg hsrc]
  dsimp only
  by_cases hns : hd.tag = env.namespace_fix_tag
  · rw [if_pos hns]
    refine ⟨fun r h => ?_, fun hne => absurd hns hne⟩
    have key : ∀ r2, namespaceField s off1 hd.lengthOrValue 0 = .ok r2 → r2 = (s, 0) := by
      intro r2 h2
      unfold namespaceField at h2
      split at h2
      · cases h2
      · rename_i pp1 e1
        have hp : pp1 = 0 := by
          unfold heartbeatNamespace at e1
          split at e1
          · cases e1
          · cases e1; rfl
          · cases e1; rfl
        subst hp
        unfold connectionNamespace at h2
        split at h2
        · cases h2
        · simp at h2
          exact h2.symm
        · cases h2; rfl
    split at h
    · cases h
    · rename_i r2 e2
      have := key r2 e2
      subst this
      simp at h
      exact h.symm
  · rw [if_neg hns]
    dsimp only
    simp

/-- With `processPayload = 0` and no `source_id` field left, the rest of the scan changes
nothing; it returns when no namespace field is left either. -/
theorem runFields_quiet (env : Env) :
    ∀ (fields : List (Nat × Header)) (s : ArduCastControl),
      (∀ f ∈ fields, f.2.tag ≠ env.source_id_tag) →
      (∀ r, runFields env fields s 0 = .ok r → r = (s, 0))
      ∧ ((∀ f ∈ fields, f.2.tag ≠ env.namespace_fix_tag) →
          runFields env fields s 0 = .ok (s, 0)) := by
  intro fields
  induction fields with
  | nil =>
    intro s _
    exact ⟨fun r h => by cases h; rfl, fun _ => rfl⟩
  | cons f fs ih =>
    intro s hall
    have hq := fieldStep_quiet env s f.1 f.2 (hall f (List.mem_cons_self _ _))
    have hfs : ∀ g ∈ fs, g.2.tag ≠ env.source_id_tag :=
      fun g hg => hall g (List.mem_cons_of_mem _ hg)
    constructor
    · intro r h
      unfold runFields at h
      split at h
      · cases h
      · rename_i r1 e1
        have := hq.1 r1 e1
        subst this
        exact (ih s hfs).1 r h
    · intro hns
      unfold runFields
      rw [hq.2 (hns f (List.mem_cons_self _ _))]
      exact (ih s hfs).2 (fun g hg => hns g (List.mem_cons_of_mem _ hg))

/-- A namespace field holding the connection namespace, met with `processPayload` 1 or
2. -/
theorem fieldStep_close (env : Env) (s : ArduCastControl) (off1 : Nat) (hd : Header)
    (hns : hd.tag = env.namespace_fix_tag) (hsrc : hd.tag ≠ env.source_id_tag)
    (hlen : hd.lengthOrValue = 40)
    (hbytes : (s.connBuffer.drop off1).take 40 = CC_NS_CONNECTION) :
    fieldStep env s off1 hd 1
      = .ok ({ s with applicationConnection := s.applicationConnection.setDisconnect
                      deviceConnection := s.deviceConnection.setDisconnect
                      connectionStatus := TCPALIVE }, 0)
    ∧ fieldStep env s off1 hd 2
      = .ok ({ s with applicationConnection := s.applicationConnection.setDisconnect }, 0) := by
  have hl : ((s.connBuffer.drop off1).take 40).length = 40 := by
    rw [hbytes]
    decide
  have hb : memcmpEq s.connBuffer off1 (CC_NS_HEARTBEAT ++ [0]) 40 = .ok false := by
    rw [memcmpEq_in_range _ _ _ _ hl (by decide), hbytes]
    decide
  have hc : memcmpEq s.connBuffer off1 (CC_NS_CONNECTION ++ [0]) 40 = .ok true := by
    rw [memcmpEq_in_range _ _ _ _ hl (by decide), hbytes]
    decide
  unfold fieldStep
  simp only [if_neg hsrc, if_pos hns, hlen]
  unfold namespaceField heartbeatNamespace connectionNamespace
  simp only [hb, hc]
  constructor
  · simp
  · simp

/-- A list of fields leaves the buffer and the destination ids alone. -/
theorem runFields_anchor (env : Env) :
    ∀ (fields : List (Nat × Header)) (s : ArduCastControl) (pp : Nat)
      (r : ArduCastControl × Nat),
      runFields env fields s pp = .ok r →
      r.1.connBuffer = s.connBuffer
      ∧ r.1.deviceConnection.destId = s.deviceConnection.destId
      ∧ r.1.applicationConnection.destId = s.applicationConnection.destId := by
  intro fields
  induction fields with
  | nil =>
    intro s pp r h
    cases h
    exact ⟨rfl, rfl, rfl⟩
  | cons f fs ih =>
    intro s pp r h
    unfold runFields at h
    split at h
    · cases h
    · rename_i r1 e1
      obtain ⟨⟨b1, b2, b3⟩, _⟩ := fieldStep_facts env s f.1 f.2 pp r1 e1
      obtain ⟨i1, i2, i3⟩ := ih r1.1 r1.2 r h
      exact ⟨i1.trans b1, i2.trans b2, i3.trans b3⟩

/-- The blocks run over two lists of fields one after the other. -/
theorem runFields_append (env : Env) :
    ∀ (pre rest : List (Nat × Header)) (s : ArduCastControl) (pp : Nat),
      runFields env (pre ++ rest) s pp
        = match runFields env pre s pp with
          | .error e => .error e
          | .ok r => runFields env rest r.1 r.2 := by
  intro pre
  induction pre with
  | nil => intro rest s pp; rfl
  | cons f fs ih =>
    intro rest s pp
    have e1 : runFields env (f :: fs ++ rest) s pp
        = match fieldStep env s f.1 f.2 pp with
          | .error e => .error e
          | .ok r => runFields env (fs ++ rest) r.1 r.2 := rfl
    have e2 : runFields env (f :: fs) s pp
        = match fieldStep env s f.1 f.2 pp with
          | .error e => .error e
          | .ok r => runFields env fs r.1 r.2 := rfl
    rw [e1, e2]
    cases h : fieldStep env s f.1 f.2 pp with
    | error e => rfl
    | ok r => exact ih rest r.1 r.2

set_option maxRecDepth 100000 in
/-- C15 (counterexample): `reattribFrame` is a frame from `receiver-0` whose `source_id`
field (data at offset 8) is followed by a namespace field equal to the connection namespace
(offset 30), then by a second `source_id` field (offset 72) and a receiver status payload
(offset 86).  Scanned in `appState` (stored status CONNECTED, muted, status text
`Casting`), the frame is attributed to the device channel and both latches are
cleared, but the second `source_id` field attributes it again and the payload is
interpreted: at the end the stored status is CONNECT_TO_APPLICATION, not TCPALIVE, and the
cached mute flag and status text have changed. -/
theorem C15_later_source_id_counterexample :
    scanFields (loaded reattribFrame appState).connBuffer 160 20 4
      = .ok [(6, ⟨1, 0, 0, 2⟩), (8, ⟨2, 2, 10, 2⟩), (20, ⟨3, 2, 8, 2⟩), (30, ⟨4, 2, 40, 2⟩),
             (72, ⟨2, 2, 10, 2⟩), (84, ⟨5, 0, 0, 2⟩), (86, ⟨6, 2, 74, 2⟩)]
    ∧ ((loaded reattribFrame appState).connBuffer.drop 30).take 40 = CC_NS_CONNECTION
    ∧ (runFields (jsonEnv receiverTextSession receiverDocSession)
        [(6, ⟨1, 0, 0, 2⟩), (8, ⟨2, 2, 10, 2⟩), (20, ⟨3, 2, 8, 2⟩)]
        (loaded reattribFrame appState) 0).map Prod.snd = .ok 1
    ∧ (appState.connectionStatus, appState.isMuted, cstr appState.statusText)
      = (CONNECTED, true, .ok (bytes "Casting"))
    ∧ (scanLoop (jsonEnv receiverTextSession receiverDocSession) 160 20
        (loaded reattribFrame appState) 4 0).map
      (fun t => (t.connectionStatus, t.isMuted, cstr t.statusText,
        t.deviceConnection.connected, t.applicationConnection.connected))
      = .ok (CONNECT_TO_APPLICATION, false, .ok (10 :: bytes "asting"), false, false) := by
  refine ⟨by decide, by decide, by decide, by decide, by decide⟩

/-- C15 (amended): a frame whose fields are `pre`, then a namespace field that holds the
connection namespace (`hd`, data at offset `offN`), then `rest` with no further `source_id`
field.  The scan of `pre` from the start of the frame ends in `sN` with
`processPayload = pp` (1 when the frame is attributed to the device channel, 2 when to the
application channel).  With `pp = 1` the scan of the whole frame ends in `sN` with both
latches cleared and `connectionStatus = TCPALIVE`; with `pp = 2` in `sN` with only the
application latch cleared; in both cases nothing else differs from `sN`, so no field behind
the namespace field (payload included) has updated a cached member.  The scan does end
when no further namespace field follows. -/
theorem C15_connection_namespace_is_disconnect_notice (env : Env) (read fuel : Nat)
    (s : ArduCastControl) (pre : List (Nat × Header)) (offN : Nat) (hd : Header)
    (rest : List (Nat × Header)) (sN : ArduCastControl) (pp : Nat)
    (hf : scanFields s.connBuffer read fuel 4 = .ok (pre ++ (offN, hd) :: rest))
    (hpre : runFields env pre s 0 = .ok (sN, pp))
    (hns : hd.tag = env.namespace_fix_tag) (hsrc : hd.tag ≠ env.source_id_tag)
    (hlen : hd.lengthOrValue = 40)
    (hbytes : (s.connBuffer.drop offN).take 40 = CC_NS_CONNECTION)
    (hrest : ∀ f ∈ rest, f.2.tag ≠ env.source_id_tag) :
    (pp = 1 → ∀ s1, scanLoop env read fuel s 4 0 = .ok s1 →
      s1 = { sN with applicationConnection := sN.applicationConnection.setDisconnect
                     deviceConnection := sN.deviceConnection.setDisconnect
                     connectionStatus := TCPALIVE })
    ∧ (pp = 2 → ∀ s1, scanLoop env read fuel s 4 0 = .ok s1 →
      s1 = { sN with applicationConnection := sN.applicationConnection.setDisconnect })
    ∧ ((∀ f ∈ rest, f.2.tag ≠ env.namespace_fix_tag) →
      (pp = 1 → scanLoop env read fuel s 4 0
        = .ok { sN with applicationConnection := sN.applicationConnection.setDisconnect
                        deviceConnection := sN.deviceConnection.setDisconnect
                        connectionStatus := TCPALIVE })
      ∧ (pp = 2 → scanLoop env read fuel s 4 0
        = .ok { sN with applicationConnection := sN.applicationConnection.setDisconnect })) := by
  have hb : (sN.connBuffer.drop offN).take 40 = CC_NS_CONNECTION := by
    rw [(runFields_anchor env pre s 0 (sN, pp) hpre).1]
    exact hbytes
  obtain ⟨c1, c2⟩ := fieldStep_close env sN offN hd hns hsrc hlen hb
  have r0 := scanLoop_eq_runFields env read fuel s 4 0 _ hf
  rw [runFields_append, hpre] at r0
  dsimp only at r0
  unfold runFields at r0
  dsimp only at r0
  refine ⟨fun h1 s1 h => ?_, fun h2 s1 h => ?_, fun hnons => ⟨fun h1 => ?_, fun h2 => ?_⟩⟩
  · subst h1
    rw [c1] at r0
    dsimp only at r0
    rw [r0] at h
    split at h
    · cases h
    · rename_i r er
      cases h
      rw [(runFields_quiet env rest _ hrest).1 r er]
  · subst h2
    rw [c2] at r0
    dsimp only at r0
    rw [r0] at h
    split at h
    · cases h
    · rename_i r er
      cases h
      rw [(runFields_quiet env rest _ hrest).1 r er]
  · subst h1
    rw [c1] at r0
    dsimp only at r0
    rw [r0, (runFields_quiet env rest _ hrest).2 hnons]
  · subst h2
    rw [c2] at r0
    dsimp only at r0
    rw [r0, (runFields_quiet env rest _ hrest).2 hnons]

set_option maxRecDepth 100000 in
/-- C15 (amended) at concrete frames: the close notice from `receiver-0`, scanned from the
start of the frame in `appState`, is attributed to the device channel (whose timestamp is
set) and leaves both latches cleared and `TCPALIVE` stored; the close notice from the
application `abc` is attributed to the application channel and leaves only its latch
cleared; in both the payload behind the namespace field changes nothing. -/
theorem C15_connection_namespace_is_disconnect_notice_witness :
    scanLoop demoEnv 90 10 (loaded (closeFrame CC_MAIN_DESTIID) appState) 4 0
      = .ok { loaded (closeFrame CC_MAIN_DESTIID) appState with
              applicationConnection := appState.applicationConnection.setDisconnect
              deviceConnection := (appState.deviceConnection.pinged 0).setDisconnect
              connectionStatus := TCPALIVE }
    ∧ scanLoop demoEnv 83 10 (loaded (closeFrame (bytes "abc")) appState) 4 0
      = .ok { loaded (closeFrame (bytes "abc")) appState with
              applicationConnection :=
                (appState.applicationConnection.pinged 0).setDisconnect } :=
  ⟨((C15_connection_namespace_is_disconnect_notice demoEnv 90 10
      (loaded (closeFrame CC_MAIN_DESTIID) appState)
      [(6, ⟨1, 0, 0, 2⟩), (8, ⟨2, 2, 10, 2⟩), (20, ⟨3, 2, 8, 2⟩)] 30 ⟨4, 2, 40, 2⟩
      [(72, ⟨5, 0, 0, 2⟩), (74, ⟨6, 2, 16, 2⟩)]
      { loaded (closeFrame CC_MAIN_DESTIID) appState with
        deviceConnection := appState.deviceConnection.pinged 0 } 1
      (by decide) rfl (by decide) (by decide) rfl (by decide) (by decide)).2.2
    (by decide)).1 rfl,
   ((C15_connection_namespace_is_disconnect_notice demoEnv 83 10
      (loaded (closeFrame (bytes "abc")) appState)
      [(6, ⟨1, 0, 0, 2⟩), (8, ⟨2, 2, 3, 2⟩), (13, ⟨3, 2, 8, 2⟩)] 23 ⟨4, 2, 40, 2⟩
      [(65, ⟨5, 0, 0, 2⟩), (67, ⟨6, 2, 16, 2⟩)]
      { loaded (closeFrame (bytes "abc")) appState with
        applicationConnection := appState.applicationConnection.pinged 0 } 2
      (by decide) rfl (by decide) (by decide) rfl (by decide) (by decide)).2.2
    (by decide)).2 rfl⟩

/-! ## C17: replay of a frame -/

theorem TextRel.mark {a0 b0 a b : List Nat} (h : TextRel a0 b0 a b) (c : Nat) :
    TextRel a0 b0 (a.set 0 c) (b.set 0 c) := by
  rcases h with ⟨ha, hb⟩ | h | ⟨c1, ha, hb⟩
  · exact Or.inr (Or.inr ⟨c, by rw [ha], by rw [hb]⟩)
  · exact Or.inr (Or.inl (by rw [h]))
  · exact Or.inr (Or.inr ⟨c, by rw [ha, List.set_set], by rw [hb, List.set_set]⟩)

/-- At the end of the second run, started where the first run ended, a text member is
what the first run left. -/
theorem TextRel.closeText {a0 a b : List Nat} (h : TextRel a0 a a b) : b = a := by
  rcases h with ⟨_, hb⟩ | h | ⟨c, ha, hb⟩
  · exact hb
  · exact h.symm
  · rw [hb, ha, List.set_set]

theorem ValRel.closeVal {α : Type} {a0 a b : α} (h : ValRel a0 a a b) : b = a := by
  rcases h with ⟨_, hb⟩ | h
  · exact hb
  · exact h.symm

theorem volumeBlock_replay (env : Env) (x0 y0 x y : ArduCastControl) (status : Json)
    (R : Replay x0 y0 x y) :
    Replay x0 y0 (volumeBlock env x status) (volumeBlock env y status) := by
  unfold volumeBlock
  dsimp only
  split
  · exact { R with volume := Or.inr rfl, isMuted := Or.inr rfl }
  · exact { R with volume := Or.inr rfl, isMuted := Or.inr rfl }

theorem sessionIdBlock_replay (x0 y0 x y x1 : ArduCastControl) (j : Json)
    (R : Replay x0 y0 x y) (h : sessionIdBlock x j = .ok x1) :
    ∃ y1, sessionIdBlock y j = .ok y1 ∧ Replay x0 y0 x1 y1 := by
  rcases sessionIdBlock_ok x x1 j h with ⟨hk, d, hd, e⟩ | ⟨hk, e⟩
  · subst e
    refine ⟨{ y with sessionId := d, connectionStatus := CONNECT_TO_APPLICATION }, ?_, ?_⟩
    · unfold sessionIdBlock
      rw [if_pos hk, hd]
    · exact { R with status := Or.inr rfl, sessionId := Or.inr (Or.inl rfl) }
  · subst e
    refine ⟨{ y with sessionId := y.sessionId.set 0 10 }, ?_, ?_⟩
    · unfold sessionIdBlock
      simp [hk]
    · exact { R with sessionId := R.sessionId.mark 10 }

theorem statusTextBlock_replay (x0 y0 x y x1 : ArduCastControl) (j : Json)
    (R : Replay x0 y0 x y) (h : statusTextBlock x j = .ok x1) :
    ∃ y1, statusTextBlock y j = .ok y1 ∧ Replay x0 y0 x1 y1 := by
  rcases statusTextBlock_ok x x1 j h with ⟨hk, d, hd, e⟩ | ⟨hk, e⟩
  · subst e
    refine ⟨{ y with statusText := d }, ?_, ?_⟩
    · unfold statusTextBlock
      rw [if_pos hk, hd]
    · exact { R with statusText := Or.inr (Or.inl rfl) }
  · subst e
    refine ⟨{ y with statusText := y.statusText.set 0 10 }, ?_, ?_⟩
    · unfold statusTextBlock
      simp [hk]
    · exact { R with statusText := R.statusText.mark 10 }

theorem displayNameBlock_replay (x0 y0 x y x1 : ArduCastControl) (j : Json)
    (R : Replay x0 y0 x y) (h : displayNameBlock x j = .ok x1) :
    ∃ y1, displayNameBlock y j = .ok y1 ∧ Replay x0 y0 x1 y1 := by
  rcases displayNameBlock_ok x x1 j h with ⟨hk, d, hd, e⟩ | ⟨hk, e⟩
  · subst e
    refine ⟨{ y with displayName := d }, ?_, ?_⟩
    · unfold displayNameBlock
      rw [if_pos hk, hd]
    · exact { R with displayName := Or.inr (Or.inl rfl) }
  · subst e
    refine ⟨{ y with displayName := y.displayName.set 0 10 }, ?_, ?_⟩
    · unfold displayNameBlock
      simp [hk]
    · exact { R with displayName := R.displayName.mark 10 }

/-- The receiver-status branch in the second run. -/
theorem receiverStatus_replay (env : Env) (x0 y0 x y x1 : ArduCastControl) (doc : Json)
    (R : Replay x0 y0 x y) (h : receiverStatus env x doc = .ok x1) :
    ∃ y1, receiverStatus env y doc = .ok y1 ∧ Replay x0 y0 x1 y1 := by
  have R0 := volumeBlock_replay env x0 y0 x y (doc.getMember (bytes "status")) R
  unfold receiverStatus at h ⊢
  dsimp only at h ⊢
  split at h
  · rename_i hk
    rw [if_pos hk]
    split at h
    · cases h
    · rename_i x2 e2
      split at h
      · cases h
      · rename_i x3 e3
        obtain ⟨y2, f2, R2⟩ := sessionIdBlock_replay _ _ _ _ _ _ R0 e2
        obtain ⟨y3, f3, R3⟩ := statusTextBlock_replay _ _ _ _ _ _ R2 e3
        obtain ⟨y4, f4, R4⟩ := displayNameBlock_replay _ _ _ _ _ _ R3 h
        rw [f2]
        dsimp only
        rw [f3]
        exact ⟨y4, f4, R4⟩
  · rename_i hk
    rw [if_neg hk]
    cases h
    exact ⟨_, rfl, { R0 with sessionId := R0.sessionId.mark 0,
                             statusText := R0.statusText.mark 0,
                             displayName := R0.displayName.mark 0 }⟩

theorem receiverBranch_replay (env : Env) (x0 y0 x y x1 : ArduCastControl) (doc : Json)
    (pp : Nat) (R : Replay x0 y0 x y) (h : receiverBranch env x doc pp = .ok x1) :
    ∃ y1, receiverBranch env y doc pp = .ok y1 ∧ Replay x0 y0 x1 y1 := by
  unfold receiverBranch at h ⊢
  by_cases h1 : pp = 1
  · rw [if_pos h1] at h ⊢
    cases hs : strcmpEq (bytes "RECEIVER_STATUS") (doc.getMember (bytes "type")).asCStr with
    | error e => rw [hs] at h; cases h
    | ok b =>
      rw [hs] at h
      cases b
      · dsimp only at h ⊢
        cases h
        exact ⟨y, rfl, R⟩
      · dsimp only at h ⊢
        exact receiverStatus_replay env _ _ _ _ _ doc R h
  · rw [if_neg h1] at h ⊢
    cases h
    exact ⟨y, rfl, R⟩

/-- The payload block in the second run, for `processPayload` other than 2. -/
theorem payloadField_replay (env : Env) (x0 y0 x y x1 : ArduCastControl)
    (offset len pp : Nat) (hpp : pp ≠ 2) (R : Replay x0 y0 x y)
    (h : payloadField env x offset len pp = .ok x1) :
    ∃ y1, payloadField env y offset len pp = .ok y1 ∧ Replay x0 y0 x1 y1 := by
  have hm : ∀ z doc, mediaBranch env z doc pp = .ok z := by
    intro z doc
    unfold mediaBranch
    rw [if_neg hpp]
  unfold payloadField at h ⊢
  rw [← R.buf]
  cases hdoc : env.deserializeJson ((x.connBuffer.drop offset).take len) with
  | none =>
    rw [hdoc] at h
    cases h
    exact ⟨y, rfl, R⟩
  | some doc =>
    rw [hdoc] at h
    dsimp only at h ⊢
    by_cases hk : (doc.containsKey (bytes "type") && doc.containsKey (bytes "status")) = true
    · rw [if_pos hk] at h ⊢
      cases e2 : receiverBranch env x doc pp with
      | error e => rw [e2] at h; cases h
      | ok x2 =>
        rw [e2] at h
        dsimp only at h
        rw [hm] at h
        cases h
        obtain ⟨y2, f2, R2⟩ := receiverBranch_replay env _ _ _ _ _ doc pp R e2
        rw [f2]
        dsimp only
        rw [hm]
        exact ⟨y2, rfl, R2⟩
    · rw [if_neg hk] at h ⊢
      cases h
      exact ⟨y, rfl, R⟩

/-- Channel timestamps and latches do not enter the relation. -/
theorem Replay.channels {x0 y0 x y x1 y1 : ArduCastControl} (R : Replay x0 y0 x y)
    (hx : x1 = channelMerge x x1) (hxs : x1.connectionStatus = x.connectionStatus)
    (hy : y1 = channelMerge y y1) (hys : y1.connectionStatus = y.connectionStatus) :
    Replay x0 y0 x1 y1 := by
  have e1 : x1 = { channelMerge x x1 with connectionStatus := x.connectionStatus } := by
    rw [← hxs]
    exact hx
  have e2 : y1 = { channelMerge y y1 with connectionStatus := y.connectionStatus } := by
    rw [← hys]
    exact hy
  rw [e1, e2]
  exact { R with }

/-- The `source_id` block when the application channel does not match: `processPayload`
becomes 1 exactly on a match with the device channel. -/
theorem sourceIdField_pp (s : ArduCastControl) (offset len pp : Nat)
    (happ : memcmpEq s.connBuffer offset s.applicationConnection.getDestinationId len
      = .ok false) :
    (∀ r, sourceIdField s offset len pp = .ok r →
      ∃ b, memcmpEq s.connBuffer offset s.deviceConnection.getDestinationId len = .ok b
        ∧ r.2 = if b = true then 1 else pp)
    ∧ (∀ b, memcmpEq s.connBuffer offset s.deviceConnection.getDestinationId len = .ok b →
      ∃ t, sourceIdField s offset len pp = .ok (t, if b = true then 1 else pp)) := by
  have key : ∀ (z : ArduCastControl) (q : Nat), z.connBuffer = s.connBuffer →
      z.applicationConnection = s.applicationConnection →
      ∃ t, applicationSource z offset len q = .ok (t, q) := by
    intro z q hb ha
    have hdest : (appStatus z).2.applicationConnection.getDestinationId
        = s.applicationConnection.getDestinationId := by
      unfold appStatus ArduCastConnection.getConnectionStatus
        ArduCastConnection.getDestinationId
      dsimp only
      rw [ha]
      split
      · rfl
      · split
        · rfl
        · split <;> rfl
    have hbuf : (appStatus z).2.connBuffer = s.connBuffer := hb
    unfold applicationSource
    split
    · exact ⟨_, rfl⟩
    · rw [hbuf, hdest, happ]
      exact ⟨_, rfl⟩
  constructor
  · intro r h
    unfold sourceIdField deviceSource at h
    cases hm : memcmpEq s.connBuffer offset s.deviceConnection.getDestinationId len with
    | error e => rw [hm] at h; cases h
    | ok b =>
      rw [hm] at h
      refine ⟨b, rfl, ?_⟩
      cases b
      · dsimp only at h
        obtain ⟨t, ht⟩ := key s pp rfl rfl
        rw [ht] at h
        cases h
        rfl
      · dsimp only at h
        obtain ⟨t, ht⟩ := key { s with deviceConnection := s.deviceConnection.pinged s.millis }
          1 rfl rfl
        rw [ht] at h
        cases h
        rfl
  · intro b hm
    unfold sourceIdField deviceSource
    rw [hm]
    cases b
    · dsimp only
      obtain ⟨t, ht⟩ := key s pp rfl rfl
      exact ⟨t, ht⟩
    · dsimp only
      obtain ⟨t, ht⟩ := key { s with deviceConnection := s.deviceConnection.pinged s.millis }
        1 rfl rfl
      exact ⟨t, ht⟩

/-- The namespace block in the second run. -/
theorem namespaceField_replay (x0 y0 x y : ArduCastControl) (offset len pp : Nat)
    (rx : ArduCastControl × Nat) (R : Replay x0 y0 x y)
    (h : namespaceField x offset len pp = .ok rx) :
    ∃ ry, namespaceField y offset len pp = .ok ry ∧ ry.2 = rx.2
      ∧ Replay x0 y0 rx.1 ry.1 := by
  have eb : memcmpEq y.connBuffer offset (CC_NS_HEARTBEAT ++ [0]) len
      = memcmpEq x.connBuffer offset (CC_NS_HEARTBEAT ++ [0]) len := by rw [R.buf]
  have ec : memcmpEq y.connBuffer offset (CC_NS_CONNECTION ++ [0]) len
      = memcmpEq x.connBuffer offset (CC_NS_CONNECTION ++ [0]) len := by rw [R.buf]
  unfold namespaceField heartbeatNamespace at h ⊢
  rw [eb]
  cases hb : memcmpEq x.connBuffer offset (CC_NS_HEARTBEAT ++ [0]) len with
  | error e => rw [hb] at h; cases h
  | ok b =>
    rw [hb] at h
    have key : ∀ q r, connectionNamespace x offset len q = .ok r →
        ∃ ry, connectionNamespace y offset len q = .ok ry ∧ ry.2 = r.2
          ∧ Replay x0 y0 r.1 ry.1 := by
      intro q r hq
      unfold connectionNamespace at hq ⊢
      rw [ec]
      cases hc : memcmpEq x.connBuffer offset (CC_NS_CONNECTION ++ [0]) len with
      | error e => rw [hc] at hq; cases hq
      | ok c =>
        rw [hc] at hq
        cases c
        · dsimp only at hq ⊢
          cases hq
          exact ⟨_, rfl, rfl, R⟩
        · dsimp only at hq ⊢
          by_cases h1 : q = 1
          · rw [if_pos h1] at hq ⊢
            cases hq
            exact ⟨_, rfl, rfl, { R with status := Or.inr rfl }⟩
          · rw [if_neg h1] at hq ⊢
            by_cases h2 : q = 2
            · rw [if_pos h2] at hq ⊢
              cases hq
              exact ⟨_, rfl, rfl, { R with }⟩
            · rw [if_neg h2] at hq ⊢
              cases hq
              exact ⟨_, rfl, rfl, R⟩
    cases b
    · dsimp only at h ⊢
      exact key _ _ h
    · dsimp only at h ⊢
      exact key _ _ h

/-- One field of the scan in the second run, when the application channel does not match
the field. -/
theorem fieldStep_replay (env : Env) (x0 y0 x y : ArduCastControl) (off1 : Nat)
    (hd : Header) (pp : Nat) (rx : ArduCastControl × Nat) (R : Replay x0 y0 x y)
    (hpp : pp ≠ 2)
    (happ : hd.tag = env.source_id_tag →
      memcmpEq x.connBuffer off1 x.applicationConnection.getDestinationId hd.lengthOrValue
        = .ok false)
    (h : fieldStep env x off1 hd pp = .ok rx) :
    ∃ ry, fieldStep env y off1 hd pp = .ok ry ∧ ry.2 = rx.2 ∧ rx.2 ≠ 2
      ∧ Replay x0 y0 rx.1 ry.1 := by
  unfold fieldStep at h ⊢
  split at h
  · cases h
  · rename_i r1 e1
    have k1 : ∃ q1, (if hd.tag = env.source_id_tag then
          sourceIdField y off1 hd.lengthOrValue pp else .ok (y, pp)) = .ok q1
        ∧ q1.2 = r1.2 ∧ r1.2 ≠ 2 ∧ Replay x0 y0 r1.1 q1.1 := by
      by_cases ht : hd.tag = env.source_id_tag
      · rw [if_pos ht] at e1 ⊢
        have hax := happ ht
        have hay : memcmpEq y.connBuffer off1 y.applicationConnection.getDestinationId
            hd.lengthOrValue = .ok false := by
          unfold ArduCastConnection.getDestinationId at hax ⊢
          rw [← R.buf, ← R.app]
          exact hax
        obtain ⟨b, hb, hr⟩ := (sourceIdField_pp x off1 hd.lengthOrValue pp hax).1 r1 e1
        have hby : memcmpEq y.connBuffer off1 y.deviceConnection.getDestinationId
            hd.lengthOrValue = .ok b := by
          unfold ArduCastConnection.getDestinationId at hb ⊢
          rw [← R.buf, ← R.dev]
          exact hb
        obtain ⟨t, ht2⟩ := (sourceIdField_pp y off1 hd.lengthOrValue pp hay).2 b hby
        obtain ⟨sx, sxs, _, _⟩ := sourceIdField_shape _ _ _ _ _ e1
        obtain ⟨sy, sys, _, _⟩ := sourceIdField_shape _ _ _ _ _ ht2
        refine ⟨_, ht2, hr.symm, ?_, R.channels sx sxs sy sys⟩
        rw [hr]
        split
        · decide
        · exact hpp
      · rw [if_neg ht] at e1 ⊢
        cases e1
        exact ⟨_, rfl, rfl, hpp, R⟩
    obtain ⟨q1, f1, hq1, hne1, R1⟩ := k1
    rw [f1]
    dsimp only
    split at h
    · cases h
    · rename_i r2 e2
      have k2 : ∃ q2, (if hd.tag = env.namespace_fix_tag then
            namespaceField q1.1 off1 hd.lengthOrValue q1.2 else .ok q1) = .ok q2
          ∧ q2.2 = r2.2 ∧ r2.2 ≠ 2 ∧ Replay x0 y0 r2.1 q2.1 := by
        by_cases ht : hd.tag = env.namespace_fix_tag
        · rw [if_pos ht] at e2 ⊢
          rw [hq1]
          obtain ⟨ry, fy, hy, Ry⟩ := namespaceField_replay x0 y0 _ _ _ _ _ _ R1 e2
          refine ⟨ry, fy, hy, ?_, Ry⟩
          rcases (namespaceField_shape _ _ _ _ _ e2).2 with e | e
          · rw [e]; exact hne1
          · rw [e]; decide
        · rw [if_neg ht] at e2 ⊢
          cases e2
          exact ⟨_, rfl, hq1, hne1, R1⟩
      obtain ⟨q2, f2, hq2, hne2, R2⟩ := k2
      rw [f2]
      dsimp only
      rw [hq2]
      split at h
      · cases h
      · rename_i s3 e3
        cases h
        by_cases hc : 0 < r2.2 ∧ hd.tag = env.payload_utf8_tag
        · rw [if_pos hc] at e3 ⊢
          obtain ⟨y3, f3, R3⟩ := payloadField_replay env x0 y0 _ _ _ _ _ _ hne2 R2 e3
          rw [f3]
          exact ⟨_, rfl, rfl, hne2, R3⟩
        · rw [if_neg hc] at e3 ⊢
          cases e3
          exact ⟨_, rfl, rfl, hne2, R2⟩

/-- A list of fields in the second run, when the application channel matches none of
them. -/
theorem runFields_replay (env : Env) (x0 y0 : ArduCastControl) :
    ∀ (fields : List (Nat × Header)) (x y : ArduCastControl) (pp : Nat)
      (rx : ArduCastControl × Nat),
      Replay x0 y0 x y → pp ≠ 2 →
      (∀ f ∈ fields, f.2.tag = env.source_id_tag →
        memcmpEq x.connBuffer f.1 x.applicationConnection.getDestinationId
          f.2.lengthOrValue = .ok false) →
      runFields env fields x pp = .ok rx →
      ∃ ry, runFields env fields y pp = .ok ry ∧ Replay x0 y0 rx.1 ry.1 := by
  intro fields
  induction fields with
  | nil =>
    intro x y pp rx R _ _ h
    cases h
    exact ⟨_, rfl, R⟩
  | cons f fs ih =>
    intro x y pp rx R hpp hall h
    unfold runFields at h ⊢
    split at h
    · cases h
    · rename_i r1 e1
      obtain ⟨q1, f1, hq, hne, R1⟩ := fieldStep_replay env x0 y0 x y f.1 f.2 pp r1 R hpp
        (hall f (List.mem_cons_self _ _)) e1
      rw [f1]
      dsimp only
      rw [hq]
      obtain ⟨⟨b1, _, b3⟩, _⟩ := fieldStep_facts env x f.1 f.2 pp r1 e1
      have hall1 : ∀ g ∈ fs, g.2.tag = env.source_id_tag →
          memcmpEq r1.1.connBuffer g.1 r1.1.applicationConnection.getDestinationId
            g.2.lengthOrValue = .ok false := by
        intro g hg ht
        have := hall g (List.mem_cons_of_mem _ hg) ht
        unfold ArduCastConnection.getDestinationId at this ⊢
        rw [b1, b3]
        exact this
      exact ih r1.1 q1.1 r1.2 rx R1 hne hall1 h

/-- C17: for every state `s` and every frame in `connBuffer` none of whose `source_id`
fields matches the application channel (so that it is attributed to the device channel or
to none): if the scan of the frame ends in `s1`, the scan of the same frame started in `s1`
ends too, in a state with the same cached status as `s1`: the same `volume`, `isMuted`,
`sessionId`, `statusText`, `displayName`, stored `connectionStatus` and media members. -/
theorem C17_receiver_status_replay_idempotent (env : Env) (read fuel : Nat)
    (s s1 : ArduCastControl) (fields : List (Nat × Header))
    (hf : scanFields s.connBuffer read fuel 4 = .ok fields)
    (happ : ∀ f ∈ fields, f.2.tag = env.source_id_tag →
      memcmpEq s.connBuffer f.1 s.applicationConnection.getDestinationId f.2.lengthOrValue
        = .ok false)
    (h1 : scanLoop env read fuel s 4 0 = .ok s1) :
    ∃ s2, scanLoop env read fuel s1 4 0 = .ok s2 ∧ cachedStatus s2 = cachedStatus s1 := by
  rw [scanLoop_eq_runFields env read fuel s 4 0 fields hf] at h1
  split at h1
  · cases h1
  · rename_i r er
    cases h1
    obtain ⟨a1, a2, a3⟩ := runFields_anchor env fields s 0 r er
    have R0 : Replay s r.1 s r.1 :=
      { buf := a1.symm, dev := a2.symm, app := a3.symm
        volume := Or.inl ⟨rfl, rfl⟩, isMuted := Or.inl ⟨rfl, rfl⟩
        status := Or.inl ⟨rfl, rfl⟩, sessionId := Or.inl ⟨rfl, rfl⟩
        statusText := Or.inl ⟨rfl, rfl⟩, displayName := Or.inl ⟨rfl, rfl⟩ }
    obtain ⟨ry, fy, Ry⟩ := runFields_replay env s r.1 fields s r.1 0 r R0 (by decide) happ er
    have hf1 : scanFields r.1.connBuffer read fuel 4 = .ok fields := by
      rw [a1]
      exact hf
    have happ1 : ∀ f ∈ fields, f.2.tag = env.source_id_tag →
        memcmpEq r.1.connBuffer f.1 r.1.applicationConnection.getDestinationId
          f.2.lengthOrValue = .ok false := by
      intro f hfm ht
      have := happ f hfm ht
      unfold ArduCastConnection.getDestinationId at this ⊢
      rw [a1, a3]
      exact this
    refine ⟨ry.1, ?_, ?_⟩
    · rw [scanLoop_eq_runFields env read fuel r.1 4 0 fields hf1, fy]
    · have hmed := (runFields_media env fields r.1 0 ry fy (by decide) happ1).1
      unfold cachedStatus deviceFields
      rw [hmed, Ry.volume.closeVal, Ry.isMuted.closeVal, Ry.status.closeVal, Ry.sessionId.closeText,
        Ry.statusText.closeText, Ry.displayName.closeText]

set_option maxRecDepth 100000 in
/-- C17 at concrete frames: the receiver status frame from `receiver-0` that reports the
session `abc`, scanned in a state with other cached texts, stores `abc` and
CONNECT_TO_APPLICATION and marks the two texts it does not report; scanned again, it
leaves the cached status as it is.  The same holds for the frame sent on a namespace of 43
bytes. -/
theorem C17_receiver_status_replay_idempotent_witness :
    ((scanLoop (jsonEnv receiverTextSession receiverDocSession) 143 10
        (loaded receiverFrame appState) 4 0).map
      (fun t => (t.connectionStatus, cstr t.sessionId, cstr t.statusText))
      = .ok (CONNECT_TO_APPLICATION, .ok (bytes "abc"), .ok (10 :: bytes "asting"))
    ∧ ∀ s1, scanLoop (jsonEnv receiverTextSession receiverDocSession) 143 10
          (loaded receiverFrame appState) 4 0 = .ok s1 →
        ∃ s2, scanLoop (jsonEnv receiverTextSession receiverDocSession) 143 10 s1 4 0
            = .ok s2 ∧ cachedStatus s2 = cachedStatus s1)
    ∧ ((scanLoop (jsonEnv receiverTextSession receiverDocSession) 151 10
        (loaded longReceiverFrame appState) 4 0).map
      (fun t => (t.connectionStatus, cstr t.sessionId, cstr t.statusText))
      = .ok (CONNECT_TO_APPLICATION, .ok (bytes "abc"), .ok (10 :: bytes "asting"))
    ∧ ∀ s1, scanLoop (jsonEnv receiverTextSession receiverDocSession) 151 10
          (loaded longReceiverFrame appState) 4 0 = .ok s1 →
        ∃ s2, scanLoop (jsonEnv receiverTextSession receiverDocSession) 151 10 s1 4 0
            = .ok s2 ∧ cachedStatus s2 = cachedStatus s1) :=
  ⟨⟨by decide,
    fun s1 h => C17_receiver_status_replay_idempotent
      (jsonEnv receiverTextSession receiverDocSession) 143 10
      (loaded receiverFrame appState) s1
      [(6, ⟨1, 0, 0, 2⟩), (8, ⟨2, 2, 10, 2⟩), (20, ⟨3, 2, 8, 2⟩), (30, ⟨4, 2, 35, 2⟩),
       (67, ⟨5, 0, 0, 2⟩), (69, ⟨6, 2, 74, 2⟩)]
      (by decide) (by decide) h⟩,
   ⟨by decide,
    fun s1 h => C17_receiver_status_replay_idempotent
      (jsonEnv receiverTextSession receiverDocSession) 151 10
      (loaded longReceiverFrame appState) s1
      [(6, ⟨1, 0, 0, 2⟩), (8, ⟨2, 2, 10, 2⟩), (20, ⟨3, 2, 8, 2⟩), (30, ⟨4, 2, 43, 2⟩),
       (75, ⟨5, 0, 0, 2⟩), (77, ⟨6, 2, 74, 2⟩)]
      (by decide) (by decide) h⟩⟩

/-! ## C18: reads of the field scan -/

set_option maxRecDepth 100000 in
/-- C18 (the code at the failing inputs): the frame `00 00 00 00` (declared length 0) is
returned by the frame reader with `read = 4`, and the scan confined to these 4 bytes takes
the out-of-range branch: the `do ... while` loop decodes a header at index 4 before it
tests `offset < read`.  The frame `00 00 00 02 0A 80` (`read = 6`, last byte with the
continuation bit) does the same: the varint read continues at index 6.  Run on the whole
buffer, the scan of the frame `00 00 00 00` reads what an earlier frame left behind index
4: in `staleState` it finds the old `source_id` field and pings the device channel
(`lastMsgAt` goes from 0 to 7000). -/
theorem C18_scan_reads_past_frame :
    (received (deliver [0, 0, 0, 0] demoState)).1 = 4
    ∧ scanChecked demoEnv 4 10 (received (deliver [0, 0, 0, 0] demoState)).2
        = .error .outOfRange
    ∧ (received (deliver [0, 0, 0, 2, 10, 128] demoState)).1 = 6
    ∧ scanChecked demoEnv 6 10 (received (deliver [0, 0, 0, 2, 10, 128] demoState)).2
        = .error .outOfRange
    ∧ (received (deliver [0, 0, 0, 0] staleState)).2.deviceConnection.lastMsgAt = 0
    ∧ (scanLoop demoEnv 4 10 (received (deliver [0, 0, 0, 0] staleState)).2 4 0).map
        (fun s => s.deviceConnection.lastMsgAt) = .ok 7000 := by
  decide

/-! ## C19: the stored status CONNECT_TO_APPLICATION -/

set_option maxRecDepth 100000 in
/-- C19 (counterexample): two runs from a fresh object.  In the first, `connect` succeeds,
the device reports an application with an empty session id, and `loop()` is called: the
stored status is CONNECT_TO_APPLICATION and `sessionId` is the empty string.  In the
second, the device reports the session `abc`, two calls of `loop()` store it and complete
the application handshake, the device reports the same again and `loop()` is called: the
stored status is CONNECT_TO_APPLICATION while the application latch is set. -/
theorem C19_connect_to_application_counterexample :
    (run (jsonEnv receiverTextEmptySession receiverDocEmptySession) 10
        [.connect 0 true, .deliver emptySessionFrame, .poll 100] freshState).map
      (fun s => (s.connectionStatus, cstr s.sessionId, s.applicationConnection.connected))
      = .ok (CONNECT_TO_APPLICATION, .ok [], false)
    ∧ (run (jsonEnv receiverTextSession receiverDocSession) 10
        [.connect 0 true, .deliver receiverFrame, .poll 100, .poll 200,
         .deliver receiverFrame, .poll 300] freshState).map
      (fun s => (s.connectionStatus, cstr s.sessionId, s.applicationConnection.connected))
      = .ok (CONNECT_TO_APPLICATION, .ok (bytes "abc"), true) := by
  decide

/-! ## C20: the error counter -/

set_option maxRecDepth 100000 in
/-- C20 (the code at the failing input): a run from a fresh object in which the device
never answers.  `connect` succeeds; `loop()` sends at clock value 0, and the calls at 501,
1002, 1503, 2004 and 2505 each find the request timed out: the last one closes the
transport with `errorCount = 0`.  `connect` succeeds again and leaves `errorCount = 0`;
`loop()` sends at 3000, and the call at 3501 decrements the counter to 255 and carries
on. -/
theorem C20_errorCount_wraps_after_reconnect :
    (run demoEnv 10
        [.connect 0 true, .poll 0, .poll 501, .poll 1002, .poll 1503, .poll 2004, .poll 2505]
        freshState).map (fun s => (s.connectionStatus, s.errorCount, s.client.connected))
      = .ok (DISCONNECTED, 0, false)
    ∧ (run demoEnv 10
        [.connect 0 true, .poll 0, .poll 501, .poll 1002, .poll 1503, .poll 2004, .poll 2505,
         .connect 3000 true] freshState).map
      (fun s => (s.connectionStatus, s.errorCount, s.client.connected))
      = .ok (CONNECTED, 0, true)
    ∧ (run demoEnv 10
        [.connect 0 true, .poll 0, .poll 501, .poll 1002, .poll 1503, .poll 2004, .poll 2505,
         .connect 3000 true, .poll 3000, .poll 3501] freshState).map
      (fun s => (s.connectionStatus, s.errorCount, s.client.connected))
      = .ok (CONNECTED, 255, true) := by
  decide

/-- The first byte of a copied text is the first byte of the reported C string. -/
theorem copyField_head (str d : List Nat) (h : copyField (some str) = .ok d) :
    d.head? = (str ++ [0]).head? := by
  unfold copyField strncpy at h
  dsimp only at h
  cases str with
  | nil =>
    simp at h
    subst h
    rfl
  | cons c rest =>
    by_cases hc : c = 0
    · subst hc
      simp at h
      subst h
      rfl
    · have htw : List.takeWhile (fun c => c != 0) (c :: rest ++ [0])
          = c :: List.takeWhile (fun c => c != 0) (rest ++ [0]) := by
        have hp : (fun c : Nat => c != 0) c = true := by simpa using hc
        rw [List.cons_append]
        exact List.takeWhile_cons_of_pos (p := fun c : Nat => c != 0) hp
      rw [htw] at h
      split at h
      · cases h
      · rename_i d1 hd1
        cases h
        split at hd1
        · cases hd1
          simp [List.set]
        · split at hd1
          · cases hd1
            simp [List.set]
          · cases hd1

/-- The receiver-status branch stores CONNECT_TO_APPLICATION over another status only
together with the reported session id. -/
theorem receiverStatus_stores_session (env : Env) (s s1 : ArduCastControl) (doc : Json)
    (h : receiverStatus env s doc = .ok s1)
    (hne : s.connectionStatus ≠ CONNECT_TO_APPLICATION)
    (hcta : s1.connectionStatus = CONNECT_TO_APPLICATION) :
    ∃ str d,
      ((((doc.getMember (bytes "status")).getMember (bytes "applications")).getElement
        0).getMember (bytes "sessionId")).asCStr = some str
      ∧ copyField (some str) = .ok d ∧ s1.sessionId = d := by
  unfold receiverStatus at h
  dsimp only at h
  have h0 : (volumeBlock env s (doc.getMember (bytes "status"))).connectionStatus
      = s.connectionStatus := by
    unfold volumeBlock
    dsimp only
    split <;> rfl
  split at h
  · split at h
    · cases h
    · rename_i s2 e2
      split at h
      · cases h
      · rename_i s3 e3
        have k3 : s3.connectionStatus = s2.connectionStatus ∧ s3.sessionId = s2.sessionId := by
          rcases statusTextBlock_ok _ _ _ e3 with ⟨_, d, _, e⟩ | ⟨_, e⟩ <;>
            (rw [e]; exact ⟨rfl, rfl⟩)
        have k4 : s1.connectionStatus = s3.connectionStatus ∧ s1.sessionId = s3.sessionId := by
          rcases displayNameBlock_ok _ _ _ h with ⟨_, d, _, e⟩ | ⟨_, e⟩ <;>
            (rw [e]; exact ⟨rfl, rfl⟩)
        rcases sessionIdBlock_ok _ _ _ e2 with ⟨_, d, hd, e⟩ | ⟨_, e⟩
        · cases hs : ((((doc.getMember (bytes "status")).getMember
              (bytes "applications")).getElement 0).getMember (bytes "sessionId")).asCStr with
          | none =>
            rw [hs] at hd
            cases hd
          | some str =>
            rw [hs] at hd
            refine ⟨str, d, rfl, hd, ?_⟩
            rw [k4.2, k3.2, e]
        · exfalso
          apply hne
          rw [← h0, ← hcta, k4.1, k3.1, e]
  · cases h
    exact absurd (hcta.symm.trans h0).symm hne

/-- `getConnection()` answers CONNECT_TO_APPLICATION only with that status stored, no
request outstanding and, the transport being live, the application latch clear. -/
theorem getConnection_connect_to_application (s s1 : ArduCastControl)
    (hc : s.client.connected = true)
    (h : getConnection s = (CONNECT_TO_APPLICATION, s1)) :
    s1.connectionStatus = CONNECT_TO_APPLICATION ∧ s1.msgSent = false
    ∧ s1.applicationConnection.connected = false := by
  unfold getConnection at h
  split at h
  · cases h
  · rename_i hm
    split at h
    · rename_i hd
      have h1 := congrArg Prod.fst h
      have h2 := congrArg Prod.snd h
      dsimp only at h1 h2
      subst h2
      refine ⟨h1, by simpa using hm, ?_⟩
      unfold appStatus ArduCastConnection.getConnectionStatus at hd ⊢
      dsimp only at hd ⊢
      rw [hc] at hd ⊢
      cases hl : s.applicationConnection.connected
      · simp [hl]
      · rw [hl] at hd
        simp only [Bool.not_true, Bool.or_self, Bool.false_eq_true, if_false] at hd ⊢
        split
        · rfl
        · rename_i h3
          rw [if_neg h3] at hd
          split at hd <;> cases hd
    · cases h

/-- The selected action leaves the liveness flag of the transport alone. -/
theorem performAction_connected (env : Env) (s : ArduCastControl) (a : Outbound)
    (c : WiFiClientSecure) (h : performAction env s a = .ok c) :
    c.connected = s.client.connected := by
  have key : ∀ (ch : ArduCastConnection) (ns payload : List Nat),
      (ch.writeMsg env s.client s.connBuffer ns payload).map transportOf = .ok c →
      c.connected = s.client.connected := by
    intro ch ns payload hw
    cases hres : ch.writeMsg env s.client s.connBuffer ns payload with
    | error e => rw [hres] at hw; cases hw
    | ok r =>
      obtain ⟨err, c1, b⟩ := r
      rw [hres] at hw
      have hc : c1 = c := by
        have := hw
        simp only [Except.map, transportOf] at this
        cases this
        rfl
      subst hc
      exact (writeMsg_client env ch s.client s.connBuffer ns payload err c1 b hres).1
  cases a with
  | appConnect =>
    cases hs : strncpy s.sessionId 50 with
    | error e => simp [performAction, hs] at h
    | ok d =>
      simp only [performAction, hs] at h
      exact key _ _ _ h
  | devGetStatus => exact key _ _ _ h
  | devPing => exact key _ _ _ h
  | appGetStatus => exact key _ _ _ h
  | appPing => exact key _ _ _ h
  | nothing =>
    unfold performAction at h
    cases h
    rfl
/-- The priority chain leaves the liveness flag of the transport alone. -/
theorem sendNext_connected (env : Env) (s s1 : ArduCastControl)
    (h : sendNext env s = .ok s1) : s1.client.connected = s.client.connected := by
  have hc := sendNext_client env s
  rw [h] at hc
  exact performAction_connected env s (chosenAction s) s1.client hc.symm

/-- A call of `loop()` that returns CONNECT_TO_APPLICATION. -/
theorem loop_connect_to_application (env : Env) (fuel : Nat) (s s1 : ArduCastControl)
    (h : loop env fuel s = .ok (CONNECT_TO_APPLICATION, s1)) :
    s1.connectionStatus = CONNECT_TO_APPLICATION ∧ s1.msgSent = false
    ∧ s1.applicationConnection.connected = false := by
  unfold loop at h
  split at h
  · cases h
  · rename_i hconn
    split at h
    · cases h
    · rename_i rxp s2 erx
      have hc2 : s2.client.connected = true := by
        rw [(rxLoop_inv env fuel fuel s false rxp s2 erx).2.1]
        simpa using hconn
      unfold txPhase at h
      split at h
      · dsimp only at h
        generalize (if s2.msgSent = true then wrap8 (s2.errorCount + 255)
          else s2.errorCount) = ec at h
        by_cases hdead : (s2.msgSent && ec == 0) = true
        · rw [if_pos hdead] at h
          cases h
        · rw [if_neg hdead] at h
          split at h
          · cases h
          · rename_i s3 e3
            have hc3 : s3.client.connected = true := by
              rw [sendNext_connected env _ s3 e3]
              exact hc2
            have hg : getConnection s3 = (CONNECT_TO_APPLICATION, s1) := Except.ok.inj h
            exact getConnection_connect_to_application s3 s1 hc3 hg
      · have hg : getConnection s2 = (CONNECT_TO_APPLICATION, s1) := Except.ok.inj h
        exact getConnection_connect_to_application s2 s1 hc2 hg

/-- A payload block that stores CONNECT_TO_APPLICATION over another status. -/
theorem payloadField_stores_session (env : Env) (s s1 : ArduCastControl)
    (offset len pp : Nat) (h : payloadField env s offset len pp = .ok s1)
    (hne : s.connectionStatus ≠ CONNECT_TO_APPLICATION)
    (hcta : s1.connectionStatus = CONNECT_TO_APPLICATION) :
    pp = 1 ∧ s1.applicationConnection = s.applicationConnection
    ∧ ∃ doc str,
      env.deserializeJson ((s.connBuffer.drop offset).take len) = some doc
      ∧ ((((doc.getMember (bytes "status")).getMember (bytes "applications")).getElement
          0).getMember (bytes "sessionId")).asCStr = some str
      ∧ copyField (some str) = .ok s1.sessionId
      ∧ s1.sessionId.head? = (str ++ [0]).head? := by
  obtain ⟨sh1, sh2⟩ := payloadField_shape env s s1 offset len pp h
  have hpp : pp = 1 := by
    by_contra hn
    have := sh2 hn
    apply hne
    rw [← hcta, this]
    rfl
  subst hpp
  have happ : s1.applicationConnection = s.applicationConnection := by
    have := sh1 (by decide)
    rw [this]
    rfl
  refine ⟨rfl, happ, ?_⟩
  unfold payloadField at h
  cases hdoc : env.deserializeJson ((s.connBuffer.drop offset).take len) with
  | none =>
    rw [hdoc] at h
    cases h
    exact absurd hcta hne
  | some doc =>
    rw [hdoc] at h
    dsimp only at h
    split at h
    · split at h
      · cases h
      · rename_i s2 e2
        have hm : mediaBranch env s2 doc 1 = .ok s2 := by
          unfold mediaBranch
          simp
        rw [hm] at h
        cases h
        unfold receiverBranch at e2
        rw [if_pos rfl] at e2
        split at e2
        · cases e2
        · obtain ⟨str, d, hs, hd, he⟩ := receiverStatus_stores_session env s _ doc e2 hne hcta
          subst he
          exact ⟨doc, str, rfl, hs, hd, copyField_head str _ hd⟩
        · cases e2
          exact absurd hcta hne
    · cases h
      exact absurd hcta hne

/-- A result whose first component is known. -/
theorem ok_of_map_fst {α β : Type} {x : Except Fault (α × β)} {a : α}
    (h : x.map Prod.fst = .ok a) : ∃ b, x = .ok (a, b) := by
  cases x with
  | error e => cases h
  | ok r =>
    obtain ⟨r1, r2⟩ := r
    have : r1 = a := by
      simp only [Except.map] at h
      cases h
      rfl
    subst this
    exact ⟨r2, rfl⟩

set_option maxRecDepth 100000 in
/-- The send phase entered after the link has been lost (the test at the top of `loop()` has
passed and the transport has gone down since): with CONNECT_TO_APPLICATION stored,
`connect` of the application channel gets -1 from `writeMsg` and sets the latch all the
same, and the call returns CONNECT_TO_APPLICATION with the latch set and the transport
down. -/
theorem txPhase_link_lost :
    (sendCode demoEnv lostLinkState, (txPhase demoEnv lostLinkState false).map
      (fun r => (r.1, r.2.applicationConnection.connected, r.2.client.connected)))
      = (.ok (-1), .ok (CONNECT_TO_APPLICATION, true, false)) := by
  decide

/-- A mapped result that is not a fault comes from a result. -/
theorem ok_of_map {α β : Type} {x : Except Fault α} {f : α → β} {b : β}
    (h : x.map f = .ok b) : ∃ a, x = .ok a ∧ f a = b := by
  cases x with
  | error e => cases h
  | ok a =>
    simp only [Except.map] at h
    cases h
    exact ⟨a, rfl, rfl⟩

/-- C19 (amended): in every state, hence in every reachable one: whenever `loop()` returns
CONNECT_TO_APPLICATION, that status is stored and no request is outstanding, and if the
transport is up on return (so that it was up at every query of the call) the application
channel's connected latch is false; and whenever a payload block changes the stored status
to CONNECT_TO_APPLICATION, the payload is attributed to the device channel
(`processPayload = 1`), its `status.applications[0].sessionId` is a string, `sessionId`
holds the copy of that string (its first byte is the first byte of the reported C string, so
it is empty exactly when the reported string is empty), and the application channel is
untouched. -/
theorem C19_connect_to_application_from_report (env : Env) (fuel : Nat)
    (s : ArduCastControl) :
    (∀ s1, loop env fuel s = .ok (CONNECT_TO_APPLICATION, s1) →
      s1.connectionStatus = CONNECT_TO_APPLICATION ∧ s1.msgSent = false
      ∧ (s1.client.connected = true → s1.applicationConnection.connected = false))
    ∧ (∀ offset len pp s1, payloadField env s offset len pp = .ok s1 →
      s.connectionStatus ≠ CONNECT_TO_APPLICATION →
      s1.connectionStatus = CONNECT_TO_APPLICATION →
      pp = 1 ∧ s1.applicationConnection = s.applicationConnection
      ∧ ∃ doc str,
        env.deserializeJson ((s.connBuffer.drop offset).take len) = some doc
        ∧ ((((doc.getMember (bytes "status")).getMember (bytes "applications")).getElement
            0).getMember (bytes "sessionId")).asCStr = some str
        ∧ copyField (some str) = .ok s1.sessionId
        ∧ s1.sessionId.head? = (str ++ [0]).head?) :=
  ⟨fun s1 h =>
    ⟨(loop_connect_to_application env fuel s s1 h).1,
     (loop_connect_to_application env fuel s s1 h).2.1,
     fun _ => (loop_connect_to_application env fuel s s1 h).2.2⟩,
   fun offset len pp s1 h hne hcta =>
     payloadField_stores_session env s s1 offset len pp h hne hcta⟩

set_option maxRecDepth 100000 in
/-- C19 (amended) at a concrete state: with the report of an empty session id waiting,
`loop()` returns CONNECT_TO_APPLICATION with the transport up, and then no request is
outstanding and the application latch is false. -/
theorem C19_connect_to_application_from_report_witness :
    ∃ s1, loop (jsonEnv receiverTextEmptySession receiverDocEmptySession) 10 reportState
        = .ok (CONNECT_TO_APPLICATION, s1)
      ∧ s1.client.connected = true ∧ s1.msgSent = false
      ∧ s1.applicationConnection.connected = false :=
  (ok_of_map (x := loop (jsonEnv receiverTextEmptySession receiverDocEmptySession) 10
      reportState) (f := fun r => (r.1, r.2.client.connected))
      (b := (CONNECT_TO_APPLICATION, true)) (by decide)).elim
    (fun r h =>
      have e1 : r.1 = CONNECT_TO_APPLICATION := congrArg Prod.fst h.2
      have e2 : r.2.client.connected = true := congrArg Prod.snd h.2
      have e : loop (jsonEnv receiverTextEmptySession receiverDocEmptySession) 10 reportState
          = .ok (CONNECT_TO_APPLICATION, r.2) := by
        rw [h.1, ← e1]
      ⟨r.2, e, e2,
        ((C19_connect_to_application_from_report
          (jsonEnv receiverTextEmptySession receiverDocEmptySession) 10 reportState).1
          r.2 e).2.1,
        ((C19_connect_to_application_from_report
          (jsonEnv receiverTextEmptySession receiverDocEmptySession) 10 reportState).1
          r.2 e).2.2 e2⟩)

/-! ## C22: `pbDecodeHeader` -/

/-- The tag and wire type of a header byte put together give the byte back. -/
theorem header_byte_split (b0 : Nat) : 8 * (b0 >>> 3) + (b0 &&& 0x07) = b0 := by
  have h1 : b0 >>> 3 = b0 / 8 := by
    rw [Nat.shiftRight_eq_div_pow]
  have h2 : b0 &&& 0x07 = b0 % 8 := Nat.and_pow_two_sub_one_eq_mod b0 3
  rw [h1, h2]
  omega

set_option maxRecDepth 100000 in
/-- C22 (counterexample): in `wrapBufferZero` the header byte at index 130 is followed by
129 bytes with the top bit set and then by the byte `01`, so that the byte count of the
claim is 1 + 130 = 131.  After the 128th of these bytes the `int8_t` counter of
`pbDecodeVarint` goes from 127 to -128 and the loop reads `bufferStart[-128]`, the zero
byte at index 3: the varint call returns 129 and `pbDecodeHeader` returns 130, with
`lengthOrValue = 0`.  In `wrapBuffer` 128 such bytes and the byte `01` follow the header
(the count of the claim is 1 + 129 = 130) and the bytes at the indices 3 and 4 are `80` and
`05`: the loop reads both after the wrap, the varint call returns 130 and `pbDecodeHeader`
returns 131, with `lengthOrValue = 5`. -/
theorem C22_int8_counter_wraps_counterexample :
    (wrapBufferZero.drop 130 = 0x0A :: (List.replicate 129 0x80 ++ [0x01])
      ∧ 1 + countBySpec (wrapBufferZero.drop 131) = 131
      ∧ wrapBufferZero.get? 3 = some 0
      ∧ pbDecodeVarint wrapBufferZero 131 = .ok (0, 129)
      ∧ pbDecodeHeader wrapBufferZero 130
          = .ok { tag := 1, wire := 2, lengthOrValue := 0, processedBytes := 130 })
    ∧ (wrapBuffer.drop 130 = 0x0A :: (List.replicate 128 0x80 ++ [0x01])
      ∧ 1 + countBySpec (wrapBuffer.drop 131) = 130
      ∧ pbDecodeVarint wrapBuffer 131 = .ok (5, 130)
      ∧ pbDecodeHeader wrapBuffer 130
          = .ok { tag := 1, wire := 2, lengthOrValue := 5, processedBytes := 131 }) := by
  refine ⟨⟨by decide, by decide, by decide, by decide, by decide⟩,
    ⟨by decide, by decide, by decide, by decide⟩⟩

/-- The byte count of the specification for a varint made of the bytes `pre` (top bit set)
and `last` (top bit clear). -/
theorem countBySpec_run (pre : List Nat) (last : Nat) (rest : List Nat)
    (hpre : ∀ b ∈ pre, b &&& 0x80 ≠ 0) (hlast : last &&& 0x80 = 0) :
    countBySpec (pre ++ last :: rest) = pre.length + 1 := by
  unfold countBySpec
  induction pre with
  | nil => simp [hlast]
  | cons p ps ih =>
    have hp : p &&& 0x80 ≠ 0 := hpre p (List.mem_cons_self _ _)
    have := ih (fun b hb => hpre b (List.mem_cons_of_mem _ hb))
    simp only [List.cons_append, List.length_cons] at this ⊢
    rw [List.takeWhile_cons_of_pos (by simpa using hp)]
    simpa using this

/-- C22 (amended): at a buffer position holding the byte `b0` followed by a varint (`pre`,
all with the top bit set, fewer than 128 of them, then `last` with the top bit clear),
`pbDecodeHeader` returns `tag = b0 >> 3` and `wire = b0 & 7`, so that `8 * tag + wire = b0`;
`lengthOrValue` is what `pbDecodeVarint` returns at the next byte; and the returned byte
count is 1 plus the number of bytes up to and including `last` (the first following byte
with a clear top bit), which is at least 2. -/
theorem C22_pbDecodeHeader_fields (buf : List Nat) (start b0 : Nat) (pre : List Nat)
    (last : Nat) (rest : List Nat) (hpre : ∀ b ∈ pre, b &&& 0x80 ≠ 0)
    (hlast : last &&& 0x80 = 0) (hlen : pre.length < 128)
    (hdrop : buf.drop start = b0 :: (pre ++ last :: rest)) :
    ∃ h, pbDecodeHeader buf start = .ok h
      ∧ h.tag = b0 >>> 3 ∧ h.wire = b0 &&& 0x07 ∧ 8 * h.tag + h.wire = b0
      ∧ pbDecodeVarint buf (start + 1) = .ok (h.lengthOrValue, pre.length + 1)
      ∧ h.processedBytes = 1 + (pre.length + 1) ∧ 2 ≤ h.processedBytes
      ∧ h.processedBytes = 1 + countBySpec (buf.drop (start + 1)) := by
  have hget : buf.get? start = some b0 := by
    have := congrArg List.head? hdrop
    rw [List.head?_drop] at this
    simpa using this
  have hdrop1 : buf.drop (start + 1) = pre ++ last :: rest := by
    have := congrArg List.tail hdrop
    rw [List.tail_drop] at this
    simpa using this
  have hv := pbDecodeVarint_groups buf (start + 1) pre last rest hpre hlast hlen hdrop1
  have hw : wrap8 (1 + (pre.length + 1)) = 1 + (pre.length + 1) := by
    unfold wrap8
    omega
  refine ⟨{ tag := b0 >>> 3, wire := b0 &&& 0x07,
            lengthOrValue := groupsFirstByteHigh (pre ++ [last]) 0,
            processedBytes := 1 + (pre.length + 1) }, ?_, rfl, rfl, header_byte_split b0, hv,
    rfl, by dsimp only; omega,
    by dsimp only; rw [hdrop1, countBySpec_run pre last rest hpre hlast]⟩
  unfold pbDecodeHeader
  rw [hget]
  dsimp only
  rw [hv]
  dsimp only
  rw [hw]

/-- C22 (amended) at a concrete buffer: the bytes `0A 81 02` (tag 1, wire 2, a two-byte varint) at
position 4 give tag 1, wire 2 and 3 consumed bytes. -/
theorem C22_pbDecodeHeader_fields_witness :
    ∃ h, pbDecodeHeader [0, 0, 0, 3, 10, 129, 2, 7] 4 = .ok h
      ∧ h.tag = 1 ∧ h.wire = 2 ∧ h.processedBytes = 3 :=
  (C22_pbDecodeHeader_fields [0, 0, 0, 3, 10, 129, 2, 7] 4 10 [129] 2 [7]
    (by decide) (by decide) (by decide) rfl).elim
    (fun h hh => ⟨h, hh.1, hh.2.1, hh.2.2.1, hh.2.2.2.2.2.1⟩)

/-! ## C24: a disconnected channel stays disconnected -/

/-- With the latch false `getConnectionStatus` returns Disconnected and changes nothing. -/
theorem getConnectionStatus_latch_false (ch : ArduCastConnection) (c : WiFiClientSecure)
    (t : Nat) (h : ch.connected = false) :
    ch.getConnectionStatus c t = (CH_DISCONNECTED, ch) := by
  unfold ArduCastConnection.getConnectionStatus
  simp [h]

/-- A result that is not a fault. -/
theorem ok_of_toBool {ε α : Type} {x : Except ε α} (h : x.toBool = true) :
    ∃ r, x = .ok r := by
  cases x with
  | error e => cases h
  | ok r => exact ⟨r, rfl⟩

/-- Calls other than `connect` keep a false latch false, and every status query in between
answers Disconnected. -/
theorem channelRun_latch_false (env : Env) :
    ∀ (calls : List ChannelCall) (ch : ArduCastConnection) (c : WiFiClientSecure)
      (b : List Nat) (r : List channelConnection_t × ArduCastConnection),
      ch.connected = false → channelRun env calls ch c b = .ok r →
      r.2.connected = false ∧ ∀ st ∈ r.1, st = CH_DISCONNECTED := by
  intro calls
  induction calls with
  | nil =>
    intro ch c b r hl h
    cases h
    exact ⟨hl, fun st hst => by cases hst⟩
  | cons call cs ih =>
    intro ch c b r hl h
    cases call with
    | pinged t =>
      unfold channelRun at h
      exact ih (ch.pinged t) c b r hl h
    | setDisconnect =>
      unfold channelRun at h
      exact ih ch.setDisconnect c b r rfl h
    | writeMsg ns p =>
      unfold channelRun at h
      split at h
      · cases h
      · exact ih ch _ _ r hl h
    | getConnectionStatus t =>
      unfold channelRun at h
      rw [getConnectionStatus_latch_false ch c t hl] at h
      dsimp only at h
      split at h
      · cases h
      · rename_i r1 e1
        cases h
        obtain ⟨i1, i2⟩ := ih ch c b r1 hl e1
        refine ⟨i1, fun st hst => ?_⟩
        rcases List.mem_cons.mp hst with e | e
        · exact e
        · exact i2 st e
    | transport c1 =>
      unfold channelRun at h
      exact ih ch c1 b r hl h

/-- `writeMsg` returns whenever the stored destination id is NUL-terminated. -/
theorem writeMsg_total (env : Env) (ch : ArduCastConnection) (client : WiFiClientSecure)
    (buf ns payload : List Nat) (d : List Nat) (hd : cstr ch.destId = .ok d) :
    ∃ r, ch.writeMsg env client buf ns payload = .ok r := by
  unfold ArduCastConnection.writeMsg
  split
  · exact ⟨_, rfl⟩
  · rw [hd]
    dsimp only
    split
    · exact ⟨_, rfl⟩
    · split <;> exact ⟨_, rfl⟩

/-- The status query keeps the destination id. -/
theorem getConnectionStatus_destId (ch : ArduCastConnection) (c : WiFiClientSecure) (t : Nat) :
    (ch.getConnectionStatus c t).2.destId = ch.destId := by
  unfold ArduCastConnection.getConnectionStatus
  split
  · rfl
  · split
    · rfl
    · split <;> rfl

/-- Calls other than `connect` on a channel whose destination id is NUL-terminated all
return. -/
theorem channelRun_total (env : Env) :
    ∀ (calls : List ChannelCall) (ch : ArduCastConnection) (c : WiFiClientSecure)
      (b : List Nat) (d : List Nat),
      cstr ch.destId = .ok d → ∃ r, channelRun env calls ch c b = .ok r := by
  intro calls
  induction calls with
  | nil => intro ch c b d _; exact ⟨_, rfl⟩
  | cons call cs ih =>
    intro ch c b d hd
    cases call with
    | pinged t =>
      unfold channelRun
      exact ih (ch.pinged t) c b d hd
    | setDisconnect =>
      unfold channelRun
      exact ih ch.setDisconnect c b d hd
    | writeMsg ns p =>
      unfold channelRun
      obtain ⟨r, hr⟩ := writeMsg_total env ch c b ns p d hd
      rw [hr]
      exact ih ch _ _ d hd
    | getConnectionStatus t =>
      unfold channelRun
      obtain ⟨r, hr⟩ := ih (ch.getConnectionStatus c t).2 c b d
        (by rw [getConnectionStatus_destId]; exact hd)
      rw [hr]
      exact ⟨_, rfl⟩
    | transport c1 =>
      unfold channelRun
      exact ih ch c1 b d hd

/-- The dead-threshold branch of `getConnectionStatus` as the code tests it (live
transport, latch set, `lastMsgAt + 3 * keepAlive` in 32 bits below the clock): the call
returns Disconnected and clears the latch; in every other case it changes no field. -/
theorem getConnectionStatus_dead_branch (ch : ArduCastConnection)
    (client : WiFiClientSecure) (t : Nat) :
    (client.connected = true → ch.connected = true →
      wrap32 (ch.lastMsgAt + 3 * ch.keepAlive) < t →
      ch.getConnectionStatus client t = (CH_DISCONNECTED, { ch with connected := false }))
    ∧ (¬ (client.connected = true ∧ ch.connected = true
          ∧ wrap32 (ch.lastMsgAt + 3 * ch.keepAlive) < t) →
      (ch.getConnectionStatus client t).2 = ch) := by
  refine ⟨fun hc hl ht => ?_, fun hn => ?_⟩
  · unfold ArduCastConnection.getConnectionStatus
    simp [hc, hl, ht]
  · unfold ArduCastConnection.getConnectionStatus
    split
    · rfl
    · rename_i h1
      split
      · rename_i h2
        exfalso
        apply hn
        simp only [Bool.or_eq_true, Bool.not_eq_true', not_or, Bool.not_eq_false] at h1
        exact ⟨h1.1, h1.2, h2⟩
      · split <;> rfl

/-- C24 (the code at the failing input): a channel with a live transport, latch set and
last activity at clock value 4294000000, asked at clock value 100 (the 32-bit clock has
wrapped; 967396 ms have passed, more than three ping intervals of 5000 ms).  The elapsed
time is above the dead threshold, but `getConnectionStatus` compares
`lastMsgAt + 3 * keepAlive = 4294015000` with the clock: it returns Connected and leaves
the latch set, where the rule of the specification gives Disconnected. -/
theorem C24_dead_threshold_missed_after_clock_wrap :
    sub32 100 4294000000 = 967396 ∧ 3 * PING_TIMEOUT < sub32 100 4294000000
    ∧ wrap32 (4294000000 + 3 * PING_TIMEOUT) = 4294015000
    ∧ (demoChannel CC_MAIN_DESTIID 4294000000 true).getConnectionStatus liveClient 100
      = (CH_CONNECTED, demoChannel CC_MAIN_DESTIID 4294000000 true)
    ∧ ((demoChannel CC_MAIN_DESTIID 4294000000 true).getConnectionStatus liveClient
        100).2.connected = true
    ∧ statusBySpec true true 4294000000 PING_TIMEOUT 100 = CH_DISCONNECTED := by
  decide

/-- What holds of the claim C24.  As long as neither the deadline
`lastMsgAt + 3 * keepAlive` nor the clock has passed 2^32 since the last activity
(`lastMsgAt ≤ t < 2^32`), the elapsed time is `t - lastMsgAt`, and a `getConnectionStatus`
with a live transport and the latch set that finds it above three ping intervals returns
Disconnected and clears the latch, while in every other case it changes no field of the
channel.  From a channel whose latch is false, under every sequence of `pinged`,
`setDisconnect`, `writeMsg` and `getConnectionStatus` calls at any clock values and with any
transport, every `getConnectionStatus` returns Disconnected and the latch is false at the
end; the calls all return when the destination id is NUL-terminated. -/
theorem channel_disconnected_until_connect (env : Env) (ch : ArduCastConnection)
    (client : WiFiClientSecure) (t : Nat) :
    (ch.lastMsgAt + 3 * ch.keepAlive < 4294967296 → ch.lastMsgAt ≤ t → t < 4294967296 →
      sub32 t ch.lastMsgAt = t - ch.lastMsgAt
      ∧ (client.connected = true → ch.connected = true →
          3 * ch.keepAlive < sub32 t ch.lastMsgAt →
          ch.getConnectionStatus client t = (CH_DISCONNECTED, { ch with connected := false }))
      ∧ (¬ (client.connected = true ∧ ch.connected = true
            ∧ 3 * ch.keepAlive < sub32 t ch.lastMsgAt) →
          (ch.getConnectionStatus client t).2 = ch))
    ∧ (ch.connected = false →
      ∀ (calls : List ChannelCall) (buf : List Nat),
        (∀ r, channelRun env calls ch client buf = .ok r →
          r.2.connected = false ∧ ∀ st ∈ r.1, st = CH_DISCONNECTED)
        ∧ (∀ d, cstr ch.destId = .ok d → ∃ r, channelRun env calls ch client buf = .ok r)) := by
  refine ⟨fun hk hle ht => ?_, fun hl calls buf =>
    ⟨fun r h => channelRun_latch_false env calls ch client buf r hl h,
     fun d hd => channelRun_total env calls ch client buf d hd⟩⟩
  have e1 : wrap32 (ch.lastMsgAt + 3 * ch.keepAlive) = ch.lastMsgAt + 3 * ch.keepAlive := by
    simp only [wrap32]; omega
  have e3 : sub32 t ch.lastMsgAt = t - ch.lastMsgAt := by
    simp only [sub32, wrap32]; omega
  have hb := getConnectionStatus_dead_branch ch client t
  rw [e1] at hb
  rw [e3]
  refine ⟨rfl, fun hc hcl hel => hb.1 hc hcl (by omega), fun hn => hb.2 (fun h => hn ?_)⟩
  exact ⟨h.1, h.2.1, by omega⟩

set_option maxRecDepth 100000 in
/-- The terminal state at a concrete channel: a channel to `receiver-0` with the latch set
and last activity at 1000, asked at 16001 (15001 ms later), is reported Disconnected and
loses its latch; the same channel with the latch false, pinged at 5, queried at 6, used for
a PING, disconnected and queried at 100, answers Disconnected both times and ends with the
latch false. -/
theorem channel_disconnected_until_connect_example :
    (demoChannel CC_MAIN_DESTIID 1000 true).getConnectionStatus liveClient 16001
      = (CH_DISCONNECTED, demoChannel CC_MAIN_DESTIID 1000 false)
    ∧ ∃ r, channelRun demoEnv
        [.pinged 5, .getConnectionStatus 6, .writeMsg CC_NS_HEARTBEAT CC_MSG_PING,
         .setDisconnect, .getConnectionStatus 100]
        (demoChannel CC_MAIN_DESTIID 0 false) liveClient (List.replicate CONNBUFFER_SIZE 0) = .ok r
      ∧ r.2.connected = false ∧ ∀ st ∈ r.1, st = CH_DISCONNECTED :=
  ⟨((channel_disconnected_until_connect demoEnv (demoChannel CC_MAIN_DESTIID 1000 true)
      liveClient 16001).1 (by decide) (by decide) (by decide)).2.1 rfl rfl (by decide),
   (((channel_disconnected_until_connect demoEnv (demoChannel CC_MAIN_DESTIID 0 false)
      liveClient 0).2 rfl
      [.pinged 5, .getConnectionStatus 6, .writeMsg CC_NS_HEARTBEAT CC_MSG_PING,
         .setDisconnect, .getConnectionStatus 100] (List.replicate CONNBUFFER_SIZE 0)).2
      (bytes "receiver-0") (by decide)).elim
    (fun r h => ⟨r, h,
      ((channel_disconnected_until_connect demoEnv (demoChannel CC_MAIN_DESTIID 0 false)
        liveClient 0).2 rfl _ _).1 r h⟩)⟩

/-! ## C25: the outstanding-request latch after a send -/

set_option maxRecDepth 100000 in
/-- C25 (counterexample): with CONNECT_TO_APPLICATION stored, `loop()` performs the
application connect handshake, whose write succeeds (`err = 0`, one message written, stored
status promoted to CONNECTED); the latch `msgSent` is false afterwards and the call returns
APPLICATION_RUNNING, not WAIT_FOR_RESPONSE. -/
theorem C25_application_connect_counterexample :
    sendCode demoEnv ctaState = .ok 0
    ∧ (loop demoEnv 10 ctaState).map
        (fun r => (r.1, r.2.msgSent, r.2.connectionStatus, r.2.client.writes.length))
      = .ok (APPLICATION_RUNNING, false, CONNECTED, 1) := by
  decide

theorem devWriteMsg_latch (env : Env) (s : ArduCastControl) (ns payload : List Nat)
    (x : Int × ArduCastControl) (h : devWriteMsg env s ns payload = .ok x) :
    x.2.msgSent = s.msgSent ∧ x.2.millis = s.millis
    ∧ x.2.connectionStatus = s.connectionStatus := by
  unfold devWriteMsg at h
  split at h
  · cases h
  · cases h
    exact ⟨rfl, rfl, rfl⟩

theorem appWriteMsg_latch (env : Env) (s : ArduCastControl) (ns payload : List Nat)
    (x : Int × ArduCastControl) (h : appWriteMsg env s ns payload = .ok x) :
    x.2.msgSent = s.msgSent ∧ x.2.millis = s.millis
    ∧ x.2.connectionStatus = s.connectionStatus := by
  unfold appWriteMsg at h
  split at h
  · cases h
  · cases h
    exact ⟨rfl, rfl, rfl⟩

/-- The statement `if (err == 0) { msgSentAt = millis(); msgSent = true; }` behind a send
that ran with the latch clear at clock value `t`. -/
theorem sendAndMark_latch (w : Except Fault (Int × ArduCastControl)) (t : Nat)
    (s1 : ArduCastControl) (err : Int)
    (hw : ∀ x, w = .ok x → x.2.msgSent = false ∧ x.2.millis = t)
    (h : sendAndMark w = .ok s1) (hc : w.map Prod.fst = .ok err) :
    (err = 0 → s1.msgSent = true ∧ s1.msgSentAt = t ∧ (getConnection s1).1 = WAIT_FOR_RESPONSE)
    ∧ (err ≠ 0 → s1.msgSent = false) := by
  cases w with
  | error e => cases h
  | ok x =>
    obtain ⟨m1, m2⟩ := hw x rfl
    have he : x.1 = err := by
      simp only [Except.map] at hc
      cases hc
      rfl
    unfold sendAndMark markSent at h
    dsimp only at h
    constructor
    · intro h0
      rw [if_pos (he.trans h0)] at h
      cases h
      refine ⟨rfl, m2, ?_⟩
      unfold getConnection
      rfl
    · intro h0
      rw [if_neg (fun hx => h0 (he.symm.trans hx))] at h
      cases h
      exact m1
/-- C25 (amended): the priority chain of `loop()` entered with the latch clear (the code
clears it just before), ending in `s1` with the result code `err` of its one call.  With a
stored status other than CONNECT_TO_APPLICATION (priorities 2 to 5): if the write succeeded
(`err = 0`), `msgSent` is true, `msgSentAt` is the send time and `getConnection()` returns
WAIT_FOR_RESPONSE; if it failed, `msgSent` is false.  With CONNECT_TO_APPLICATION stored
(priority 1, the application connect handshake): `msgSent` is false whatever the result
code, and a success promotes the stored status to CONNECTED. -/
theorem C25_send_sets_latch_except_application_connect (env : Env)
    (s s1 : ArduCastControl) (err : Int) (hm : s.msgSent = false)
    (h : sendNext env s = .ok s1) (hc : sendCode env s = .ok err) :
    (s.connectionStatus ≠ CONNECT_TO_APPLICATION →
      (err = 0 → s1.msgSent = true ∧ s1.msgSentAt = s.millis
        ∧ (getConnection s1).1 = WAIT_FOR_RESPONSE)
      ∧ (err ≠ 0 → s1.msgSent = false))
    ∧ (s.connectionStatus = CONNECT_TO_APPLICATION →
      s1.msgSent = false ∧ (err = 0 → s1.connectionStatus = CONNECTED)) := by
  have kd : ∀ (z : ArduCastControl) (ns p : List Nat), z.msgSent = false →
      z.millis = s.millis →
      ∀ x, devWriteMsg env z ns p = .ok x → x.2.msgSent = false ∧ x.2.millis = s.millis := by
    intro z ns p hz ht x hx
    obtain ⟨a, b, _⟩ := devWriteMsg_latch env z ns p x hx
    exact ⟨a.trans hz, b.trans ht⟩
  have ka : ∀ (z : ArduCastControl) (ns p : List Nat), z.msgSent = false →
      z.millis = s.millis →
      ∀ x, appWriteMsg env z ns p = .ok x → x.2.msgSent = false ∧ x.2.millis = s.millis := by
    intro z ns p hz ht x hx
    obtain ⟨a, b, _⟩ := appWriteMsg_latch env z ns p x hx
    exact ⟨a.trans hz, b.trans ht⟩
  unfold sendNext at h
  unfold sendCode at hc
  constructor
  · intro hcta
    rw [if_neg hcta] at h hc
    by_cases h2 : (appStatus s).1 = CH_DISCONNECTED
    · rw [if_pos h2] at h hc
      exact sendAndMark_latch _ s.millis s1 err (kd (appStatus s).2 _ _ hm rfl) h hc
    · rw [if_neg h2] at h hc
      by_cases h3 : (devStatus (appStatus s).2).1 = CH_NEEDS_PING
      · rw [if_pos h3] at h hc
        exact sendAndMark_latch _ s.millis s1 err
          (kd (devStatus (appStatus s).2).2 _ _ hm rfl) h hc
      · rw [if_neg h3] at h hc
        by_cases h4 : (appStatus (devStatus (appStatus s).2).2).1 = CH_CONNECTED
        · rw [if_pos h4] at h hc
          exact sendAndMark_latch _ s.millis s1 err
            (ka (appStatus (devStatus (appStatus s).2).2).2 _ _ hm rfl) h hc
        · rw [if_neg h4] at h hc
          have e4 : (appStatus (devStatus (appStatus s).2).2).1 = (appStatus s).1 :=
            getConnectionStatus_idem _ _ _
          have e5 : (appStatus (appStatus (devStatus (appStatus s).2).2).2).1
              = (appStatus s).1 :=
            (getConnectionStatus_idem _ _ _).trans (getConnectionStatus_idem _ _ _)
          have h5 : (appStatus (appStatus (devStatus (appStatus s).2).2).2).1
              = CH_NEEDS_PING := by
            rw [e5]
            rw [e4] at h4
            rcases channel_status_cases (appStatus s).1 with hh | hh | hh
            · exact absurd hh h2
            · exact hh
            · exact absurd hh h4
          rw [if_pos h5] at h hc
          exact sendAndMark_latch _ s.millis s1 err
            (ka (appStatus (appStatus (devStatus (appStatus s).2).2).2).2 _ _ hm rfl) h hc
  · intro hcta
    rw [if_pos hcta] at h hc
    cases hr : appConnect env s s.sessionId with
    | error e => rw [hr] at h; cases h
    | ok r =>
      rw [hr] at h hc
      have he : r.1 = err := by
        simp only [Except.map] at hc
        cases hc
        rfl
      have hms : r.2.msgSent = false := by
        unfold appConnect at hr
        split at hr
        · cases hr
        · cases hr
          exact hm
      dsimp only at h
      cases h
      constructor
      · split
        · exact hms
        · exact hms
      · intro h0
        rw [if_pos (he.trans h0)]

set_option maxRecDepth 100000 in
/-- C25 (amended) at a concrete state: in `demoState` (stored status CONNECTED, application
channel disconnected) the chain sends the device GET_STATUS with result code 0, and the
latch is set with the send time 0. -/
theorem C25_send_sets_latch_except_application_connect_witness :
    ∃ s1, sendNext demoEnv demoState = .ok s1 ∧ s1.msgSent = true ∧ s1.msgSentAt = 0
      ∧ (getConnection s1).1 = WAIT_FOR_RESPONSE :=
  (ok_of_toBool (x := sendNext demoEnv demoState) (by decide)).elim
    (fun s1 h => ⟨s1, h,
      ((C25_send_sets_latch_except_application_connect demoEnv demoState s1 0 rfl h
        (by decide)).1 (by decide)).1 rfl⟩)

/-! ## C26: termination of the field scan -/

/-- A length-delimited field at offset 4 whose header takes 6 bytes and whose decoded length
is 4294967290 brings the 32-bit offset back to 4: the scan runs out of every budget. -/
theorem scanLoop_stuck (env : Env) (read : Nat) (s : ArduCastControl) (tag : Nat)
    (hh : pbDecodeHeader s.connBuffer 4 = .ok ⟨tag, 2, 4294967290, 6⟩)
    (ht1 : tag ≠ env.source_id_tag) (ht2 : tag ≠ env.namespace_fix_tag) (hread : 4 < read) :
    ∀ fuel, scanLoop env read fuel s 4 0 = .error .fuel := by
  have hstep : scanStep env s 4 0 = .ok (s, 4, 0) := by
    rw [scanStep_eq_fieldStep, hh]
    dsimp only
    rw [(fieldStep_quiet env s _ ⟨tag, 2, 4294967290, 6⟩ ht1).2 ht2]
    rfl
  intro fuel
  induction fuel with
  | zero => rfl
  | succ f ih =>
    unfold scanLoop
    rw [hstep]
    dsimp only
    rw [if_pos hread]
    exact ih

set_option maxRecDepth 100000 in
/-- C26 (the code at the failing input): the frame `00 00 00 06 0A FF FF FF FF 7A` is
returned by the frame reader with `read = 10`.  The scan decodes at offset 4 a
length-delimited field with a 6-byte header and the length 4294967290, so `offset` becomes
10 and then, in 32-bit arithmetic, 4 again: the state and the offset after the pass are
those before it, the test `offset < read` holds, and the scan, and with it `loop()`, runs
out of every budget of passes. -/
theorem C26_scan_offset_wraps_and_repeats :
    (received (deliver loopFrame demoState)).1 = 10
    ∧ scanStep demoEnv (received (deliver loopFrame demoState)).2 4 0
        = .ok ((received (deliver loopFrame demoState)).2, 4, 0)
    ∧ (∀ fuel, scanLoop demoEnv 10 fuel (received (deliver loopFrame demoState)).2 4 0
        = .error .fuel)
    ∧ (∀ fuel, loop demoEnv fuel (deliver loopFrame demoState) = .error .fuel) := by
  have hh : pbDecodeHeader (received (deliver loopFrame demoState)).2.connBuffer 4
      = .ok ⟨1, 2, 4294967290, 6⟩ := by decide
  have hq := (fieldStep_quiet demoEnv (received (deliver loopFrame demoState)).2 10
    ⟨1, 2, 4294967290, 6⟩ (by decide)).2 (by decide)
  have hstuck := scanLoop_stuck demoEnv 10 (received (deliver loopFrame demoState)).2 1 hh
    (by decide) (by decide) (by decide)
  refine ⟨by decide, ?_, hstuck, ?_⟩
  · rw [scanStep_eq_fieldStep, hh]
    dsimp only
    have e10 : wrap32 (4 + 6) = 10 := by decide
    rw [e10, hq]
    rfl
  · intro fuel
    cases fuel with
    | zero => rfl
    | succ f =>
      have hr : 0 < (readFrame (deliver loopFrame demoState)).1 := by decide
      unfold loop
      have hc : (!(deliver loopFrame demoState).client.connected) = false := by decide
      rw [hc]
      simp only [Bool.false_eq_true, if_false]
      unfold rxLoop
      dsimp only
      rw [if_pos hr]
      have h10 : (readFrame (deliver loopFrame demoState)).1 = 10 := by decide
      rw [h10]
      have := hstuck (f + 1)
      unfold received at this
      dsimp only at this
      rw [this]

/-! ## C27: attribution by `source_id` -/

set_option maxRecDepth 100000 in
/-- C27 (the code at the failing inputs): a receiver status frame whose `source_id` is
`rec`, a proper prefix of `receiver-0`, scanned at clock value 7000 in `demoState` (device
channel last pinged at 0, stored status CONNECTED, empty `sessionId`), resets the device
channel's timer and is interpreted as a receiver status: `lastMsgAt = 7000`,
CONNECT_TO_APPLICATION stored, `sessionId = abc`.  The same frame with an empty `source_id`
does the same.  A media status frame whose `source_id` is `a`, a proper prefix of the
application channel's destination id `abc`, scanned at clock value 100, resets the
application channel's timer and sets `mediaSessionId = 8`. -/
theorem C27_prefix_source_id_is_attributed :
    (scanLoop (jsonEnv receiverTextSession receiverDocSession) 136 10
        (loadedAt 7000 (castFrame (bytes "rec") CC_NS_RECEIVER receiverTextSession) demoState)
        4 0).map (fun s => (s.deviceConnection.lastMsgAt, s.connectionStatus, cstr s.sessionId))
      = .ok (7000, CONNECT_TO_APPLICATION, .ok (bytes "abc"))
    ∧ (scanLoop (jsonEnv receiverTextSession receiverDocSession) 133 10
        (loadedAt 7000 (castFrame [] CC_NS_RECEIVER receiverTextSession) demoState)
        4 0).map (fun s => (s.deviceConnection.lastMsgAt, s.connectionStatus, cstr s.sessionId))
      = .ok (7000, CONNECT_TO_APPLICATION, .ok (bytes "abc"))
    ∧ (scanLoop (jsonEnv mediaTextNoMedia mediaDocNoMedia) 153 10
        (loadedAt 100 (castFrame (bytes "a") CC_NS_MEDIA mediaTextNoMedia) appState)
        4 0).map (fun s => (s.applicationConnection.lastMsgAt, s.mediaSessionId))
      = .ok (100, 8) := by
  decide

/-! ## C28: termination of the cached texts -/

set_option maxRecDepth 100000 in
/-- C28 (the code at the failing inputs): a receiver status that reports a session id of 49
bytes `a` leaves `sessionId` as these 49 bytes followed by a line feed: the 50 bytes hold no
NUL, and reading the member as a C string runs behind it.  A reported session id of 60
bytes leaves the same 50 bytes, and a media status that reports a title of 49 bytes does
the same to `title`. -/
theorem C28_long_text_is_left_unterminated :
    (payloadField (docEnv (receiverDocSessionOf (List.replicate 49 97))) namedState 0 0 1).map
        (fun s => (s.sessionId, cstr s.sessionId))
      = .ok (List.replicate 49 97 ++ [10], .error .outOfRange)
    ∧ (payloadField (docEnv (receiverDocSessionOf (List.replicate 60 97))) namedState 0 0 1).map
        (fun s => (s.sessionId, cstr s.sessionId))
      = .ok (List.replicate 49 97 ++ [10], .error .outOfRange)
    ∧ (payloadField (docEnv (mediaDocTitleOf (List.replicate 49 97))) namedState 0 0 2).map
        (fun s => (s.title, cstr s.title))
      = .ok (List.replicate 49 97 ++ [10], .error .outOfRange) := by
  decide

/-! ## C29: the value returned by `loop()` and `getConnection()` -/

/-- Asking `getConnection()` twice at the same clock value gives the same answer. -/
theorem getConnection_idem (s : ArduCastControl) :
    (getConnection (getConnection s).2).1 = (getConnection s).1 := by
  have e : (appStatus (appStatus s).2).1 = (appStatus s).1 := getConnectionStatus_idem _ _ _
  by_cases hm : s.msgSent = true
  · have e1 : getConnection s = (WAIT_FOR_RESPONSE, s) := by
      unfold getConnection
      rw [if_pos hm]
    rw [e1]
    show (getConnection s).1 = WAIT_FOR_RESPONSE
    rw [e1]
  · have hm2 : ¬ (appStatus s).2.msgSent = true := hm
    by_cases hd : (appStatus s).1 = CH_DISCONNECTED
    · have e1 : getConnection s = ((appStatus s).2.connectionStatus, (appStatus s).2) := by
        unfold getConnection
        rw [if_neg hm, if_pos hd]
      have e2 : getConnection (appStatus s).2
          = ((appStatus (appStatus s).2).2.connectionStatus, (appStatus (appStatus s).2).2) := by
        unfold getConnection
        rw [if_neg hm2, if_pos (e.trans hd)]
      rw [e1]
      show (getConnection (appStatus s).2).1 = (appStatus s).2.connectionStatus
      rw [e2]
      rfl
    · have e1 : getConnection s = (APPLICATION_RUNNING, (appStatus s).2) := by
        unfold getConnection
        rw [if_neg hm, if_neg hd]
      have e2 : getConnection (appStatus s).2
          = (APPLICATION_RUNNING, (appStatus (appStatus s).2).2) := by
        unfold getConnection
        rw [if_neg hm2, if_neg (fun hx => hd (e.symm.trans hx))]
      rw [e1]
      show (getConnection (appStatus s).2).1 = APPLICATION_RUNNING
      rw [e2]

/-- With the transport down and no request outstanding `getConnection()` answers the stored
status. -/
theorem getConnection_down (s : ArduCastControl) (hc : s.client.connected = false)
    (hm : s.msgSent = false) : (getConnection s).1 = s.connectionStatus := by
  unfold getConnection
  rw [hm]
  simp only [Bool.false_eq_true, if_false]
  have hd : (appStatus s).1 = CH_DISCONNECTED := by
    unfold appStatus ArduCastConnection.getConnectionStatus
    simp [hc]
  rw [if_pos hd]
  rfl

/-- Outside the case of a transport found down with a request outstanding, `loop()`
returns what `getConnection()` answers right afterwards. -/
theorem loop_then_getConnection (env : Env) (fuel : Nat) (s s1 : ArduCastControl)
    (r : connection_t) (h : loop env fuel s = .ok (r, s1))
    (hn : ¬ (s.client.connected = false ∧ s.msgSent = true)) :
    (getConnection s1).1 = r := by
  unfold loop at h
  split at h
  · rename_i hc
    have hc' : s.client.connected = false := by simpa using hc
    have hm : s.msgSent = false := by
      cases hms : s.msgSent
      · rfl
      · exact absurd ⟨hc', hms⟩ hn
    cases h
    exact getConnection_down _ rfl hm
  · split at h
    · cases h
    · rename_i rxp s2 erx
      unfold txPhase at h
      split at h
      · dsimp only at h
        generalize (if s2.msgSent = true then wrap8 (s2.errorCount + 255)
          else s2.errorCount) = ec at h
        by_cases hdead : (s2.msgSent && ec == 0) = true
        · rw [if_pos hdead] at h
          cases h
          exact getConnection_down _ rfl rfl
        · rw [if_neg hdead] at h
          split at h
          · cases h
          · rename_i s3 e3
            have hg : getConnection s3 = (r, s1) := Except.ok.inj h
            have h1 : (getConnection s3).1 = r := by rw [hg]
            have h2 : (getConnection s3).2 = s1 := by rw [hg]
            rw [← h2, ← h1]
            exact getConnection_idem s3
      · have hg : getConnection s2 = (r, s1) := Except.ok.inj h
        have h1 : (getConnection s2).1 = r := by rw [hg]
        have h2 : (getConnection s2).2 = s1 := by rw [hg]
        rw [← h2, ← h1]
        exact getConnection_idem s2

set_option maxRecDepth 100000 in
/-- C29 (the code at the failing input): with a request outstanding and the transport down,
`loop()` closes the transport, stores DISCONNECTED and returns DISCONNECTED without
clearing `msgSent`; `getConnection()` right afterwards returns WAIT_FOR_RESPONSE. -/
theorem C29_transport_down_leaves_latch :
    (loop demoEnv 10 droppedState).map
        (fun r => (r.1, r.2.connectionStatus, r.2.msgSent, (getConnection r.2).1))
      = .ok (DISCONNECTED, DISCONNECTED, true, WAIT_FOR_RESPONSE) := by
  decide

/-! ## Copies of short strings -/

/-- The bytes before the first NUL of a string followed by NUL. -/
theorem takeWhile_nonzero_append (str rest : List Nat) (h : ∀ c ∈ str, c ≠ 0) :
    (str ++ 0 :: rest).takeWhile (fun c => c != 0) = str := by
  induction str with
  | nil => rfl
  | cons c cs ih =>
    have hc : (fun c : Nat => c != 0) c = true := by
      simpa using h c (List.mem_cons_self _ _)
    rw [List.cons_append, List.takeWhile_cons_of_pos (p := fun c : Nat => c != 0) hc,
      ih (fun x hx => h x (List.mem_cons_of_mem _ hx))]

/-- `strncpy` of a C string shorter than `n`: the string, padded with NUL. -/
theorem strncpy_short (str : List Nat) (n : Nat) (h : ∀ c ∈ str, c ≠ 0)
    (hl : str.length < n) :
    strncpy (str ++ [0]) n = .ok (str ++ List.replicate (n - str.length) 0) := by
  unfold strncpy
  dsimp only
  rw [takeWhile_nonzero_append str [] h]
  rw [if_neg (by omega)]
  rw [if_pos (by simp)]

/-- A string followed by a NUL reads as that string. -/
theorem cstr_terminated (str rest : List Nat) (h : ∀ c ∈ str, c ≠ 0) :
    cstr (str ++ 0 :: rest) = .ok str := by
  unfold cstr strlen
  dsimp only
  rw [takeWhile_nonzero_append str rest h]
  rw [if_pos (by simp)]
  simp

/-- The copy of a reported text of at most 48 bytes reads as that text. -/
theorem copyField_short (str : List Nat) (h : ∀ c ∈ str, c ≠ 0) (hl : str.length ≤ 48) :
    ∃ d, copyField (some str) = .ok d ∧ cstr d = .ok str ∧ d.length = 50 := by
  unfold copyField
  dsimp only
  rw [strncpy_short str 50 h (by omega)]
  dsimp only
  refine ⟨_, rfl, ?_, by simp; omega⟩
  obtain ⟨k, hk⟩ : ∃ k, 50 - str.length = k + 1 := ⟨50 - str.length - 1, by omega⟩
  rw [hk, List.replicate_succ]
  have hset : (str ++ 0 :: List.replicate k 0).set 49 10
      = str ++ 0 :: (List.replicate k 0).set (49 - str.length - 1) 10 := by
    rw [List.set_append]
    rw [if_neg (by omega)]
    obtain ⟨j, hj⟩ : ∃ j, 49 - str.length = j + 1 := ⟨49 - str.length - 1, by omega⟩
    rw [hj]
    simp [List.set]
  rw [hset]
  exact cstr_terminated str _ h

/-! ## C23: `ArduCastConnection::connect` -/

/-- `connect(d)` for a destination id shorter than 50 bytes: the id is stored, the call
returns the result code of the `writeMsg` call for the CONNECT message, and in every case
the latch is set and `lastMsgAt` is the clock value. -/
theorem connect_short_id (env : Env) (ch : ArduCastConnection) (client : WiFiClientSecure)
    (buf : List Nat) (t : Nat) (str : List Nat) (h : ∀ c ∈ str, c ≠ 0)
    (hl : str.length < 50) :
    ∃ err c1 b1,
      ({ ch with destId := str ++ List.replicate (50 - str.length) 0 }).writeMsg env client buf
          CC_NS_CONNECTION CC_MSG_CONNECT = .ok (err, c1, b1)
      ∧ ch.connect env client buf t (str ++ [0])
          = .ok (err, { ch with destId := str ++ List.replicate (50 - str.length) 0,
                                lastMsgAt := t, connected := true }, c1, b1)
      ∧ cstr (str ++ List.replicate (50 - str.length) 0) = .ok str
      ∧ (err = 0 ∨ err = -1 ∨ err = -2 ∨ err = -3) := by
  have hc : cstr (str ++ List.replicate (50 - str.length) 0) = .ok str := by
    obtain ⟨k, hk⟩ : ∃ k, 50 - str.length = k + 1 := ⟨50 - str.length - 1, by omega⟩
    rw [hk, List.replicate_succ]
    exact cstr_terminated str _ h
  obtain ⟨r, hr⟩ := writeMsg_total env
    { ch with destId := str ++ List.replicate (50 - str.length) 0 } client buf
    CC_NS_CONNECTION CC_MSG_CONNECT str hc
  obtain ⟨err, c1, b1⟩ := r
  refine ⟨err, c1, b1, hr, ?_, hc, writeMsg_code env _ _ _ _ _ err c1 b1 hr⟩
  unfold ArduCastConnection.connect
  rw [strncpy_short str 50 h hl]
  dsimp only
  rw [hr]
  rfl

set_option maxRecDepth 100000 in
/-- C23 (the code at the failing input): `connect(d)` for a destination id `d` of 60 bytes
`a`.  `strncpy(destId, d, sizeof(destId))` stores the first 50 bytes and no NUL, so the
stored id is not `d`; `writeMsg` then takes the length of `destId` with `strlen`, which
runs behind the member: the call has no defined result code. -/
theorem C23_connect_long_id_unterminated :
    strncpy (List.replicate 60 97 ++ [0]) 50 = .ok (List.replicate 50 97)
    ∧ cstr (List.replicate 50 97) = .error .outOfRange
    ∧ (demoChannel [] 0 false).connect demoEnv liveClient (List.replicate CONNBUFFER_SIZE 0) 7
        (List.replicate 60 97 ++ [0]) = .error .outOfRange := by
  decide

/-! ## C21: `ArduCastControl::connect` -/

/-- With no request outstanding and the application latch false `getConnection()` answers
the stored status. -/
theorem getConnection_latch_false (s : ArduCastControl) (hm : s.msgSent = false)
    (hl : s.applicationConnection.connected = false) :
    (getConnection s).1 = s.connectionStatus := by
  have hd : (appStatus s).1 = CH_DISCONNECTED := by
    unfold appStatus
    dsimp only
    rw [getConnectionStatus_latch_false _ _ _ hl]
  unfold getConnection
  rw [hm]
  simp only [Bool.false_eq_true, if_false]
  rw [if_pos hd]
  rfl

/-- A call of `connect(host)` with the host accepting leaves the latch `msgSent`, the
error counter and the application channel as they were, and stores CONNECTED when it
returns 0. -/
theorem connect_up (env : Env) (s s1 : ArduCastControl) (err : Int)
    (h : connect env s true = .ok (err, s1)) :
    s1.msgSent = s.msgSent ∧ s1.errorCount = s.errorCount
    ∧ s1.applicationConnection = s.applicationConnection
    ∧ (err = 0 → s1.connectionStatus = CONNECTED) := by
  unfold connect WiFiClientSecure.connect at h
  simp only [if_true, Bool.not_true, Bool.false_eq_true, if_false] at h
  split at h
  · cases h
  · rename_i r hr
    have h1 : r.1 = err := congrArg Prod.fst (Except.ok.inj h)
    have h2 := congrArg Prod.snd (Except.ok.inj h)
    dsimp only at h2
    have hk : r.2.msgSent = s.msgSent ∧ r.2.errorCount = s.errorCount
        ∧ r.2.applicationConnection = s.applicationConnection := by
      unfold devConnect at hr
      split at hr
      · cases hr
      · cases hr
        exact ⟨rfl, rfl, rfl⟩
    by_cases h0 : r.1 = 0
    · rw [if_pos h0] at h2
      subst h2
      exact ⟨hk.1, hk.2.1, hk.2.2, fun _ => rfl⟩
    · rw [if_neg h0] at h2
      subst h2
      exact ⟨hk.1, hk.2.1, hk.2.2, fun he => absurd (h1.trans he) h0⟩

/-- What holds of `connect(host)`: a failed transport open returns -10 and changes nothing;
a call that returns 0 stores CONNECTED; and if moreover no request is outstanding and the
application channel's latch is false, `getConnection()` right afterwards returns
CONNECTED. -/
theorem connect_facts (env : Env) (s : ArduCastControl) :
    connect env s false = .ok (-10, s)
    ∧ (∀ s1, connect env s true = .ok (0, s1) →
        s1.connectionStatus = CONNECTED
        ∧ (s.msgSent = false → s.applicationConnection.connected = false →
            (getConnection s1).1 = CONNECTED)) := by
  constructor
  · unfold connect WiFiClientSecure.connect
    rfl
  · intro s1 h
    obtain ⟨a1, _, a3, a4⟩ := connect_up env s s1 0 h
    refine ⟨a4 rfl, fun hm hl => ?_⟩
    rw [getConnection_latch_false s1 (a1.trans hm) (by rw [a3]; exact hl)]
    exact a4 rfl

set_option maxRecDepth 100000 in
/-- C21 (the code at the failing input): a reconnect after a lost session.  After the events
of `lostSession` the transport is closed, DISCONNECTED is stored, no request is
outstanding, and the application channel's latch is still set (handshake at 200).
`connect(host)` at 3000 returns 0 and stores CONNECTED, but `getConnection()` right
afterwards returns APPLICATION_RUNNING. -/
theorem C21_reconnect_reports_application_running :
    (run (jsonEnv receiverTextSession receiverDocSession) 10 lostSession freshState).map
        (fun s => (s.connectionStatus, s.msgSent, s.client.connected,
          s.applicationConnection.connected))
      = .ok (DISCONNECTED, false, false, true)
    ∧ ((run (jsonEnv receiverTextSession receiverDocSession) 10 lostSession freshState).bind
        (fun s => (connect (jsonEnv receiverTextSession receiverDocSession)
          { s with millis := 3000 } true).map
            (fun r => (r.1, r.2.connectionStatus, r.2.msgSent, (getConnection r.2).1))))
      = .ok (0, CONNECTED, false, APPLICATION_RUNNING) := by
  decide

end ArduCast
